import Mathlib

/-!
# Identity and access bridge of torpedo (`drivers/backup/auth.go`)

A shallow embedding of the Keycloak bridge: endpoint resolution, token
exchange, the admin-token secret refresh, the directory operations on users,
groups and roles, and the polling for user details.  Go strings are sequences of
code units (`List Char`); a Go function returning `(value, error)` becomes a
`Result` that also records a run-time panic; the process environment, the
Kubernetes secret store and the HTTP transport are external collaborators
reached through a `Sys` record over an abstract external state.
-/

namespace backup

/-- Go `string`: a sequence of code units. -/
abbrev GoString := List Char

/-- Go `error` value, identified by its message. -/
structure GoError where
  msg : GoString
deriving DecidableEq, Repr

/-- Outcome of a Go call of type `(α, error)`: a normal return carrying both
components, or a run-time panic. -/
inductive Result (α : Type) where
  | ret (val : α) (err : Option GoError)
  | panic (msg : GoString)
deriving DecidableEq, Repr

/-! ## Constants of `auth.go` -/

def PxCentralAdminUser : GoString := "px-central-admin".toList
def PxCentralAdminSecretName : GoString := "px-central-admin".toList
def PxCentralAdminSecretNamespace : GoString := "px-backup".toList
def DefaultsecretName : GoString := "pxc-backup-secret".toList
def Issuer : GoString := "OIDC_ENDPOINT".toList
def AuthTokenType : GoString := "bearer".toList
def AuthHeader : GoString := "authorization".toList
def OrgToken : GoString := "PX_BACKUP_ORG_TOKEN".toList
def AdminTokenSecretName : GoString := "px-backup-admin-secret".toList
def AdminTokenSecretNamespace : GoString := "px-backup".toList
def pxBackupNamespace : GoString := "PX_BACKUP_NAMESPACE".toList
def oidcSecretName : GoString := "SECRET_NAME".toList
def PxCentralUIURL : GoString := "PX_CENTRAL_UI_URL".toList

/-! ## `strings.Split` and `strings.Join` -/

/-- Scanner of `strings.Split` for a non-empty separator: `skip` counts the
code units of a matched separator still to be dropped, `acc` holds the
current piece reversed. -/
def splitGo (sep : GoString) : GoString → Nat → GoString → List GoString
  | [], _, acc => [acc.reverse]
  | _ :: cs, k + 1, acc => splitGo sep cs k acc
  | c :: cs, 0, acc =>
    if sep.isPrefixOf (c :: cs) then acc.reverse :: splitGo sep cs (sep.length - 1) []
    else splitGo sep cs 0 (c :: acc)

/-- Go `strings.Split(s, sep)`: the pieces of `s` between the non-overlapping
occurrences of `sep`, found left to right; an empty `sep` explodes `s`. -/
def Split (s sep : GoString) : List GoString :=
  if sep = [] then s.map (fun c => [c]) else splitGo sep s 0 []

/-- Go `strings.Join(elems, sep)`. -/
def Join : List GoString → GoString → GoString
  | [], _ => []
  | [x], _ => x
  | x :: y :: rest, sep => x ++ sep ++ Join (y :: rest) sep

/-! ## External collaborators -/

/-- Go `map[string][]byte`; `none` at the outer level is the nil map. -/
abbrev ByteMap := GoString → Option GoString

/-- Kubernetes `v1.Secret`, reduced to the fields `auth.go` touches. -/
structure Secret where
  Name : GoString
  Namespace : GoString
  Data : Option ByteMap

/-- Read `string(secret.Data[key])`: a nil map or a missing key reads as the
empty string. -/
def Secret.field (s : Secret) (key : GoString) : GoString :=
  match s.Data with
  | none => []
  | some m => (m key).getD []

/-- Request handed to `http.Client.Do`; `Body = none` is the nil reader. -/
structure HTTPRequest where
  Method : GoString
  URL : GoString
  Header : List (GoString × List GoString)
  Body : Option GoString
deriving DecidableEq

/-- Response of `http.Client.Do` as `processHTTPRequest` observes it: the
status, and what `ioutil.ReadAll` yields for the body (bytes and error). -/
structure HTTPResponse where
  StatusCode : Nat
  Body : GoString
  ReadErr : Option GoError
deriving DecidableEq

/-- JSON document as `encoding/json` sees it; object members keep their
order of appearance. -/
inductive JSON where
  | null
  | bool (b : Bool)
  | num (literal : GoString)
  | str (s : GoString)
  | arr (items : List JSON)
  | obj (members : List (GoString × JSON))

/-- Calls that leave the process, in the order they are made. -/
inductive Event where
  | getSecret (name ns : GoString)
  | updateSecret (s : Secret)
  | httpDo (req : HTTPRequest)

/-- The collaborators outside the repository, over an external state `σ`:
process environment, secret store (`k8s.Instance()`), `net/http` and the
syntax analysis of `encoding/json`. -/
structure Sys (σ : Type) where
  Getenv : σ → GoString → GoString
  GetSecret : σ → GoString → GoString → Except GoError Secret × σ
  UpdateSecret : σ → Secret → Except GoError Secret × σ
  NewRequest : GoString → GoString → Option GoError
  Do : σ → HTTPRequest → Except GoError HTTPResponse × σ
  ParseJSON : GoString → Option JSON

/-- Program state: the external state, the package variable
`PxCentralAdminPwd`, and the calls made so far. -/
structure World (σ : Type) where
  ext : σ
  PxCentralAdminPwd : GoString
  trace : List Event

variable {σ : Type}

/-- Call `k8s.Instance().GetSecret(name, ns)`. -/
def k8sGetSecret (S : Sys σ) (name ns : GoString) (w : World σ) :
    Except GoError Secret × World σ :=
  let r := S.GetSecret w.ext name ns
  (r.1, { w with ext := r.2, trace := w.trace ++ [Event.getSecret name ns] })

/-- Call `k8s.Instance().UpdateSecret(secret)`. -/
def k8sUpdateSecret (S : Sys σ) (secret : Secret) (w : World σ) :
    Except GoError Secret × World σ :=
  let r := S.UpdateSecret w.ext secret
  (r.1, { w with ext := r.2, trace := w.trace ++ [Event.updateSecret secret] })

/-! ## Endpoint resolution -/

/-- Source `getOidcSecretName`. -/
def getOidcSecretName (S : Sys σ) (w : World σ) : GoString :=
  let name := S.Getenv w.ext oidcSecretName
  if name = [] then DefaultsecretName else name

/-- Source `GetPxBackupNamespace`. -/
def GetPxBackupNamespace (S : Sys σ) (w : World σ) : GoString :=
  let ns := S.Getenv w.ext pxBackupNamespace
  if ns = [] then AdminTokenSecretNamespace else ns

/-- Message of Go's run-time panic for an index beyond a slice's length. -/
def indexOutOfRange : GoString := "index out of range".toList

/-- Source `getKeycloakEndPoint`. -/
def getKeycloakEndPoint (S : Sys σ) (admin : Bool) (w : World σ) :
    Result GoString × World σ :=
  let keycloakEndpoint := S.Getenv w.ext PxCentralUIURL
  if keycloakEndpoint ≠ [' '] ∧ keycloakEndpoint.length > 0 then
    if admin then
      (.ret (keycloakEndpoint ++ "/auth/admin/realms/master".toList) none, w)
    else
      (.ret (keycloakEndpoint ++ "/auth/realms/master".toList) none, w)
  else
    let name := getOidcSecretName S w
    let ns := GetPxBackupNamespace S w
    match k8sGetSecret S name ns w with
    | (.error err, w1) => (.ret [] (some err), w1)
    | (.ok secret, w1) =>
      let url := secret.field Issuer
      let splitURL := Split url [':']
      if h1 : 1 < splitURL.length then
        let splitURL := splitURL.set 1 (splitURL[1] ++ ['.'] ++ ns ++ ".svc.cluster.local".toList)
        let url := Join splitURL [':']
        if admin then
          let split := Split url "auth".toList
          if h2 : 1 < split.length then
            (.ret (split[0] ++ "auth/admin".toList ++ split[1]) none, w1)
          else (.panic indexOutOfRange, w1)
        else (.ret url none, w1)
      else (.panic indexOutOfRange, w1)

/-! ## `net/url`: form encoding -/

/-- UTF-8 bytes of a code unit, as natural numbers below 256. -/
def utf8Bytes (c : Char) : List Nat :=
  let n := c.toNat
  if n < 128 then [n]
  else if n < 2048 then [192 + n / 64, 128 + n % 64]
  else if n < 65536 then [224 + n / 4096, 128 + n / 64 % 64, 128 + n % 64]
  else [240 + n / 262144, 128 + n / 4096 % 64, 128 + n / 64 % 64, 128 + n % 64]

/-- Upper-case hexadecimal digit of a number below 16. -/
def upperhex (d : Nat) : Char :=
  ("0123456789ABCDEF".toList).getD d '0'

/-- Go `url.QueryEscape`: letters, digits and `-_.~` stay, a space becomes
`+`, every other byte becomes `%XX`. -/
def QueryEscape (s : GoString) : GoString :=
  s.flatMap fun c =>
    if c.isAlphanum || c == '-' || c == '_' || c == '.' || c == '~' then [c]
    else if c == ' ' then ['+']
    else (utf8Bytes c).flatMap fun b => ['%', upperhex (b / 16), upperhex (b % 16)]

/-- Go `url.Values` (`map[string][]string`), one entry per key. -/
abbrev Values := List (GoString × List GoString)

/-- Go `Values.Set`: the key now holds exactly `[value]`. -/
def Values.Set (v : Values) (key value : GoString) : Values :=
  (key, [value]) :: v.filter (fun kv => !(kv.1 == key))

/-- Insert a key into a list of keys sorted by code-unit order. -/
def insertKey (k : GoString) : List GoString → List GoString
  | [] => [k]
  | x :: xs => if k ≤ x then k :: x :: xs else x :: insertKey k xs

/-- Keys of the map in sorted order (`slices.Sort(keys)`). -/
def Values.sortedKeys (v : Values) : List GoString :=
  (v.map Prod.fst).foldr insertKey []

/-- Go `Values.Encode`: `key=value` pairs, both escaped, joined by `&`,
keys in sorted order. -/
def Values.Encode (v : Values) : GoString :=
  Join (v.sortedKeys.flatMap fun k =>
    ((v.lookup k).getD []).map fun x => QueryEscape k ++ ['='] ++ QueryEscape x) ['&']

/-! ## `processHTTPRequest` -/

/-- Call `client.Do(httpRequest)`. -/
def clientDo (S : Sys σ) (req : HTTPRequest) (w : World σ) :
    Except GoError HTTPResponse × World σ :=
  let r := S.Do w.ext req
  (r.1, { w with ext := r.2, trace := w.trace ++ [Event.httpDo req] })

/-- Source `processHTTPRequest`: build the request, send it, read the whole
body.  The status of the response is not looked at. -/
def processHTTPRequest (S : Sys σ) (method url : GoString)
    (headers : List (GoString × List GoString)) (body : Option GoString) (w : World σ) :
    Result GoString × World σ :=
  match S.NewRequest method url with
  | some err => (.ret [] (some err), w)
  | none =>
    let httpRequest : HTTPRequest := { Method := method, URL := url, Header := headers, Body := body }
    match clientDo S httpRequest w with
    | (.error err, w1) => (.ret [] (some err), w1)
    | (.ok httpResponse, w1) => (.ret httpResponse.Body httpResponse.ReadErr, w1)

/-! ## `encoding/json`: decoding into `tokenResponse` -/

/-- Source `tokenResponse`. -/
structure tokenResponse where
  AccessToken : GoString
deriving DecidableEq

/-- Case folding of `encoding/json` key matching, as far as it matters for an
ASCII field name: upper-case ASCII letters, the Kelvin sign and the long s
fold to their lower-case ASCII letter. -/
def foldChar (c : Char) : Char :=
  if c.isUpper then c.toLower
  else if c.toNat = 8490 then 'k'
  else if c.toNat = 383 then 's'
  else c

/-- Whether an object key selects the field tagged `access_token`. -/
def matchesAccessToken (key : GoString) : Bool :=
  key.map foldChar == "access_token".toList

def syntaxError : GoError := ⟨"invalid character in JSON input".toList⟩
def unmarshalTypeError : GoError := ⟨"json: cannot unmarshal value into Go value".toList⟩

/-- Object decoding of `encoding/json` into `tokenResponse`: members are
taken in order; a matching member stores a string, leaves the field alone on
`null`, and records a type error on any other value (the first recorded error
is the one reported, decoding goes on). -/
def decodeMembers : List (GoString × JSON) → tokenResponse → Option GoError →
    tokenResponse × Option GoError
  | [], t, e => (t, e)
  | (k, v) :: rest, t, e =>
    if matchesAccessToken k then
      match v with
      | .str s => decodeMembers rest { AccessToken := s } e
      | .null => decodeMembers rest t e
      | _ => decodeMembers rest t (e.orElse fun _ => some unmarshalTypeError)
    else decodeMembers rest t e

/-- Go `json.Unmarshal(data, &token)` for `token : *tokenResponse`
(`none` is the nil pointer): invalid syntax stores nothing; the literal
`null` sets the pointer to nil; an object is decoded member by member;
any other value is a type error. -/
def Unmarshal (S : Sys σ) (data : GoString) (token : Option tokenResponse) :
    Option tokenResponse × Option GoError :=
  match S.ParseJSON data with
  | none => (token, some syntaxError)
  | some .null => (none, none)
  | some (.obj members) =>
    let r := decodeMembers members (token.getD { AccessToken := [] }) none
    (some r.1, r.2)
  | some _ => (token, some unmarshalTypeError)

/-! ## Token exchange -/

def nilDereference : GoString := "invalid memory address or nil pointer dereference".toList
def nilMapAssignment : GoString := "assignment to entry in nil map".toList

/-- The form of `GetToken`. -/
def tokenForm (userName password : GoString) : Values :=
  let values : Values := []
  let values := values.Set "client_id".toList "pxcentral".toList
  let values := values.Set "username".toList userName
  let values := values.Set "password".toList password
  let values := values.Set "grant_type".toList "password".toList
  values.Set "token-duration".toList "365d".toList

/-- Source `GetToken`. -/
def GetToken (S : Sys σ) (userName password : GoString) (w : World σ) :
    Result GoString × World σ :=
  let values := tokenForm userName password
  match getKeycloakEndPoint S false w with
  | (.panic m, w1) => (.panic m, w1)
  | (.ret _ (some err), w1) => (.ret [] (some err), w1)
  | (.ret keycloakEndPoint none, w1) =>
    let reqURL := keycloakEndPoint ++ "/protocol/openid-connect/token".toList
    let method := "POST".toList
    let headers := [("Content-Type".toList, ["application/x-www-form-urlencoded".toList])]
    match processHTTPRequest S method reqURL headers (some values.Encode) w1 with
    | (.panic m, w2) => (.panic m, w2)
    | (.ret _ (some err), w2) => (.ret [] (some err), w2)
    | (.ret response none, w2) =>
      match Unmarshal S response (some { AccessToken := [] }) with
      | (_, some err) => (.ret [] (some err), w2)
      | (none, none) => (.panic nilDereference, w2)
      | (some token, none) => (.ret token.AccessToken none, w2)

/-- Source `GetPxCentralAdminToken`. -/
def GetPxCentralAdminToken (S : Sys σ) (w : World σ) : Result GoString × World σ :=
  match GetToken S PxCentralAdminUser w.PxCentralAdminPwd w with
  | (.panic m, w1) => (.panic m, w1)
  | (.ret _ (some err), w1) => (.ret [] (some err), w1)
  | (.ret token none, w1) => (.ret token none, w1)

/-! ## Admin-token secret -/

/-- Go `secret.Data[key] = []byte(value)` on a non-nil map. -/
def setData (m : ByteMap) (key value : GoString) : ByteMap :=
  fun k => if k = key then some value else m k

/-- Source `UpdatePxBackupAdminSecret`. -/
def UpdatePxBackupAdminSecret (S : Sys σ) (w : World σ) : Result Unit × World σ :=
  match GetPxCentralAdminToken S w with
  | (.panic m, w1) => (.panic m, w1)
  | (.ret _ (some err), w1) => (.ret () (some err), w1)
  | (.ret pxCentralAdminToken none, w1) =>
    match k8sGetSecret S AdminTokenSecretName AdminTokenSecretNamespace w1 with
    | (.error err, w2) => (.ret () (some err), w2)
    | (.ok secret, w2) =>
      match secret.Data with
      | none => (.panic nilMapAssignment, w2)
      | some m =>
        let secret := { secret with Data := some (setData m OrgToken pxCentralAdminToken) }
        match k8sUpdateSecret S secret w2 with
        | (.error err, w3) => (.ret () (some err), w3)
        | (.ok _, w3) => (.ret () none, w3)

/-- Source `GetAdminTokenFromSecret`. -/
def GetAdminTokenFromSecret (S : Sys σ) (w : World σ) : Result GoString × World σ :=
  match UpdatePxBackupAdminSecret S w with
  | (.panic m, w1) => (.panic m, w1)
  | (.ret _ (some err), w1) => (.ret [] (some err), w1)
  | (.ret _ none, w1) =>
    match k8sGetSecret S AdminTokenSecretName AdminTokenSecretNamespace w1 with
    | (.error err, w2) => (.ret [] (some err), w2)
    | (.ok secret, w2) =>
      let token := secret.field OrgToken
      if token = [] then (.ret [] (some ⟨"admin token is empty".toList⟩), w2)
      else (.ret token none, w2)

/-! ## A concrete laboratory system -/

/-- Concrete external state used to evaluate the model: environment
variables, stored secrets, and the answer the IdP gives to every request. -/
structure Lab where
  env : List (GoString × GoString)
  secrets : List Secret
  answer : Except GoError HTTPResponse

/-- Store a secret in place of the one with the same name and namespace. -/
def Lab.put (l : Lab) (s : Secret) : Lab :=
  let others := l.secrets.filter (fun t => !(t.Name == s.Name && t.Namespace == s.Namespace))
  { l with secrets := s :: others }

/-- Laboratory collaborators: look-ups in `Lab`, a store that keeps what it
is given, a transport that accepts every request. -/
def labSys (parse : GoString → Option JSON) : Sys Lab where
  Getenv l k := (l.env.lookup k).getD []
  GetSecret l name ns :=
    match l.secrets.find? (fun t => t.Name == name && t.Namespace == ns) with
    | some s => (.ok s, l)
    | none => (.error ⟨"secret not found".toList⟩, l)
  UpdateSecret l s := (.ok s, l.put s)
  NewRequest _ _ := none
  Do l _ := (l.answer, l)
  ParseJSON := parse

/-- Initial program state over a laboratory. -/
def labWorld (l : Lab) : World Lab :=
  { ext := l, PxCentralAdminPwd := "Password1".toList, trace := [] }

/-- Secret `pxc-backup-secret` in namespace `ns` with the given data. -/
def oidcSecret (ns : GoString) (data : Option ByteMap) : Secret :=
  { Name := DefaultsecretName, Namespace := ns, Data := data }

/-- Data map with the single key `key`. -/
def single (key value : GoString) : ByteMap :=
  fun k => if k = key then some value else none

/-- A JSON analysis that rejects every input. -/
def noJSON : GoString → Option JSON := fun _ => none

/-- Laboratory whose only setting is the override `http://host:1234`. -/
def hostLab : Lab :=
  { env := [(PxCentralUIURL, "http://host:1234".toList)], secrets := [],
    answer := .error ⟨"connection refused".toList⟩ }

/-- Laboratory in discovery mode: namespace setting `ns` (empty for unset)
and a discovery secret stored in namespace `store` with the given data. -/
def discoveryLab (ns store : GoString) (data : Option ByteMap) : Lab :=
  { env := [(pxBackupNamespace, ns)], secrets := [oidcSecret store data],
    answer := .error ⟨"connection refused".toList⟩ }

/-- The issuer value shipped with px-backup. -/
def defaultIssuer : GoString := "http://pxcentral-keycloak-http:80/auth/realms/master".toList
/-- Discovery with the shipped issuer in namespace `px-backup`. -/
def shippedLab : Lab :=
  discoveryLab "px-backup".toList "px-backup".toList (some (single Issuer defaultIssuer))

/-- Discovery with the shipped issuer when px-backup runs in namespace
`px-auth`. -/
def authNamespaceLab : Lab :=
  discoveryLab "px-auth".toList "px-auth".toList (some (single Issuer defaultIssuer))

/-- Discovery where the secret exists and holds other data, but no
`OIDC_ENDPOINT` field. -/
def noIssuerLab : Lab :=
  discoveryLab [] "px-backup".toList (some (single "OIDC_CLIENT_ID".toList "pxcentral".toList))

/-- Laboratory whose override is not a URL. -/
def malformedLab : Lab :=
  { env := [(PxCentralUIURL, "not a url".toList)], secrets := [],
    answer := .error ⟨"connection refused".toList⟩ }
/-- The HTTP requests among the calls of a trace, in order. -/
def httpRequests : List Event → List HTTPRequest
  | [] => []
  | .httpDo r :: es => r :: httpRequests es
  | _ :: es => httpRequests es

/-- The secrets handed to `UpdateSecret` among the calls of a trace. -/
def writes : List Event → List Secret
  | [] => []
  | .updateSecret s :: es => s :: writes es
  | _ :: es => writes es

/-- The request `GetToken` is expected to send to the endpoint `endpoint`. -/
def tokenRequest (endpoint userName password : GoString) : HTTPRequest :=
  { Method := "POST".toList
    URL := endpoint ++ "/protocol/openid-connect/token".toList
    Header := [("Content-Type".toList, ["application/x-www-form-urlencoded".toList])]
    Body := some ("client_id=pxcentral&grant_type=password&password=".toList
      ++ QueryEscape password ++ "&token-duration=365d&username=".toList
      ++ QueryEscape userName) }

/-- JSON analysis given by a table from texts to documents. -/
def tableJSON (table : List (GoString × JSON)) : GoString → Option JSON :=
  fun data => table.lookup data

/-- Laboratory with the override `http://host:1234` whose IdP answers every
request with the given status and body. -/
def answerLab (status : Nat) (body : GoString) (secrets : List Secret) : Lab :=
  { env := [(PxCentralUIURL, "http://host:1234".toList)], secrets := secrets,
    answer := .ok { StatusCode := status, Body := body, ReadErr := none } }
/-- Body `{"access_token":""}`. -/
def emptyTokenBody : GoString := "\x7b\"access_token\":\"\"\x7d".toList

/-- Body `{"access_token":"eyJhbGciOi"}`. -/
def goodTokenBody : GoString := "\x7b\"access_token\":\"eyJhbGciOi\"\x7d".toList

/-- Body `{"error":"invalid_grant"}`, Keycloak's answer to bad credentials. -/
def invalidGrantBody : GoString := "\x7b\"error\":\"invalid_grant\"\x7d".toList

/-- Body of an HTML error page, not JSON. -/
def htmlBody : GoString := "<html>502 Bad Gateway</html>".toList

/-- JSON analysis of the bodies above. -/
def labJSON : GoString → Option JSON :=
  tableJSON
    [(emptyTokenBody, .obj [("access_token".toList, .str [])]),
     (goodTokenBody, .obj [("access_token".toList, .str "eyJhbGciOi".toList)]),
     (invalidGrantBody, .obj [("error".toList, .str "invalid_grant".toList)])]
/-- The admin-token secret holding a stale token and one unrelated key. -/
def adminSecret : Secret :=
  { Name := AdminTokenSecretName, Namespace := AdminTokenSecretNamespace,
    Data := some (setData (single "owner".toList "px-backup".toList) OrgToken "stale".toList) }

/-- Laboratory for the admin-token refresh: the IdP hands out the token of
`goodTokenBody`, the store holds `adminSecret`. -/
def refreshLab : Lab := answerLab 200 goodTokenBody [adminSecret]
/-- Collaborators whose store accepts every update and silently keeps what
it had. -/
def droppingSys (parse : GoString → Option JSON) : Sys Lab :=
  { labSys parse with UpdateSecret := fun l s => (.ok s, l) }

/-- The admin-token secret before any token was stored in it. -/
def freshAdminSecret : Secret :=
  { Name := AdminTokenSecretName, Namespace := AdminTokenSecretNamespace,
    Data := some (single "owner".toList "px-backup".toList) }

/-- Laboratory for the admin-token refresh with the fresh secret, and with
`PX_BACKUP_NAMESPACE` pointing elsewhere. -/
def freshLab : Lab :=
  { env := [(PxCentralUIURL, "http://host:1234".toList),
            (pxBackupNamespace, "central".toList)],
    secrets := [freshAdminSecret],
    answer := .ok { StatusCode := 200, Body := goodTokenBody, ReadErr := none } }

/-! ## Outgoing context -/

/-- Go `metadata.MD` (`map[string][]string`), one entry per key. -/
abbrev MD := List (GoString × List GoString)

/-- Go `strings.ToLower` on a key, for the ASCII letters the keys here are made of. -/
def toLowerKey (k : GoString) : GoString := k.map Char.toLower

/-- Append a value under a key of a metadata map (`md[key] = append(md[key], v)`). -/
def MD.add : MD → GoString → GoString → MD
  | [], key, v => [(key, [v])]
  | (k, vs) :: rest, key, v =>
    if k = key then (k, vs ++ [v]) :: rest else (k, vs) :: MD.add rest key v

/-- Go `metadata.New(m)`: every key lower-cased, its value appended. -/
def metadataNew (m : List (GoString × GoString)) : MD :=
  m.foldl (fun md kv => md.add (toLowerKey kv.1) kv.2) []

/-- Go `context.Context`, reduced to its outgoing gRPC metadata (`none` on
the background context). -/
structure Context where
  outgoing : Option MD
deriving DecidableEq

/-- Go `metadata.NewOutgoingContext(ctx, md)`. -/
def NewOutgoingContext (_ctx : Context) (md : MD) : Context := { outgoing := some md }

/-- Source `GetCtxWithToken`. -/
def GetCtxWithToken (token : GoString) : Context :=
  let ctx : Context := { outgoing := none }
  let md := metadataNew [(AuthHeader, AuthTokenType ++ " ".toList ++ token)]
  NewOutgoingContext ctx md

/-! ## Directory entities -/

/-- Source `KeycloakUserCredentials`. -/
structure KeycloakUserCredentials where
  Type_ : GoString
  Temporary : Bool
  Value : GoString
deriving DecidableEq

/-- Source `KeycloakUserRepresentation`; `Credentials = none` is the nil slice. -/
structure KeycloakUserRepresentation where
  ID : GoString
  Name : GoString
  FirstName : GoString
  LastName : GoString
  EmailVerified : Bool
  Enabled : Bool
  Email : GoString
  Credentials : Option (List KeycloakUserCredentials)
deriving DecidableEq

/-- Source `RoleRespresentationComposite`; `none` is the nil map or slice. -/
structure RoleRespresentationComposite where
  Client : Option (List (GoString × GoString))
  Realm : Option (List GoString)
deriving DecidableEq

/-- Source `KeycloakRoleRepresentation`. -/
structure KeycloakRoleRepresentation where
  ID : GoString
  Name : GoString
  Description : GoString
  Composite : Bool
  ClientRole : Bool
  ContainerID : GoString
  Attributes : Option (List (GoString × GoString))
  Composites : RoleRespresentationComposite
deriving DecidableEq

/-- Source `KeycloakGroupRepresentation`. -/
structure KeycloakGroupRepresentation where
  Name : GoString
  ID : GoString
  Path : GoString
  SubGroups : Option (List GoString)
deriving DecidableEq

/-- Source `KeycloakGroupAdd`. -/
structure KeycloakGroupAdd where
  Name : GoString
deriving DecidableEq

/-! ## JSON documents of the entities, by their struct tags -/

/-- Document of a `map[string]string`: `null` for the nil map, else an object
with the keys in sorted order. -/
def mapJSON : Option (List (GoString × GoString)) → JSON
  | none => .null
  | some m =>
    .obj (((m.map Prod.fst).foldr insertKey []).map fun k => (k, .str ((m.lookup k).getD [])))

/-- Document of a `[]string`. -/
def stringsJSON : Option (List GoString) → JSON
  | none => .null
  | some xs => .arr (xs.map JSON.str)

/-- Document of a `KeycloakUserCredentials`. -/
def credentialsJSON (c : KeycloakUserCredentials) : JSON :=
  .obj [("type".toList, .str c.Type_), ("temporary".toList, .bool c.Temporary),
        ("value".toList, .str c.Value)]

/-- Document of a `KeycloakUserRepresentation`. -/
def userJSON (u : KeycloakUserRepresentation) : JSON :=
  .obj [("id".toList, .str u.ID), ("username".toList, .str u.Name),
        ("firstName".toList, .str u.FirstName), ("lastName".toList, .str u.LastName),
        ("emailVerified".toList, .bool u.EmailVerified), ("enabled".toList, .bool u.Enabled),
        ("email".toList, .str u.Email),
        ("credentials".toList,
          match u.Credentials with
          | none => .null
          | some cs => .arr (cs.map credentialsJSON))]

/-- Document of a `KeycloakRoleRepresentation`. -/
def roleJSON (r : KeycloakRoleRepresentation) : JSON :=
  .obj [("id".toList, .str r.ID), ("name".toList, .str r.Name),
        ("description".toList, .str r.Description), ("composite".toList, .bool r.Composite),
        ("clientRole".toList, .bool r.ClientRole), ("containerId".toList, .str r.ContainerID),
        ("attributes".toList, mapJSON r.Attributes),
        ("composites".toList,
          .obj [("client".toList, mapJSON r.Composites.Client),
                ("realm".toList, stringsJSON r.Composites.Realm)])]

/-- Document of a `[]KeycloakRoleRepresentation` (never nil where it is used). -/
def rolesJSON (rs : List KeycloakRoleRepresentation) : JSON := .arr (rs.map roleJSON)

/-- Document of a `KeycloakGroupAdd`. -/
def groupAddJSON (g : KeycloakGroupAdd) : JSON := .obj [("name".toList, .str g.Name)]

/-- The text side of `encoding/json`, external to the repository:
`Marshal` writes a document as text, the `Unmarshal` functions decode a
response body into a slice of the given element type (`var xs []T;
json.Unmarshal(body, &xs)`), yielding the slice and the error. -/
structure Codec where
  Marshal : JSON → GoString × Option GoError
  UnmarshalUsers : GoString → List KeycloakUserRepresentation × Option GoError
  UnmarshalRoles : GoString → List KeycloakRoleRepresentation × Option GoError
  UnmarshalGroups : GoString → List KeycloakGroupRepresentation × Option GoError

/-- Go `http.Header`, in order of insertion. -/
abbrev Header := List (GoString × List GoString)

/-! ## Directory operations -/

/-- Source `GetCommonHTTPHeaders`. -/
def GetCommonHTTPHeaders (S : Sys σ) (userName password : GoString) (w : World σ) :
    Result Header × World σ :=
  match GetToken S userName password w with
  | (.panic m, w1) => (.panic m, w1)
  | (.ret _ (some err), w1) => (.ret [] (some err), w1)
  | (.ret token none, w1) =>
    let headers : Header := []
    let headers := headers ++ [("Authorization".toList, ["Bearer ".toList ++ token])]
    let headers := headers ++ [("Content-Type".toList, ["application/json".toList])]
    (.ret headers none, w1)

/-- Source `GetAllRoles`. -/
def GetAllRoles (S : Sys σ) (J : Codec) (w : World σ) :
    Result (List KeycloakRoleRepresentation) × World σ :=
  match GetCommonHTTPHeaders S PxCentralAdminUser w.PxCentralAdminPwd w with
  | (.panic m, w1) => (.panic m, w1)
  | (.ret _ (some err), w1) => (.ret [] (some err), w1)
  | (.ret headers none, w1) =>
    match getKeycloakEndPoint S true w1 with
    | (.panic m, w2) => (.panic m, w2)
    | (.ret _ (some err), w2) => (.ret [] (some err), w2)
    | (.ret keycloakEndPoint none, w2) =>
      let reqURL := keycloakEndPoint ++ "/roles".toList
      match processHTTPRequest S "GET".toList reqURL headers none w2 with
      | (.panic m, w3) => (.panic m, w3)
      | (.ret _ (some err), w3) => (.ret [] (some err), w3)
      | (.ret response none, w3) =>
        match J.UnmarshalRoles response with
        | (_, some err) => (.ret [] (some err), w3)
        | (roles, none) => (.ret roles none, w3)

/-- The loop of `GetRoleID`: id of the first role named `role`, else the
zero value. -/
def scanRoleID : List KeycloakRoleRepresentation → GoString → GoString
  | [], _ => []
  | r :: rest, role => if r.Name = role then r.ID else scanRoleID rest role

/-- Source `GetRoleID`. -/
def GetRoleID (S : Sys σ) (J : Codec) (role : GoString) (w : World σ) :
    Result GoString × World σ :=
  match GetAllRoles S J w with
  | (.panic m, w1) => (.panic m, w1)
  | (.ret _ (some err), w1) => (.ret [] (some err), w1)
  | (.ret roles none, w1) => (.ret (scanRoleID roles role) none, w1)

/-- The loop of `FetchIDOfUser`: id of the first user named `userName`, else
the zero value. -/
def scanUserID : List KeycloakUserRepresentation → GoString → GoString
  | [], _ => []
  | u :: rest, userName => if u.Name = userName then u.ID else scanUserID rest userName

/-- Source `FetchIDOfUser`. -/
def FetchIDOfUser (S : Sys σ) (J : Codec) (userName : GoString) (w : World σ) :
    Result GoString × World σ :=
  match GetCommonHTTPHeaders S PxCentralAdminUser w.PxCentralAdminPwd w with
  | (.panic m, w1) => (.panic m, w1)
  | (.ret _ (some err), w1) => (.ret [] (some err), w1)
  | (.ret headers none, w1) =>
    match getKeycloakEndPoint S true w1 with
    | (.panic m, w2) => (.panic m, w2)
    | (.ret _ (some err), w2) => (.ret [] (some err), w2)
    | (.ret keycloakEndPoint none, w2) =>
      let reqURL := keycloakEndPoint ++ "/users".toList
      match processHTTPRequest S "GET".toList reqURL headers none w2 with
      | (.panic m, w3) => (.panic m, w3)
      | (.ret _ (some err), w3) => (.ret [] (some err), w3)
      | (.ret response none, w3) =>
        match J.UnmarshalUsers response with
        | (_, some err) => (.ret [] (some err), w3)
        | (users, none) => (.ret (scanUserID users userName) none, w3)

/-- Source `GetAllGroups`. -/
def GetAllGroups (S : Sys σ) (J : Codec) (w : World σ) :
    Result (List KeycloakGroupRepresentation) × World σ :=
  match GetCommonHTTPHeaders S PxCentralAdminUser w.PxCentralAdminPwd w with
  | (.panic m, w1) => (.panic m, w1)
  | (.ret _ (some err), w1) => (.ret [] (some err), w1)
  | (.ret headers none, w1) =>
    match getKeycloakEndPoint S true w1 with
    | (.panic m, w2) => (.panic m, w2)
    | (.ret _ (some err), w2) => (.ret [] (some err), w2)
    | (.ret keycloakEndPoint none, w2) =>
      let reqURL := keycloakEndPoint ++ "/groups".toList
      match processHTTPRequest S "GET".toList reqURL headers none w2 with
      | (.panic m, w3) => (.panic m, w3)
      | (.ret _ (some err), w3) => (.ret [] (some err), w3)
      | (.ret response none, w3) =>
        match J.UnmarshalGroups response with
        | (_, some err) => (.ret [] (some err), w3)
        | (groups, none) => (.ret groups none, w3)

/-- The loop of `FetchIDOfGroup`: id of the first group named `name`, else
the zero value. -/
def scanGroupID : List KeycloakGroupRepresentation → GoString → GoString
  | [], _ => []
  | g :: rest, name => if g.Name = name then g.ID else scanGroupID rest name

/-- Source `FetchIDOfGroup`.  When `GetAllGroups` fails the source returns
`"", nil`. -/
def FetchIDOfGroup (S : Sys σ) (J : Codec) (name : GoString) (w : World σ) :
    Result GoString × World σ :=
  match GetAllGroups S J w with
  | (.panic m, w1) => (.panic m, w1)
  | (.ret _ (some _), w1) => (.ret [] none, w1)
  | (.ret groups none, w1) => (.ret (scanGroupID groups name) none, w1)

/-- Source `AddRoleToUser`. -/
def AddRoleToUser (S : Sys σ) (J : Codec) (userName role description : GoString)
    (w : World σ) : Result Unit × World σ :=
  match FetchIDOfUser S J userName w with
  | (.panic m, w1) => (.panic m, w1)
  | (.ret _ (some err), w1) => (.ret () (some err), w1)
  | (.ret clientID none, w1) =>
    match GetRoleID S J role w1 with
    | (.panic m, w2) => (.panic m, w2)
    | (.ret _ (some err), w2) => (.ret () (some err), w2)
    | (.ret roleID none, w2) =>
      let kRoles : List KeycloakRoleRepresentation := []
      let kRole : KeycloakRoleRepresentation :=
        { ID := roleID, ClientRole := false, Composite := false,
          ContainerID := "master".toList, Description := description, Name := role,
          Attributes := none, Composites := { Client := none, Realm := none } }
      let kRoles := kRoles ++ [kRole]
      match J.Marshal (rolesJSON kRoles) with
      | (_, some err) => (.ret () (some err), w2)
      | (roleBytes, none) =>
        match getKeycloakEndPoint S true w2 with
        | (.panic m, w3) => (.panic m, w3)
        | (.ret _ (some err), w3) => (.ret () (some err), w3)
        | (.ret keycloakEndPoint none, w3) =>
          let reqURL := keycloakEndPoint ++ "/users/".toList ++ clientID
            ++ "/role-mappings/realm".toList
          let method := "POST".toList
          match GetCommonHTTPHeaders S PxCentralAdminUser w3.PxCentralAdminPwd w3 with
          | (.panic m, w4) => (.panic m, w4)
          | (.ret _ (some err), w4) => (.ret () (some err), w4)
          | (.ret headers none, w4) =>
            match processHTTPRequest S method reqURL headers (some roleBytes) w4 with
            | (.panic m, w5) => (.panic m, w5)
            | (.ret _ (some err), w5) => (.ret () (some err), w5)
            | (.ret _ none, w5) => (.ret () none, w5)

/-- Source `AddRoleToGroup`. -/
def AddRoleToGroup (S : Sys σ) (J : Codec) (groupName role description : GoString)
    (w : World σ) : Result Unit × World σ :=
  match FetchIDOfGroup S J groupName w with
  | (.panic m, w1) => (.panic m, w1)
  | (.ret _ (some err), w1) => (.ret () (some err), w1)
  | (.ret groupID none, w1) =>
    match GetRoleID S J role w1 with
    | (.panic m, w2) => (.panic m, w2)
    | (.ret _ (some err), w2) => (.ret () (some err), w2)
    | (.ret roleID none, w2) =>
      let kRoles : List KeycloakRoleRepresentation := []
      let kRole : KeycloakRoleRepresentation :=
        { ID := roleID, ClientRole := false, Composite := false,
          ContainerID := "master".toList, Description := description, Name := role,
          Attributes := none, Composites := { Client := none, Realm := none } }
      let kRoles := kRoles ++ [kRole]
      match J.Marshal (rolesJSON kRoles) with
      | (_, some err) => (.ret () (some err), w2)
      | (roleBytes, none) =>
        match getKeycloakEndPoint S true w2 with
        | (.panic m, w3) => (.panic m, w3)
        | (.ret _ (some err), w3) => (.ret () (some err), w3)
        | (.ret keycloakEndPoint none, w3) =>
          let reqURL := keycloakEndPoint ++ "/groups/".toList ++ groupID
            ++ "/role-mappings/realm".toList
          let method := "POST".toList
          match GetCommonHTTPHeaders S PxCentralAdminUser w3.PxCentralAdminPwd w3 with
          | (.panic m, w4) => (.panic m, w4)
          | (.ret _ (some err), w4) => (.ret () (some err), w4)
          | (.ret headers none, w4) =>
            match processHTTPRequest S method reqURL headers (some roleBytes) w4 with
            | (.panic m, w5) => (.panic m, w5)
            | (.ret _ (some err), w5) => (.ret () (some err), w5)
            | (.ret _ none, w5) => (.ret () none, w5)

/-- Source `DeleteRoleFromUser`. -/
def DeleteRoleFromUser (S : Sys σ) (J : Codec) (userName role description : GoString)
    (w : World σ) : Result Unit × World σ :=
  match FetchIDOfUser S J userName w with
  | (.panic m, w1) => (.panic m, w1)
  | (.ret _ (some err), w1) => (.ret () (some err), w1)
  | (.ret clientID none, w1) =>
    match GetRoleID S J role w1 with
    | (.panic m, w2) => (.panic m, w2)
    | (.ret _ (some err), w2) => (.ret () (some err), w2)
    | (.ret roleID none, w2) =>
      let kRoles : List KeycloakRoleRepresentation := []
      let kRole : KeycloakRoleRepresentation :=
        { ID := roleID, ClientRole := false, Composite := false,
          ContainerID := "master".toList, Description := description, Name := role,
          Attributes := none, Composites := { Client := none, Realm := none } }
      let kRoles := kRoles ++ [kRole]
      match J.Marshal (rolesJSON kRoles) with
      | (_, some err) => (.ret () (some err), w2)
      | (roleBytes, none) =>
        match getKeycloakEndPoint S true w2 with
        | (.panic m, w3) => (.panic m, w3)
        | (.ret _ (some err), w3) => (.ret () (some err), w3)
        | (.ret keycloakEndPoint none, w3) =>
          let reqURL := keycloakEndPoint ++ "/users/".toList ++ clientID
            ++ "/role-mappings/realm".toList
          let method := "DELETE".toList
          match GetCommonHTTPHeaders S PxCentralAdminUser w3.PxCentralAdminPwd w3 with
          | (.panic m, w4) => (.panic m, w4)
          | (.ret _ (some err), w4) => (.ret () (some err), w4)
          | (.ret headers none, w4) =>
            match processHTTPRequest S method reqURL headers (some roleBytes) w4 with
            | (.panic m, w5) => (.panic m, w5)
            | (.ret _ (some err), w5) => (.ret () (some err), w5)
            | (.ret _ none, w5) => (.ret () none, w5)

/-- Source `DeleteRoleFromGroup`. -/
def DeleteRoleFromGroup (S : Sys σ) (J : Codec) (groupName role description : GoString)
    (w : World σ) : Result Unit × World σ :=
  match FetchIDOfGroup S J groupName w with
  | (.panic m, w1) => (.panic m, w1)
  | (.ret _ (some err), w1) => (.ret () (some err), w1)
  | (.ret groupID none, w1) =>
    match GetRoleID S J role w1 with
    | (.panic m, w2) => (.panic m, w2)
    | (.ret _ (some err), w2) => (.ret () (some err), w2)
    | (.ret roleID none, w2) =>
      let kRoles : List KeycloakRoleRepresentation := []
      let kRole : KeycloakRoleRepresentation :=
        { ID := roleID, ClientRole := false, Composite := false,
          ContainerID := "master".toList, Description := description, Name := role,
          Attributes := none, Composites := { Client := none, Realm := none } }
      let kRoles := kRoles ++ [kRole]
      match J.Marshal (rolesJSON kRoles) with
      | (_, some err) => (.ret () (some err), w2)
      | (roleBytes, none) =>
        match getKeycloakEndPoint S true w2 with
        | (.panic m, w3) => (.panic m, w3)
        | (.ret _ (some err), w3) => (.ret () (some err), w3)
        | (.ret keycloakEndPoint none, w3) =>
          let reqURL := keycloakEndPoint ++ "/groups/".toList ++ groupID
            ++ "/role-mappings/realm".toList
          let method := "DELETE".toList
          match GetCommonHTTPHeaders S PxCentralAdminUser w3.PxCentralAdminPwd w3 with
          | (.panic m, w4) => (.panic m, w4)
          | (.ret _ (some err), w4) => (.ret () (some err), w4)
          | (.ret headers none, w4) =>
            match processHTTPRequest S method reqURL headers (some roleBytes) w4 with
            | (.panic m, w5) => (.panic m, w5)
            | (.ret _ (some err), w5) => (.ret () (some err), w5)
            | (.ret _ none, w5) => (.ret () none, w5)

/-- Source `AddUser`. -/
def AddUser (S : Sys σ) (J : Codec) (userName firstName lastName email password : GoString)
    (w : World σ) : Result Unit × World σ :=
  match getKeycloakEndPoint S true w with
  | (.panic m, w1) => (.panic m, w1)
  | (.ret _ (some err), w1) => (.ret () (some err), w1)
  | (.ret keycloakEndPoint none, w1) =>
    let reqURL := keycloakEndPoint ++ "/users".toList
    let method := "POST".toList
    match GetCommonHTTPHeaders S PxCentralAdminUser w1.PxCentralAdminPwd w1 with
    | (.panic m, w2) => (.panic m, w2)
    | (.ret _ (some err), w2) => (.ret () (some err), w2)
    | (.ret headers none, w2) =>
      let userRep : KeycloakUserRepresentation :=
        { ID := [], Name := userName, FirstName := firstName, LastName := lastName,
          EmailVerified := false, Email := email, Enabled := true,
          Credentials := some [{ Type_ := "password".toList, Temporary := false,
                                 Value := password }] }
      match J.Marshal (userJSON userRep) with
      | (_, some err) => (.ret () (some err), w2)
      | (userBytes, none) =>
        match processHTTPRequest S method reqURL headers (some userBytes) w2 with
        | (.panic m, w3) => (.panic m, w3)
        | (.ret _ (some err), w3) => (.ret () (some err), w3)
        | (.ret _ none, w3) => (.ret () none, w3)

/-- Source `DeleteUser`. -/
def DeleteUser (S : Sys σ) (J : Codec) (userName : GoString) (w : World σ) :
    Result Unit × World σ :=
  match getKeycloakEndPoint S true w with
  | (.panic m, w1) => (.panic m, w1)
  | (.ret _ (some err), w1) => (.ret () (some err), w1)
  | (.ret keycloakEndPoint none, w1) =>
    match FetchIDOfUser S J userName w1 with
    | (.panic m, w2) => (.panic m, w2)
    | (.ret _ (some err), w2) => (.ret () (some err), w2)
    | (.ret userID none, w2) =>
      let reqURL := keycloakEndPoint ++ "/users/".toList ++ userID
      let method := "DELETE".toList
      match GetCommonHTTPHeaders S PxCentralAdminUser w2.PxCentralAdminPwd w2 with
      | (.panic m, w3) => (.panic m, w3)
      | (.ret _ (some err), w3) => (.ret () (some err), w3)
      | (.ret headers none, w3) =>
        match processHTTPRequest S method reqURL headers none w3 with
        | (.panic m, w4) => (.panic m, w4)
        | (.ret _ (some err), w4) => (.ret () (some err), w4)
        | (.ret _ none, w4) => (.ret () none, w4)

/-- Source `AddGroup`. -/
def AddGroup (S : Sys σ) (J : Codec) (group : GoString) (w : World σ) :
    Result Unit × World σ :=
  match getKeycloakEndPoint S true w with
  | (.panic m, w1) => (.panic m, w1)
  | (.ret _ (some err), w1) => (.ret () (some err), w1)
  | (.ret keycloakEndPoint none, w1) =>
    let reqURL := keycloakEndPoint ++ "/groups".toList
    let method := "POST".toList
    match GetCommonHTTPHeaders S PxCentralAdminUser w1.PxCentralAdminPwd w1 with
    | (.panic m, w2) => (.panic m, w2)
    | (.ret _ (some err), w2) => (.ret () (some err), w2)
    | (.ret headers none, w2) =>
      let groups : KeycloakGroupAdd := { Name := group }
      match J.Marshal (groupAddJSON groups) with
      | (_, some err) => (.ret () (some err), w2)
      | (userBytes, none) =>
        match processHTTPRequest S method reqURL headers (some userBytes) w2 with
        | (.panic m, w3) => (.panic m, w3)
        | (.ret _ (some err), w3) => (.ret () (some err), w3)
        | (.ret _ none, w3) => (.ret () none, w3)

/-- Source `DeleteGroup`. -/
def DeleteGroup (S : Sys σ) (J : Codec) (group : GoString) (w : World σ) :
    Result Unit × World σ :=
  match getKeycloakEndPoint S true w with
  | (.panic m, w1) => (.panic m, w1)
  | (.ret _ (some err), w1) => (.ret () (some err), w1)
  | (.ret keycloakEndPoint none, w1) =>
    match FetchIDOfGroup S J group w1 with
    | (.panic m, w2) => (.panic m, w2)
    | (.ret _ (some err), w2) => (.ret () (some err), w2)
    | (.ret groupID none, w2) =>
      let reqURL := keycloakEndPoint ++ "/groups/".toList ++ groupID
      let method := "DELETE".toList
      match GetCommonHTTPHeaders S PxCentralAdminUser w2.PxCentralAdminPwd w2 with
      | (.panic m, w3) => (.panic m, w3)
      | (.ret _ (some err), w3) => (.ret () (some err), w3)
      | (.ret headers none, w3) =>
        match processHTTPRequest S method reqURL headers none w3 with
        | (.panic m, w4) => (.panic m, w4)
        | (.ret _ (some err), w4) => (.ret () (some err), w4)
        | (.ret _ none, w4) => (.ret () none, w4)

/-! ## Bounded retry -/

/-- Outcome of one run of a retried task `func() (interface{}, bool, error)`. -/
inductive Attempt (α : Type) where
  | done (out : α) (retry : Bool) (err : Option GoError)
  | panic (msg : GoString)

/-- Time as the retry sees it, over a state `τ`: the clock in milliseconds,
sleeping, and the error that reports an exhausted deadline together with the
causes seen on the way. -/
structure Timer (τ : Type) where
  Now : τ → Nat
  Sleep : τ → Nat → τ
  ErrTimedOut : Nat → List GoString → GoError

/-- Modelled from the spec: the loop of `task.DoRetryWithTimeout` (package
sched-ops/task, not among the sources), a retry-until-deadline with a fixed
polling interval.  Before each attempt the deadline is checked; an attempt
without error ends the retry with its output, an error that is not retryable
is returned as it is, a retryable error is remembered and followed by a sleep
of the interval.  An exhausted deadline yields the terminal error wrapping
the causes.  `fuel` bounds the number of attempts; `none` means no return
within that bound. -/
def retryLoop {τ α : Type} (T : Timer τ) (t : τ → Attempt α × τ)
    (timeout timeBeforeRetry deadline : Nat) :
    Nat → List GoString → τ → Option (Result (Option α) × τ)
  | 0, _, _ => none
  | fuel + 1, errs, s =>
    if deadline ≤ T.Now s then some (.ret none (some (T.ErrTimedOut timeout errs)), s)
    else
      match t s with
      | (.panic m, s1) => some (.panic m, s1)
      | (.done out _ none, s1) => some (.ret (some out) none, s1)
      | (.done _ false (some err), s1) => some (.ret none (some err), s1)
      | (.done _ true (some err), s1) =>
        retryLoop T t timeout timeBeforeRetry deadline fuel (errs ++ [err.msg])
          (T.Sleep s1 timeBeforeRetry)

/-- Modelled from the spec: `task.DoRetryWithTimeout(t, timeout,
timeBeforeRetry)` (package sched-ops/task, not among the sources): the
deadline is `timeout` after the call, then `retryLoop`. -/
def DoRetryWithTimeout {τ α : Type} (T : Timer τ) (t : τ → Attempt α × τ)
    (timeout timeBeforeRetry fuel : Nat) (s : τ) : Option (Result (Option α) × τ) :=
  retryLoop T t timeout timeBeforeRetry (T.Now s + timeout) fuel [] s

/-- Source `defaultWaitTimeout`, in milliseconds. -/
def defaultWaitTimeout : Nat := 30 * 1000

/-- Source `defaultWaitInterval`, in milliseconds. -/
def defaultWaitInterval : Nat := 5 * 1000

/-- The variables `userName` and `email` of `FetchUserDetailsFromID`, which
the retried closure assigns. -/
structure Captured where
  userName : GoString
  email : GoString
deriving DecidableEq

/-- The loop of the closure: the first user with id `userID` assigns both
captured variables; no such user leaves them as they are. -/
def scanUserDetails : List KeycloakUserRepresentation → GoString → Captured → Captured
  | [], _, c => c
  | user :: rest, userID, c =>
    if user.ID = userID then { userName := user.Name, email := user.Email }
    else scanUserDetails rest userID c

/-- The closure `f` of source `FetchUserDetailsFromID`: one polling attempt. -/
def fetchUserDetailsAttempt (S : Sys σ) (J : Codec) (headers : Header) (userID : GoString)
    (s : Captured × World σ) : Attempt Unit × (Captured × World σ) :=
  match getKeycloakEndPoint S true s.2 with
  | (.panic m, w1) => (.panic m, (s.1, w1))
  | (.ret _ (some err), w1) => (.done () true (some err), (s.1, w1))
  | (.ret keycloakEndPoint none, w1) =>
    let reqURL := keycloakEndPoint ++ "/users".toList
    match processHTTPRequest S "GET".toList reqURL headers none w1 with
    | (.panic m, w2) => (.panic m, (s.1, w2))
    | (.ret _ (some err), w2) => (.done () true (some err), (s.1, w2))
    | (.ret response none, w2) =>
      match J.UnmarshalUsers response with
      | (_, some err) => (.done () true (some err), (s.1, w2))
      | (users, none) =>
        let c := scanUserDetails users userID s.1
        if c.userName = [] ∨ c.email = [] then
          (.done () true (some ⟨"got emptry user/email, retrying again".toList⟩), (c, w2))
        else (.done () false none, (c, w2))

/-- The timer of the program state: the clock of the external state. -/
def worldTimer (C : Timer σ) : Timer (Captured × World σ) where
  Now s := C.Now s.2.ext
  Sleep s d := (s.1, { s.2 with ext := C.Sleep s.2.ext d })
  ErrTimedOut := C.ErrTimedOut

/-- Source `FetchUserDetailsFromID`; `fuel` bounds the polling attempts. -/
def FetchUserDetailsFromID (S : Sys σ) (J : Codec) (C : Timer σ) (fuel : Nat)
    (userID : GoString) (w : World σ) : Option (Result (GoString × GoString) × World σ) :=
  match GetCommonHTTPHeaders S PxCentralAdminUser w.PxCentralAdminPwd w with
  | (.panic m, w1) => some (.panic m, w1)
  | (.ret _ (some err), w1) => some (.ret ([], []) (some err), w1)
  | (.ret headers none, w1) =>
    match DoRetryWithTimeout (worldTimer C) (fetchUserDetailsAttempt S J headers userID)
        defaultWaitTimeout defaultWaitInterval fuel ({ userName := [], email := [] }, w1) with
    | none => none
    | some (.panic m, s) => some (.panic m, s.2)
    | some (.ret _ (some err), s) =>
      some (.ret ([], [])
        (some ⟨"failed to fetch user name/email: [".toList ++ err.msg ++ "]".toList⟩), s.2)
    | some (.ret _ none, s) => some (.ret (s.1.userName, s.1.email) none, s.2)

/-! ## A scripted identity provider -/

/-- Concrete external state with a scripted IdP: the answers it gives to the
successive requests, and a clock in milliseconds. -/
structure Idp where
  env : List (GoString × GoString)
  script : List (Except GoError HTTPResponse)
  clock : Nat

/-- Collaborators over `Idp`: every request takes the next answer of the
script (a transport error once the script is used up); there is no secret
store. -/
def idpSys : Sys Idp where
  Getenv l k := (l.env.lookup k).getD []
  GetSecret l _ _ := (.error ⟨"secret not found".toList⟩, l)
  UpdateSecret l _ := (.error ⟨"secret not found".toList⟩, l)
  NewRequest _ _ := none
  Do l _ :=
    match l.script with
    | [] => (.error ⟨"connection refused".toList⟩, l)
    | a :: rest => (a, { l with script := rest })
  ParseJSON := labJSON

/-- Clock of `Idp`: sleeping advances it, nothing else does. -/
def idpTimer : Timer Idp where
  Now l := l.clock
  Sleep l d := { l with clock := l.clock + d }
  ErrTimedOut _ errs := ⟨"timed out performing task: ".toList ++ (errs.getLast?).getD []⟩

/-- Quoted JSON string of the laboratory: `"` and `\` escaped. -/
def quoteJSON (s : GoString) : GoString :=
  ['"'] ++ s.flatMap (fun c => if c = '"' ∨ c = '\\' then ['\\', c] else [c]) ++ ['"']

mutual
/-- Compact text of a document, as the laboratory writes it. -/
def renderJSON : JSON → GoString
  | .null => "null".toList
  | .bool true => "true".toList
  | .bool false => "false".toList
  | .num literal => literal
  | .str s => quoteJSON s
  | .arr items => ['['] ++ renderItems items ++ [']']
  | .obj members => ['\x7b'] ++ renderMembers members ++ ['\x7d']
/-- Items of an array, separated by commas. -/
def renderItems : List JSON → GoString
  | [] => []
  | [x] => renderJSON x
  | x :: y :: rest => renderJSON x ++ [','] ++ renderItems (y :: rest)
/-- Members of an object, separated by commas. -/
def renderMembers : List (GoString × JSON) → GoString
  | [] => []
  | [(k, v)] => quoteJSON k ++ [':'] ++ renderJSON v
  | (k, v) :: m :: rest => quoteJSON k ++ [':'] ++ renderJSON v ++ [','] ++ renderMembers (m :: rest)
end

/-- Laboratory codec: documents are written by `renderJSON`, bodies are
decoded by tables. -/
def idpCodec (users : List (GoString × List KeycloakUserRepresentation))
    (roles : List (GoString × List KeycloakRoleRepresentation))
    (groups : List (GoString × List KeycloakGroupRepresentation)) : Codec where
  Marshal d := (renderJSON d, none)
  UnmarshalUsers body :=
    match users.lookup body with
    | some xs => (xs, none)
    | none => ([], some syntaxError)
  UnmarshalRoles body :=
    match roles.lookup body with
    | some xs => (xs, none)
    | none => ([], some syntaxError)
  UnmarshalGroups body :=
    match groups.lookup body with
    | some xs => (xs, none)
    | none => ([], some syntaxError)

/-- Answer 200 with the given body. -/
def ok200 (body : GoString) : Except GoError HTTPResponse :=
  .ok { StatusCode := 200, Body := body, ReadErr := none }

/-- Program state over a scripted IdP reached through the override
`http://host:1234`. -/
def idpWorld (script : List (Except GoError HTTPResponse)) : World Idp :=
  { ext := { env := [(PxCentralUIURL, "http://host:1234".toList)], script := script, clock := 0 },
    PxCentralAdminPwd := "Password1".toList, trace := [] }

/-- A user of the laboratory listing. -/
def labUser (id name email : String) : KeycloakUserRepresentation :=
  { ID := id.toList, Name := name.toList, FirstName := [], LastName := [],
    EmailVerified := false, Enabled := true, Email := email.toList, Credentials := none }

/-- A role of the laboratory listing. -/
def labRole (id name : String) : KeycloakRoleRepresentation :=
  { ID := id.toList, Name := name.toList, Description := [], Composite := false,
    ClientRole := false, ContainerID := "master".toList, Attributes := none,
    Composites := { Client := none, Realm := none } }

/-- A group of the laboratory listing. -/
def labGroup (id name : String) : KeycloakGroupRepresentation :=
  { ID := id.toList, Name := name.toList, Path := ('/' :: name.toList), SubGroups := none }

/-- Listing of users for the laboratory, with its body. -/
def usersBody : GoString := "[users]".toList

/-- Listing of roles for the laboratory, with its body. -/
def rolesBody : GoString := "[roles]".toList

/-- Listing of groups for the laboratory, with its body. -/
def groupsBody : GoString := "[groups]".toList

/-- Users of the laboratory: two names that differ only in case. -/
def labUsers : List KeycloakUserRepresentation :=
  [labUser "u-1" "Alice" "Alice@example.com", labUser "u-2" "alice" "alice@example.com"]

/-- Roles of the laboratory: the name `role-x` appears twice. -/
def labRoles : List KeycloakRoleRepresentation :=
  [labRole "r-0" "px-backup-app.user", labRole "r-1" "role-x", labRole "r-2" "role-x"]

/-- Groups of the laboratory: the name `g1` appears twice. -/
def labGroups : List KeycloakGroupRepresentation :=
  [labGroup "g-1" "g1", labGroup "g-2" "g1"]

/-- Codec of the laboratory for the three bodies above. -/
def labCodec : Codec :=
  idpCodec [(usersBody, labUsers)] [(rolesBody, labRoles)] [(groupsBody, labGroups)]

/-- The token request of the administrator against the override endpoint. -/
def adminTokenRequest : HTTPRequest :=
  tokenRequest "http://host:1234/auth/realms/master".toList PxCentralAdminUser
    "Password1".toList

/-- The headers `GetCommonHTTPHeaders` builds from the laboratory token. -/
def labHeaders : Header :=
  [("Authorization".toList, ["Bearer eyJhbGciOi".toList]),
   ("Content-Type".toList, ["application/json".toList])]


/-- Laboratory in which the token request and the user listing succeed. -/
def usersWorld : World Idp := idpWorld [ok200 goodTokenBody, ok200 usersBody]

/-- Laboratory in which the token request and the role listing succeed. -/
def rolesWorld : World Idp := idpWorld [ok200 goodTokenBody, ok200 rolesBody]

/-- Laboratory in which the token request and the group listing succeed. -/
def groupsWorld : World Idp := idpWorld [ok200 goodTokenBody, ok200 groupsBody]

/-- Laboratory for `DeleteGroup` in which the group listing fails in
transport and every other request is answered. -/
def brokenGroupsWorld : World Idp :=
  idpWorld [ok200 goodTokenBody, .error ⟨"connection reset by peer".toList⟩,
            ok200 goodTokenBody, ok200 []]


/-- The document of the one-element role array that the role-binding
operations send: the resolved role id, the role name, the description,
container `master`, neither composite nor client role. -/
def bindingJSON (roleID role description : GoString) : JSON :=
  .arr [.obj [("id".toList, .str roleID), ("name".toList, .str role),
              ("description".toList, .str description), ("composite".toList, .bool false),
              ("clientRole".toList, .bool false), ("containerId".toList, .str "master".toList),
              ("attributes".toList, .null),
              ("composites".toList, .obj [("client".toList, .null), ("realm".toList, .null)])]]

/-- Laboratory for a role binding on a user: token, user listing, token, role
listing, token, and the answer to the binding request. -/
def bindUserWorld : World Idp :=
  idpWorld [ok200 goodTokenBody, ok200 usersBody, ok200 goodTokenBody, ok200 rolesBody,
            ok200 goodTokenBody, ok200 []]

/-- Laboratory for a role binding on a group. -/
def bindGroupWorld : World Idp :=
  idpWorld [ok200 goodTokenBody, ok200 groupsBody, ok200 goodTokenBody, ok200 rolesBody,
            ok200 goodTokenBody, ok200 []]

/-- Laboratory for `DeleteUser`: token, user listing, token, and the answer
to the DELETE. -/
def deleteUserWorld : World Idp :=
  idpWorld [ok200 goodTokenBody, ok200 usersBody, ok200 goodTokenBody,
            .ok { StatusCode := 405, Body := [], ReadErr := none }]

/-- Laboratory for `AddUser`: token and the answer to the POST. -/
def addUserWorld : World Idp := idpWorld [ok200 goodTokenBody, ok200 []]


/-- World of `deleteUserWorld` after the id of `nobody` was looked up. -/
def deleteUserWorld2 : World Idp :=
  (FetchIDOfUser idpSys labCodec "nobody".toList deleteUserWorld).2

/-- World of `deleteUserWorld` after the headers for the DELETE were fetched. -/
def deleteUserWorld3 : World Idp :=
  (GetCommonHTTPHeaders idpSys PxCentralAdminUser "Password1".toList deleteUserWorld2).2

/-- World of `addUserWorld` after the headers were fetched. -/
def addUserWorld2 : World Idp :=
  (GetCommonHTTPHeaders idpSys PxCentralAdminUser "Password1".toList addUserWorld).2

/-- World of `bindUserWorld` after the user id was resolved. -/
def bindUserWorld1 : World Idp := (FetchIDOfUser idpSys labCodec "alice".toList bindUserWorld).2

/-- World of `bindUserWorld` after the role id was resolved. -/
def bindUserWorld2 : World Idp := (GetRoleID idpSys labCodec "role-x".toList bindUserWorld1).2

/-- World of `bindUserWorld` after the headers for the binding were fetched. -/
def bindUserWorld4 : World Idp :=
  (GetCommonHTTPHeaders idpSys PxCentralAdminUser "Password1".toList bindUserWorld2).2

/-- World of `bindGroupWorld` after the group id was resolved. -/
def bindGroupWorld1 : World Idp := (FetchIDOfGroup idpSys labCodec "g1".toList bindGroupWorld).2

/-- World of `bindGroupWorld` after the role id was resolved. -/
def bindGroupWorld2 : World Idp := (GetRoleID idpSys labCodec "role-x".toList bindGroupWorld1).2

/-- World of `bindGroupWorld` after the headers for the binding were fetched. -/
def bindGroupWorld4 : World Idp :=
  (GetCommonHTTPHeaders idpSys PxCentralAdminUser "Password1".toList bindGroupWorld2).2

/-- Admin endpoint of the laboratory. -/
def labAdminEndpoint : GoString := "http://host:1234/auth/admin/realms/master".toList


/-- Method, URL and body of a request (its headers left aside). -/
def requestLine (r : HTTPRequest) : GoString × GoString × Option GoString :=
  (r.Method, r.URL, r.Body)

/-- Laboratory for `AddGroup` called twice: each call takes a token answer
and the answer to its POST. -/
def addGroupWorld : World Idp :=
  idpWorld [ok200 goodTokenBody, .ok { StatusCode := 201, Body := [], ReadErr := none },
            ok200 goodTokenBody, .ok { StatusCode := 409, Body := [], ReadErr := none }]

/-- The POST of `AddGroup("g1")` in the laboratory. -/
def addGroupRequest : HTTPRequest :=
  { Method := "POST".toList, URL := labAdminEndpoint ++ "/groups".toList, Header := labHeaders,
    Body := some "\x7b\"name\":\"g1\"\x7d".toList }

/-! ## Polls of `FetchUserDetailsFromID` -/

/-- A poll of the user listing, in the words of the spec ("each attempt lists
all users"): started in state `a` with the headers fetched before the retry,
the admin endpoint is resolved, the GET of `/users` is answered and decoded
into `users`, and `c` is the state after it. -/
def pollsListing (S : Sys σ) (J : Codec) (headers : Header) (a : World σ)
    (users : List KeycloakUserRepresentation) (c : World σ) : Prop :=
  ∃ ep b response, getKeycloakEndPoint S true a = (.ret ep none, b) ∧
    processHTTPRequest S "GET".toList (ep ++ "/users".toList) headers none b
      = (.ret response none, c) ∧
    J.UnmarshalUsers response = (users, none)

/-- The first user of a listing with the given id. -/
def firstWithID (users : List KeycloakUserRepresentation) (userID : GoString) :
    Option KeycloakUserRepresentation :=
  users.find? (fun x => decide (x.ID = userID))

/-- The state after sleeping one polling interval. -/
def afterInterval (C : Timer σ) (w : World σ) : World σ :=
  { w with ext := C.Sleep w.ext defaultWaitInterval }

/-- Bodies of three successive user listings. -/
def pollBody (k : Nat) : GoString := "[users ".toList ++ List.replicate k '+' ++ "]".toList

/-- First and second listing: the user `u-7` is there, its e-mail is still
empty.  Third listing: the record is complete. -/
def pollCodec : Codec :=
  idpCodec [(pollBody 1, [labUser "u-1" "alice" "alice@example.com", labUser "u-7" "carol" ""]),
            (pollBody 2, [labUser "u-1" "alice" "alice@example.com", labUser "u-7" "carol" ""]),
            (pollBody 3, [labUser "u-1" "alice" "alice@example.com",
                          labUser "u-7" "carol" "carol@example.com"])] [] []

/-- Laboratory for the three polls: the token, then the three listings. -/
def pollWorld : World Idp :=
  idpWorld [ok200 goodTokenBody, ok200 (pollBody 1), ok200 (pollBody 2), ok200 (pollBody 3)]

/-- State of `pollWorld` after the headers were fetched. -/
def pollWorld0 : World Idp :=
  (GetCommonHTTPHeaders idpSys PxCentralAdminUser "Password1".toList pollWorld).2

/-- State of `pollWorld` after the first poll. -/
def pollWorld1 : World Idp :=
  (fetchUserDetailsAttempt idpSys pollCodec labHeaders "u-7".toList
    ({ userName := [], email := [] }, pollWorld0)).2.2

/-- State of `pollWorld` after the second poll. -/
def pollWorld2 : World Idp :=
  (fetchUserDetailsAttempt idpSys pollCodec labHeaders "u-7".toList
    ({ userName := "carol".toList, email := [] }, afterInterval idpTimer pollWorld1)).2.2

/-- State of `pollWorld` after the third poll. -/
def pollWorld3 : World Idp :=
  (fetchUserDetailsAttempt idpSys pollCodec labHeaders "u-7".toList
    ({ userName := "carol".toList, email := [] }, afterInterval idpTimer pollWorld2)).2.2

/-- The listing of the first two polls. -/
def incompleteListing : List KeycloakUserRepresentation :=
  [labUser "u-1" "alice" "alice@example.com", labUser "u-7" "carol" ""]

/-- The listing of the third poll. -/
def completeListing : List KeycloakUserRepresentation :=
  [labUser "u-1" "alice" "alice@example.com", labUser "u-7" "carol" "carol@example.com"]

/-! ## The administrator's password -/

/-- Source `GetPxCentralAdminPwd`.  The source's `PxCentralAdminPwd := ...`
declares a local variable of that name; the package variable is not
assigned. -/
def GetPxCentralAdminPwd (S : Sys σ) (w : World σ) : Result GoString × World σ :=
  match k8sGetSecret S PxCentralAdminSecretName (GetPxBackupNamespace S w) w with
  | (.error err, w1) => (.ret [] (some err), w1)
  | (.ok secret, w1) =>
    let localPxCentralAdminPwd := secret.field "credential".toList
    if localPxCentralAdminPwd = [] then
      (.ret [] (some ⟨"px-central-admin secret is empty".toList⟩), w1)
    else (.ret localPxCentralAdminPwd none, w1)

/-- Source `GetRolesForUser`. -/
def GetRolesForUser (S : Sys σ) (J : Codec) (userName : GoString) (w : World σ) :
    Result (List KeycloakRoleRepresentation) × World σ :=
  match GetCommonHTTPHeaders S PxCentralAdminUser w.PxCentralAdminPwd w with
  | (.panic m, w1) => (.panic m, w1)
  | (.ret _ (some err), w1) => (.ret [] (some err), w1)
  | (.ret headers none, w1) =>
    match getKeycloakEndPoint S true w1 with
    | (.panic m, w2) => (.panic m, w2)
    | (.ret _ (some err), w2) => (.ret [] (some err), w2)
    | (.ret keycloakEndPoint none, w2) =>
      match FetchIDOfUser S J userName w2 with
      | (.panic m, w3) => (.panic m, w3)
      | (.ret _ (some err), w3) => (.ret [] (some err), w3)
      | (.ret userID none, w3) =>
        let reqURL := keycloakEndPoint ++ "/users/".toList ++ userID
          ++ "/role-mappings/realm/composite".toList
        match processHTTPRequest S "GET".toList reqURL headers none w3 with
        | (.panic m, w4) => (.panic m, w4)
        | (.ret _ (some err), w4) => (.ret [] (some err), w4)
        | (.ret response none, w4) =>
          match J.UnmarshalRoles response with
          | (_, some err) => (.ret [] (some err), w4)
          | (roles, none) => (.ret roles none, w4)

/-- Laboratory whose override is the single space, in discovery otherwise
like `shippedLab`. -/
def spaceOverrideLab : Lab :=
  { shippedLab with env := (PxCentralUIURL, [' ']) :: shippedLab.env }

/-- Laboratory whose override is two spaces. -/
def twoSpacesLab : Lab :=
  { shippedLab with env := (PxCentralUIURL, [' ', ' ']) :: shippedLab.env }

/-- Discovery with an issuer that has no port. -/
def noPortLab : Lab :=
  discoveryLab "px-backup".toList "px-backup".toList
    (some (single Issuer "http://keycloak/auth/realms/master".toList))

/-- Discovery with an issuer that has a port and no `auth` segment. -/
def noAuthLab : Lab :=
  discoveryLab "px-backup".toList "px-backup".toList
    (some (single Issuer "http://keycloak:8080/realms/master".toList))

/-- Laboratory holding the administrator's secret with the given
`credential` field, while the package variable holds `Password1`. -/
def credentialLab (credential : GoString) : Lab :=
  { env := [(PxCentralUIURL, "http://host:1234".toList)],
    secrets := [{ Name := PxCentralAdminSecretName, Namespace := "px-backup".toList,
                  Data := some (single "credential".toList credential) }],
    answer := .ok { StatusCode := 200, Body := goodTokenBody, ReadErr := none } }

/-- The error of a polling attempt that leaves a captured variable empty. -/
def emptyDetails : GoError := ⟨"got emptry user/email, retrying again".toList⟩

/-- The captured variables as every polling attempt finds them: the
username or the e-mail is empty. -/
def Captured.incomplete (c : Captured) : Prop := c.userName = [] ∨ c.email = []

/-- Laboratory codec for single attempts: one listing holds the user `u-7`
with an empty e-mail, the other does not hold that user at all. -/
def attemptCodec : Codec :=
  idpCodec [(pollBody 1, incompleteListing),
            (pollBody 0, [labUser "u-1" "alice" "alice@example.com"])] [] []

/-- State in which the next listing holds `u-7` with an empty e-mail. -/
def foundEmptyWorld : World Idp :=
  (GetCommonHTTPHeaders idpSys PxCentralAdminUser "Password1".toList
    (idpWorld [ok200 goodTokenBody, ok200 (pollBody 1)])).2

/-- State in which the next listing does not hold `u-7`. -/
def notFoundWorld : World Idp :=
  (GetCommonHTTPHeaders idpSys PxCentralAdminUser "Password1".toList
    (idpWorld [ok200 goodTokenBody, ok200 (pollBody 0)])).2

/-- Collaborators over a clock: the override is `http://host:1234`, every
POST is answered with a token, every GET with the listing that holds `u-7`
with an empty e-mail. -/
def tickingSys : Sys Nat where
  Getenv _ k := if k = PxCentralUIURL then "http://host:1234".toList else []
  GetSecret s _ _ := (.error ⟨"secret not found".toList⟩, s)
  UpdateSecret s _ := (.error ⟨"secret not found".toList⟩, s)
  NewRequest _ _ := none
  Do s req := (if req.Method = "POST".toList then ok200 goodTokenBody else ok200 (pollBody 1), s)
  ParseJSON := labJSON

/-- The clock itself as timer: sleeping advances it, nothing else does. -/
def tickingTimer : Timer Nat where
  Now s := s
  Sleep s d := s + d
  ErrTimedOut _ errs := ⟨"timed out performing task: ".toList ++ (errs.getLast?).getD []⟩

/-- Initial program state over the clock. -/
def tickingWorld : World Nat :=
  { ext := 0, PxCentralAdminPwd := "Password1".toList, trace := [] }

end backup -- package drivers/backup, resumed below

/-! # Package `drivers/pds/targetcluster` -/

namespace targetcluster
open backup

/-- Source `corev1.Namespace`, as far as `CreateNamespace` fills it: the name
and the labels of its metadata. -/
structure Namespace where
  Name : GoString
  Labels : List (GoString × GoString)
deriving DecidableEq

/-- Source `pdsLabel`. -/
def pdsLabel : List (GoString × GoString) :=
  [("pds.portworx.com/available".toList, "true".toList)]

/-- Source `k8sObjectCreateTimeout`, two minutes in milliseconds. -/
def k8sObjectCreateTimeout : Nat := 2 * 60 * 1000

/-- Source `DefaultRetryInterval`, ten seconds in milliseconds. -/
def DefaultRetryInterval : Nat := 10 * 1000

/-- External collaborators of `CreateNamespace` over a cluster state `κ`:
`k8sCore.CreateNamespace`, `k8sCore.GetNamespace` (a `*corev1.Namespace`, nil
or not, with an error, nil or not) and `k8serrors.IsAlreadyExists`. -/
structure K8sCore (κ : Type) where
  CreateNamespace : κ → Namespace → (Option Namespace × Option GoError) × κ
  GetNamespace : κ → GoString → (Option Namespace × Option GoError) × κ
  IsAlreadyExists : Option GoError → Bool

/-- The closure `t` of source `CreateNamespace`: one attempt of the retried
task.  A successful `GetNamespace` after an already-exists error returns its
namespace; every other path falls through to the last `return ns, false, nil`
with `ns` as last assigned. -/
def createNamespaceTask (K : K8sCore κ) (nsName : GoString) (s : κ) :
    Attempt (Option Namespace) × κ :=
  let nsSpec : Namespace := { Name := nsName, Labels := pdsLabel }
  match K.CreateNamespace s nsSpec with
  | ((ns, err), s1) =>
    if K.IsAlreadyExists err then
      match K.GetNamespace s1 nsName with
      | ((ns, none), s2) => (.done ns false none, s2)
      | ((ns, some _), s2) => (.done ns false none, s2)
    else (.done ns false none, s1)

/-- Panic of the type assertion `nsObj.(*corev1.Namespace)` on a nil
interface. -/
def nilInterface : GoString :=
  "interface conversion: interface is nil, not *v1.Namespace".toList

/-- Source `TargetCluster.CreateNamespace`; `fuel` bounds the attempts of the
retry. -/
def CreateNamespace (K : K8sCore κ) (T : Timer κ) (fuel : Nat) (nsName : GoString) (s : κ) :
    Option (Result (Option Namespace) × κ) :=
  match DoRetryWithTimeout T (createNamespaceTask K nsName) k8sObjectCreateTimeout
      DefaultRetryInterval fuel s with
  | none => none
  | some (.panic m, s1) => some (.panic m, s1)
  | some (.ret _ (some err), s1) => some (.ret none (some err), s1)
  | some (.ret (some nsObj) none, s1) => some (.ret nsObj none, s1)
  | some (.ret none none, s1) => some (.panic nilInterface, s1)

/-- Error of a creation refused by the cluster. -/
def forbidden : GoError := ⟨"namespaces is forbidden".toList⟩

/-- Error of a creation that finds the namespace in place. -/
def alreadyExists : GoError := ⟨"namespaces already exists".toList⟩

/-- Error of a lookup that does not find the namespace. -/
def notFound : GoError := ⟨"namespaces not found".toList⟩

/-- Laboratory cluster over a clock: creating `locked` is refused, creating
`pds` or `gone` reports that the namespace exists, any other creation
succeeds; looking up `pds` succeeds, any other lookup fails. -/
def labCore : K8sCore Nat where
  CreateNamespace s spec :=
    if spec.Name = "locked".toList then ((none, some forbidden), s)
    else if spec.Name = "pds".toList ∨ spec.Name = "gone".toList then
      ((none, some alreadyExists), s)
    else ((some spec, none), s)
  GetNamespace s name :=
    if name = "pds".toList then ((some { Name := name, Labels := [] }, none), s)
    else ((none, some notFound), s)
  IsAlreadyExists err := decide (err = some alreadyExists)

/-- The clock of the laboratory cluster. -/
def labClock : Timer Nat where
  Now s := s
  Sleep s d := s + d
  ErrTimedOut _ errs := ⟨"timed out performing task: ".toList ++ (errs.getLast?).getD []⟩

end targetcluster

namespace backup -- package drivers/backup, resumed

/-! ## A model identity provider that stores role bindings -/

/-- State of the model IdP: the users and the realm roles of the realm, and
the role bindings as pairs of a user id and a role id. -/
structure Realm where
  users : List KeycloakUserRepresentation
  roles : List KeycloakRoleRepresentation
  bindings : List (GoString × GoString)

/-- Document of a `[]KeycloakUserRepresentation`. -/
def usersJSON (us : List KeycloakUserRepresentation) : JSON := .arr (us.map userJSON)

/-- The realm roles bound to a user. -/
def Realm.rolesOf (s : Realm) (userID : GoString) : List KeycloakRoleRepresentation :=
  s.roles.filter fun r => decide ((userID, r.ID) ∈ s.bindings)

/-- The realm with the given roles bound to the user. -/
def Realm.bind (s : Realm) (userID : GoString) (roleIDs : List GoString) : Realm :=
  { s with bindings := s.bindings ++ roleIDs.map fun r => (userID, r) }

/-- The realm without the bindings of the given roles to the user. -/
def Realm.unbind (s : Realm) (userID : GoString) (roleIDs : List GoString) : Realm :=
  { s with bindings := s.bindings.filter fun b => !(decide (b.1 = userID ∧ b.2 ∈ roleIDs)) }

/-- Answer without a body. -/
def noContent : Except GoError HTTPResponse :=
  .ok { StatusCode := 204, Body := [], ReadErr := none }

/-- Answer to a request the model IdP does not serve. -/
def notServed : Except GoError HTTPResponse :=
  .ok { StatusCode := 404, Body := "\x7b\"error\":\"HTTP 404 Not Found\"\x7d".toList,
        ReadErr := none }

/-- The ids of the roles that a request body lists, read with the codec. -/
def namedRoles (J : Codec) (body : Option GoString) : List GoString :=
  (J.UnmarshalRoles (body.getD [])).1.map fun r => r.ID

/-- The model IdP at `http://host:1234`, writing and reading its documents
with the codec `J`: it hands out the laboratory token, lists its users and its
roles, lists the roles bound to a user
(`GET /users/ID/role-mappings/realm/composite`), and binds (`POST`) or unbinds
(`DELETE`) on `/users/ID/role-mappings/realm` the roles that the body lists. -/
def realmAnswer (J : Codec) (s : Realm) (req : HTTPRequest) :
    Except GoError HTTPResponse × Realm :=
  if req.Method = "POST".toList ∧ req.URL
      = "http://host:1234/auth/realms/master/protocol/openid-connect/token".toList then
    (ok200 goodTokenBody, s)
  else if req.Method = "GET".toList ∧ req.URL = labAdminEndpoint ++ "/users".toList then
    (ok200 (J.Marshal (usersJSON s.users)).1, s)
  else if req.Method = "GET".toList ∧ req.URL = labAdminEndpoint ++ "/roles".toList then
    (ok200 (J.Marshal (rolesJSON s.roles)).1, s)
  else
    match s.users.find? (fun u => decide (req.URL = labAdminEndpoint ++ "/users/".toList ++ u.ID
        ++ "/role-mappings/realm/composite".toList)) with
    | some u =>
      if req.Method = "GET".toList then
        (ok200 (J.Marshal (rolesJSON (s.rolesOf u.ID))).1, s)
      else (notServed, s)
    | none =>
      match s.users.find? (fun u => decide (req.URL = labAdminEndpoint ++ "/users/".toList
          ++ u.ID ++ "/role-mappings/realm".toList)) with
      | some u =>
        if req.Method = "POST".toList then (noContent, s.bind u.ID (namedRoles J req.Body))
        else if req.Method = "DELETE".toList then
          (noContent, s.unbind u.ID (namedRoles J req.Body))
        else (notServed, s)
      | none => (notServed, s)

/-- Collaborators over the model IdP, reached through the override
`http://host:1234`; there is no secret store. -/
def realmSys (J : Codec) : Sys Realm where
  Getenv _ k := if k = PxCentralUIURL then "http://host:1234".toList else []
  GetSecret s _ _ := (.error ⟨"secret not found".toList⟩, s)
  UpdateSecret s _ := (.error ⟨"secret not found".toList⟩, s)
  NewRequest _ _ := none
  Do := realmAnswer J
  ParseJSON := labJSON

/-- Codec for the listings of a realm: documents are written by
`renderJSON`; a body is decoded to the listing it was written from, among the
user listing of the realm, the sublists of its role listing and the further
role listings given. -/
def realmCodec (s : Realm) (further : List (List KeycloakRoleRepresentation)) : Codec :=
  idpCodec [(renderJSON (usersJSON s.users), s.users)]
    ((s.roles.sublists ++ further).map fun rs => (renderJSON (rolesJSON rs), rs)) []

/-- The realm of the round trip: `bob` is the user `u-2` and holds the role
`r-0`, the role `role-x` is `r-1` and is held by `alice`. -/
def labRealm : Realm :=
  { users := [labUser "u-1" "alice" "alice@example.com", labUser "u-2" "bob" "bob@example.com"],
    roles := [labRole "r-0" "px-backup-app.user", labRole "r-1" "role-x"],
    bindings := [("u-2".toList, "r-0".toList), ("u-1".toList, "r-1".toList)] }

/-- The role that `AddRoleToUser("bob", "role-x", "d")` sends in the
laboratory. -/
def labBinding : KeycloakRoleRepresentation :=
  { ID := "r-1".toList, Name := "role-x".toList, Description := "d".toList, Composite := false,
    ClientRole := false, ContainerID := "master".toList, Attributes := none,
    Composites := { Client := none, Realm := none } }

/-- The codec of the round trip in the laboratory. -/
def labRealmCodec : Codec := realmCodec labRealm [[labBinding]]

/-- Initial program state over the model IdP. -/
def realmWorld : World Realm :=
  { ext := labRealm, PxCentralAdminPwd := "Password1".toList, trace := [] }

/-- State after `AddRoleToUser("bob", "role-x", "d")`. -/
def boundWorld : World Realm :=
  (AddRoleToUser (realmSys labRealmCodec) labRealmCodec "bob".toList "role-x".toList
    "d".toList realmWorld).2

/-- State after the following `GetRolesForUser("bob")`. -/
def listedWorld : World Realm :=
  (GetRolesForUser (realmSys labRealmCodec) labRealmCodec "bob".toList boundWorld).2

/-- State after the following `DeleteRoleFromUser("bob", "role-x", "d")`. -/
def unboundWorld : World Realm :=
  (DeleteRoleFromUser (realmSys labRealmCodec) labRealmCodec "bob".toList "role-x".toList
    "d".toList listedWorld).2

/-- The last request of a trace. -/
def lastRequest (trace : List Event) : Option (GoString × GoString × Option GoString) :=
  ((httpRequests trace).getLast?).map requestLine

/-- The program state `w` after further calls `events` that leave the
external state `e`. -/
def World.after (w : World σ) (e : σ) (events : List Event) : World σ :=
  { ext := e, PxCentralAdminPwd := w.PxCentralAdminPwd, trace := w.trace ++ events }

/-- The call that sends the request with these parts. -/
def sent (method url : GoString) (headers : Header) (body : Option GoString) : Event :=
  .httpDo { Method := method, URL := url, Header := headers, Body := body }

/-- The token exchange of the administrator against the model IdP. -/
def sentToken (password : GoString) : Event :=
  .httpDo (tokenRequest "http://host:1234/auth/realms/master".toList PxCentralAdminUser password)

/-- The URL of the role bindings of a user. -/
def roleMappings (userID : GoString) : GoString :=
  labAdminEndpoint ++ "/users/".toList ++ userID ++ "/role-mappings/realm".toList

/-! ## Further laboratories -/

/-- Body `null`. -/
def nullBody : GoString := "null".toList

/-- JSON analysis that knows the body `null`. -/
def nullJSON : GoString → Option JSON := tableJSON [(nullBody, .null)]


/-- Collaborators over `Idp` like `idpSys`, except that every request takes
`ms` milliseconds of the clock. -/
def timedSys (ms : Nat) : Sys Idp where
  Getenv l k := (l.env.lookup k).getD []
  GetSecret l _ _ := (.error ⟨"secret not found".toList⟩, l)
  UpdateSecret l _ := (.error ⟨"secret not found".toList⟩, l)
  NewRequest _ _ := none
  Do l _ :=
    match l.script with
    | [] => (.error ⟨"connection refused".toList⟩, { l with clock := l.clock + ms })
    | a :: rest => (a, { l with script := rest, clock := l.clock + ms })
  ParseJSON := labJSON

/-- State of `pollWorld` under `timedSys ms` after the headers were fetched. -/
def timedWorld0 (ms : Nat) : World Idp :=
  (GetCommonHTTPHeaders (timedSys ms) PxCentralAdminUser "Password1".toList pollWorld).2

/-- State of `pollWorld` under `timedSys ms` after the first poll. -/
def timedWorld1 (ms : Nat) : World Idp :=
  (fetchUserDetailsAttempt (timedSys ms) pollCodec labHeaders "u-7".toList
    ({ userName := [], email := [] }, timedWorld0 ms)).2.2

/-- State of `pollWorld` under `timedSys ms` after the second poll. -/
def timedWorld2 (ms : Nat) : World Idp :=
  (fetchUserDetailsAttempt (timedSys ms) pollCodec labHeaders "u-7".toList
    ({ userName := "carol".toList, email := [] }, afterInterval idpTimer (timedWorld1 ms))).2.2

/-- State of `pollWorld` under `timedSys ms` after the third poll. -/
def timedWorld3 (ms : Nat) : World Idp :=
  (fetchUserDetailsAttempt (timedSys ms) pollCodec labHeaders "u-7".toList
    ({ userName := "carol".toList, email := [] }, afterInterval idpTimer (timedWorld2 ms))).2.2

/-- The state after `n` polling rounds of `FetchUserDetailsFromID`, a round
being one attempt of the closure followed by the sleep of one interval. -/
def pollRounds (S : Sys σ) (J : Codec) (C : Timer σ) (headers : Header) (userID : GoString) :
    Nat → Captured × World σ → Captured × World σ
  | 0, s => s
  | n + 1, s =>
    pollRounds S J C headers userID n
      ((worldTimer C).Sleep (fetchUserDetailsAttempt S J headers userID s).2 defaultWaitInterval)

/-- State of `tickingWorld` after the headers were fetched. -/
def tickingWorld0 : World Nat :=
  (GetCommonHTTPHeaders tickingSys PxCentralAdminUser tickingWorld.PxCentralAdminPwd
    tickingWorld).2

/-! # Theorems -/

/-! ## Lemmas on `Split` and `Join` -/

theorem splitGo_ne_nil (sep : GoString) (s : GoString) (k : Nat) (acc : GoString) :
    splitGo sep s k acc ≠ [] := by
  induction s generalizing k acc with
  | nil => simp [splitGo]
  | cons c cs ih =>
    cases k with
    | succ k => simpa [splitGo] using ih k acc
    | zero =>
      by_cases h : sep.isPrefixOf (c :: cs)
      · simp [splitGo, h]
      · simpa [splitGo, h] using ih 0 (c :: acc)

theorem Join_cons_of_ne_nil (x : GoString) (l : List GoString) (sep : GoString) (h : l ≠ []) :
    Join (x :: l) sep = x ++ sep ++ Join l sep := by
  cases l with
  | nil => exact absurd rfl h
  | cons y rest => rfl

theorem Join_splitGo (sep : GoString) (hsep : sep ≠ []) (s : GoString) (k : Nat)
    (acc : GoString) : Join (splitGo sep s k acc) sep = acc.reverse ++ s.drop k := by
  induction s generalizing k acc with
  | nil => simp [splitGo, Join]
  | cons c cs ih =>
    cases k with
    | succ k => simpa [splitGo] using ih k acc
    | zero =>
      by_cases h : sep.isPrefixOf (c :: cs)
      · have hp : sep <+: c :: cs := List.isPrefixOf_iff_prefix.mp h
        obtain ⟨t, ht⟩ := hp
        cases sep with
        | nil => exact absurd rfl hsep
        | cons d ds =>
          simp only [List.cons_append, List.cons.injEq] at ht
          obtain ⟨hd, hcs⟩ := ht
          have hdrop : cs.drop ds.length = t := by
            rw [← hcs]; simp
          simp only [splitGo, h, if_true]
          rw [Join_cons_of_ne_nil _ _ _ (splitGo_ne_nil _ _ _ _), ih]
          simp [hdrop, hd, hcs]
      · simp only [splitGo, h]
        simpa using ih 0 (c :: acc)

theorem Join_Split (s sep : GoString) (hsep : sep ≠ []) : Join (Split s sep) sep = s := by
  simp [Split, hsep, Join_splitGo]

theorem splitGo_single (c : Char) (pre rest acc : GoString) (h : c ∉ pre) :
    splitGo [c] (pre ++ c :: rest) 0 acc = (acc.reverse ++ pre) :: splitGo [c] rest 0 [] := by
  induction pre generalizing acc with
  | nil => simp [splitGo]
  | cons p ps ih =>
    have hp : c ≠ p := fun e => h (by simp [e])
    have hps : c ∉ ps := fun e => h (by simp [e])
    have : ¬ ([c].isPrefixOf (p :: (ps ++ c :: rest)) = true) := by
      simp [List.isPrefixOf, hp]
    simp only [List.cons_append, splitGo, this]
    simpa [hp] using ih (p :: acc) hps

theorem Split_colon (pre rest : GoString) (h : ':' ∉ pre) :
    Split (pre ++ ':' :: rest) [':'] = pre :: Split rest [':'] := by
  simp [Split, splitGo_single ':' pre rest [] h]

theorem Split_ne_nil (s sep : GoString) (hsep : sep ≠ []) : Split s sep ≠ [] := by
  simp [Split, hsep, splitGo_ne_nil]

/-- C1: with the override `PX_CENTRAL_UI_URL` set to a non-empty string `O`
other than the single space, `getKeycloakEndPoint(true)` returns
`O ++ "/auth/admin/realms/master"` and `getKeycloakEndPoint(false)` returns
`O ++ "/auth/realms/master"`, both with a nil error and with the world (and
so the list of secret reads) unchanged. -/
theorem getKeycloakEndPoint_override (S : Sys σ) (w : World σ) (O : GoString)
    (hO : S.Getenv w.ext PxCentralUIURL = O) (hne : O ≠ []) (hsp : O ≠ [' ']) :
    getKeycloakEndPoint S true w = (.ret (O ++ "/auth/admin/realms/master".toList) none, w) ∧
    getKeycloakEndPoint S false w = (.ret (O ++ "/auth/realms/master".toList) none, w) := by
  have hlen : 0 < O.length := List.length_pos.mpr hne
  constructor <;> simp [getKeycloakEndPoint, hO, hsp, hlen]

theorem getKeycloakEndPoint_override_witness :
    getKeycloakEndPoint (labSys noJSON) true (labWorld hostLab)
      = (.ret "http://host:1234/auth/admin/realms/master".toList none, labWorld hostLab) ∧
    getKeycloakEndPoint (labSys noJSON) false (labWorld hostLab)
      = (.ret "http://host:1234/auth/realms/master".toList none, labWorld hostLab) :=
  getKeycloakEndPoint_override (labSys noJSON) (labWorld hostLab) "http://host:1234".toList
    (by decide) (by decide) (by decide)

/-- C2: with no override, when the discovery secret is read and its issuer is
`scheme ++ ":" ++ hostPart ++ ":" ++ rest` with no `:` in `scheme` and
`hostPart`, `getKeycloakEndPoint(false)` returns
`scheme ++ ":" ++ hostPart ++ "." ++ ns ++ ".svc.cluster.local:" ++ rest`
with a nil error, `ns` being the namespace the secret was read from. -/
theorem getKeycloakEndPoint_discovery_rewrite (S : Sys σ) (w : World σ) (secret : Secret)
    (e1 : σ) (scheme hostPart rest : GoString)
    (hunset : S.Getenv w.ext PxCentralUIURL = [])
    (hget : S.GetSecret w.ext (getOidcSecretName S w) (GetPxBackupNamespace S w)
      = (.ok secret, e1))
    (hiss : secret.field Issuer = scheme ++ [':'] ++ hostPart ++ [':'] ++ rest)
    (hs : ':' ∉ scheme) (hh : ':' ∉ hostPart) :
    (getKeycloakEndPoint S false w).1 =
      .ret (scheme ++ [':'] ++ hostPart ++ ['.'] ++ GetPxBackupNamespace S w
        ++ ".svc.cluster.local".toList ++ [':'] ++ rest) none := by
  have hsplit : Split (secret.field Issuer) [':']
      = scheme :: hostPart :: Split rest [':'] := by
    rw [hiss]
    have : scheme ++ [':'] ++ hostPart ++ [':'] ++ rest
        = scheme ++ ':' :: (hostPart ++ ':' :: rest) := by simp
    rw [this, Split_colon _ _ hs, Split_colon _ _ hh]
  have hne : Split rest [':'] ≠ [] := Split_ne_nil _ _ (by simp)
  have hjoin : ∀ X : GoString, Join (scheme :: X :: Split rest [':']) [':']
      = scheme ++ [':'] ++ X ++ [':'] ++ rest := by
    intro X
    rw [Join_cons_of_ne_nil _ _ _ (by simp), Join_cons_of_ne_nil _ _ _ hne,
      Join_Split _ _ (by simp)]
    simp
  simp only [getKeycloakEndPoint, hunset, k8sGetSecret, hget]
  simp [hsplit, hjoin]

theorem getKeycloakEndPoint_discovery_rewrite_witness :
    (getKeycloakEndPoint (labSys noJSON) false (labWorld shippedLab)).1 =
      .ret "http://pxcentral-keycloak-http.px-backup.svc.cluster.local:80/auth/realms/master".toList
        none :=
  getKeycloakEndPoint_discovery_rewrite (labSys noJSON) (labWorld shippedLab)
    (oidcSecret "px-backup".toList (some (single Issuer defaultIssuer))) shippedLab
    "http".toList "//pxcentral-keycloak-http".toList "80/auth/realms/master".toList
    (by decide) (by rfl) (by decide) (by decide) (by decide)

/-- C3 (evaluation at the failing input): with the shipped issuer and
px-backup running in namespace `px-auth`, the non-admin endpoint is the
rewritten URL, but the admin endpoint is cut at the second occurrence of
`auth`: `/admin` lands inside the host name and `/realms/master` is lost. -/
theorem getKeycloakEndPoint_admin_second_auth :
    (getKeycloakEndPoint (labSys noJSON) false (labWorld authNamespaceLab)).1 =
      .ret "http://pxcentral-keycloak-http.px-auth.svc.cluster.local:80/auth/realms/master".toList
        none ∧
    (getKeycloakEndPoint (labSys noJSON) true (labWorld authNamespaceLab)).1 =
      .ret "http://pxcentral-keycloak-http.px-auth/admin.svc.cluster.local:80/".toList none := by
  decide

/-- C4 (evaluation at the failing input): with no override, when the
discovery secret is read but its `OIDC_ENDPOINT` field is absent or empty,
`getKeycloakEndPoint` does not return at all: indexing the split issuer
panics, for the admin and the non-admin endpoint alike. -/
theorem getKeycloakEndPoint_empty_issuer_panics (S : Sys σ) (w : World σ) (admin : Bool)
    (secret : Secret) (e1 : σ)
    (hunset : S.Getenv w.ext PxCentralUIURL = [])
    (hget : S.GetSecret w.ext (getOidcSecretName S w) (GetPxBackupNamespace S w)
      = (.ok secret, e1))
    (hiss : secret.field Issuer = []) :
    (getKeycloakEndPoint S admin w).1 = .panic indexOutOfRange := by
  simp [getKeycloakEndPoint, hunset, k8sGetSecret, hget, hiss, Split, splitGo]

theorem getKeycloakEndPoint_empty_issuer_panics_witness :
    (getKeycloakEndPoint (labSys noJSON) false (labWorld noIssuerLab)).1
      = .panic indexOutOfRange :=
  getKeycloakEndPoint_empty_issuer_panics (labSys noJSON) (labWorld noIssuerLab) false
    (oidcSecret "px-backup".toList (some (single "OIDC_CLIENT_ID".toList "pxcentral".toList)))
    noIssuerLab (by decide) (by rfl) (by decide)

/-- C5 (counterexample): the override `not a url` is not rejected;
`getKeycloakEndPoint(false)` returns a URL built from it, with a nil
error. -/
theorem getKeycloakEndPoint_malformed_override :
    (getKeycloakEndPoint (labSys noJSON) false (labWorld malformedLab)).1
      = .ret "not a url/auth/realms/master".toList none := by
  decide

/-- C5 (amended): the override is never validated.  For every override that
is non-empty and not the single space, well-formed or not,
`getKeycloakEndPoint` returns a nil error and the URL override ++
`/auth/admin/realms/master` (admin) or override ++ `/auth/realms/master`
(non-admin), which starts with the override, leaving the world as it was. -/
theorem getKeycloakEndPoint_override_unvalidated (S : Sys σ) (w : World σ) (admin : Bool)
    (hne : S.Getenv w.ext PxCentralUIURL ≠ []) (hsp : S.Getenv w.ext PxCentralUIURL ≠ [' ']) :
    getKeycloakEndPoint S admin w =
      (.ret (S.Getenv w.ext PxCentralUIURL ++
        (if admin then "/auth/admin/realms/master".toList else "/auth/realms/master".toList))
        none, w) ∧
    S.Getenv w.ext PxCentralUIURL <+: S.Getenv w.ext PxCentralUIURL ++
      (if admin then "/auth/admin/realms/master".toList else "/auth/realms/master".toList) := by
  have hlen : 0 < (S.Getenv w.ext PxCentralUIURL).length := List.length_pos.mpr hne
  refine ⟨?_, List.prefix_append _ _⟩
  cases admin <;> simp [getKeycloakEndPoint, hsp, hlen]

theorem getKeycloakEndPoint_override_unvalidated_witness :
    getKeycloakEndPoint (labSys noJSON) true (labWorld malformedLab)
      = (.ret "not a url/auth/admin/realms/master".toList none, labWorld malformedLab) ∧
    getKeycloakEndPoint (labSys noJSON) false (labWorld malformedLab)
      = (.ret "not a url/auth/realms/master".toList none, labWorld malformedLab) :=
  ⟨(getKeycloakEndPoint_override_unvalidated (labSys noJSON) (labWorld malformedLab) true
      (by decide) (by decide)).1,
   (getKeycloakEndPoint_override_unvalidated (labSys noJSON) (labWorld malformedLab) false
      (by decide) (by decide)).1⟩

/-! ## Traces -/

theorem httpRequests_append (a b : List Event) :
    httpRequests (a ++ b) = httpRequests a ++ httpRequests b := by
  induction a with
  | nil => rfl
  | cons e es ih => cases e <;> simp [httpRequests, ih]

theorem writes_append (a b : List Event) : writes (a ++ b) = writes a ++ writes b := by
  induction a with
  | nil => rfl
  | cons e es ih => cases e <;> simp [writes, ih]

theorem getKeycloakEndPoint_trace (S : Sys σ) (admin : Bool) (w : World σ) :
    (getKeycloakEndPoint S admin w).2.trace = w.trace ∨
    (getKeycloakEndPoint S admin w).2.trace
      = w.trace ++ [Event.getSecret (getOidcSecretName S w) (GetPxBackupNamespace S w)] := by
  unfold getKeycloakEndPoint
  simp only [k8sGetSecret]
  split
  · left; split <;> rfl
  · right
    split
    · rename_i h; simp only [Prod.mk.injEq] at h; rw [← h.2]
    · rename_i h; simp only [Prod.mk.injEq] at h
      split
      · split
        · split <;> rw [← h.2]
        · rw [← h.2]
      · rw [← h.2]

theorem getKeycloakEndPoint_httpRequests (S : Sys σ) (admin : Bool) (w : World σ) :
    httpRequests (getKeycloakEndPoint S admin w).2.trace = httpRequests w.trace := by
  rcases getKeycloakEndPoint_trace S admin w with h | h <;>
    simp [h, httpRequests_append, httpRequests]

theorem getKeycloakEndPoint_writes (S : Sys σ) (admin : Bool) (w : World σ) :
    writes (getKeycloakEndPoint S admin w).2.trace = writes w.trace := by
  rcases getKeycloakEndPoint_trace S admin w with h | h <;>
    simp [h, writes_append, writes]

theorem processHTTPRequest_writes (S : Sys σ) (method url : GoString)
    (headers : List (GoString × List GoString)) (body : Option GoString) (w : World σ) :
    writes (processHTTPRequest S method url headers body w).2.trace = writes w.trace := by
  unfold processHTTPRequest
  simp only [clientDo]
  split
  · rfl
  · split <;> (rename_i h; simp only [Prod.mk.injEq] at h; rw [← h.2]; simp [writes_append, writes])

theorem tokenForm_Encode (userName password : GoString) :
    (tokenForm userName password).Encode =
      "client_id=pxcentral&grant_type=password&password=".toList
        ++ QueryEscape password ++ "&token-duration=365d&username=".toList
        ++ QueryEscape userName := by
  have h : (tokenForm userName password).sortedKeys.flatMap (fun k =>
      (((tokenForm userName password).lookup k).getD []).map fun x =>
        QueryEscape k ++ ['='] ++ QueryEscape x)
      = ["client_id=pxcentral".toList, "grant_type=password".toList,
          "password=".toList ++ QueryEscape password, "token-duration=365d".toList,
          "username=".toList ++ QueryEscape userName] := by
    rfl
  unfold Values.Encode
  rw [h]
  simp [Join]

/-! ## Token exchange -/

theorem processHTTPRequest_trace (S : Sys σ) (method url : GoString)
    (headers : List (GoString × List GoString)) (body : Option GoString) (w : World σ)
    (hreq : S.NewRequest method url = none) :
    (processHTTPRequest S method url headers body w).2.trace = w.trace ++
      [Event.httpDo { Method := method, URL := url, Header := headers, Body := body }] := by
  unfold processHTTPRequest
  simp only [hreq, clientDo]
  rcases h : S.Do w.ext { Method := method, URL := url, Header := headers, Body := body }
    with ⟨(e | r), s⟩ <;> simp

theorem GetToken_world (S : Sys σ) (w w1 : World σ) (userName password endpoint : GoString)
    (hep : getKeycloakEndPoint S false w = (.ret endpoint none, w1)) :
    (GetToken S userName password w).2 =
      (processHTTPRequest S "POST".toList
        (endpoint ++ "/protocol/openid-connect/token".toList)
        [("Content-Type".toList, ["application/x-www-form-urlencoded".toList])]
        (some (tokenForm userName password).Encode) w1).2 := by
  simp only [GetToken, hep]
  rcases h : processHTTPRequest S "POST".toList
      (endpoint ++ "/protocol/openid-connect/token".toList)
      [("Content-Type".toList, ["application/x-www-form-urlencoded".toList])]
      (some (tokenForm userName password).Encode) w1 with ⟨(⟨v, (_ | e)⟩ | m), w2⟩
  · simp only
    rcases hu : Unmarshal S v (some { AccessToken := [] }) with ⟨(_ | t), (_ | e)⟩ <;> simp
  · simp
  · simp

/-- C6: when endpoint resolution yields `endpoint` and the request can be
built, `GetToken(userName, password)` sends exactly one HTTP request: a POST
to `endpoint ++ "/protocol/openid-connect/token"` with the header
`Content-Type: application/x-www-form-urlencoded` and the form body
`client_id=pxcentral&grant_type=password&password=..&token-duration=365d&username=..`
(values escaped, keys in sorted order). -/
theorem GetToken_request (S : Sys σ) (w w1 : World σ) (userName password endpoint : GoString)
    (hep : getKeycloakEndPoint S false w = (.ret endpoint none, w1))
    (hreq : S.NewRequest "POST".toList
      (endpoint ++ "/protocol/openid-connect/token".toList) = none) :
    httpRequests (GetToken S userName password w).2.trace
      = httpRequests w.trace ++ [tokenRequest endpoint userName password] := by
  have h1 : httpRequests w1.trace = httpRequests w.trace := by
    have := getKeycloakEndPoint_httpRequests S false w
    rwa [hep] at this
  rw [GetToken_world S w w1 userName password endpoint hep,
    processHTTPRequest_trace _ _ _ _ _ _ hreq, httpRequests_append, h1, tokenForm_Encode]
  rfl

theorem decodeMembers_no_match (ms : List (GoString × JSON))
    (h : ∀ kv ∈ ms, matchesAccessToken kv.1 = false) (t : tokenResponse) (e : Option GoError) :
    decodeMembers ms t e = (t, e) := by
  induction ms generalizing t e with
  | nil => rfl
  | cons kv rest ih =>
    obtain ⟨k, v⟩ := kv
    have hk : matchesAccessToken k = false := h (k, v) (by simp)
    have hrest : ∀ kv ∈ rest, matchesAccessToken kv.1 = false :=
      fun kv hkv => h kv (by simp [hkv])
    simp [decodeMembers, hk, ih hrest]

theorem decodeMembers_access_token (before after : List (GoString × JSON)) (s : GoString)
    (hbefore : ∀ kv ∈ before, matchesAccessToken kv.1 = false)
    (hafter : ∀ kv ∈ after, matchesAccessToken kv.1 = false) (t : tokenResponse) :
    decodeMembers (before ++ ("access_token".toList, JSON.str s) :: after) t none
      = ({ AccessToken := s }, none) := by
  induction before generalizing t with
  | nil =>
    have hm : matchesAccessToken "access_token".toList = true := by decide
    simp only [List.nil_append, decodeMembers, hm, if_true]
    exact decodeMembers_no_match after hafter _ _
  | cons kv rest ih =>
    obtain ⟨k, v⟩ := kv
    have hk : matchesAccessToken k = false := hbefore (k, v) (by simp)
    have hrest : ∀ kv ∈ rest, matchesAccessToken kv.1 = false :=
      fun kv hkv => hbefore kv (by simp [hkv])
    simp only [List.cons_append, decodeMembers, hk]
    exact ih hrest t

theorem GetToken_result (S : Sys σ) (w w1 : World σ) (userName password endpoint : GoString)
    (r : HTTPResponse) (e2 : σ)
    (hep : getKeycloakEndPoint S false w = (.ret endpoint none, w1))
    (hreq : S.NewRequest "POST".toList
      (endpoint ++ "/protocol/openid-connect/token".toList) = none)
    (hdo : S.Do w1.ext (tokenRequest endpoint userName password) = (.ok r, e2))
    (hread : r.ReadErr = none) :
    (GetToken S userName password w).1 =
      match Unmarshal S r.Body (some { AccessToken := [] }) with
      | (_, some err) => .ret [] (some err)
      | (none, none) => .panic nilDereference
      | (some token, none) => .ret token.AccessToken none := by
  have hdo2 := hdo
  unfold tokenRequest at hdo2
  simp only [GetToken, hep, processHTTPRequest, hreq, clientDo, tokenForm_Encode, hdo2, hread]
  rcases hu : Unmarshal S r.Body (some { AccessToken := [] }) with ⟨(_ | t), (_ | e)⟩ <;> simp

/-- C7 (counterexample): the IdP answers 200 with the JSON object
`{"access_token":""}`; `GetToken` returns a nil error and an empty token. -/
theorem GetToken_empty_access_token :
    (GetToken (labSys labJSON) "alice".toList "s3cret".toList
      (labWorld (answerLab 200 emptyTokenBody []))).1 = .ret [] none := by
  decide

/-- C7 (amended): when the IdP answers the token request with a body that is
a JSON object whose `access_token` member is a non-empty string `s`, no other
member having a key that matches `access_token`, `GetToken` returns a nil
error and the token `s`, which is non-empty; the status is not consulted. -/
theorem GetToken_access_token (S : Sys σ) (w w1 : World σ)
    (userName password endpoint s : GoString) (r : HTTPResponse) (e2 : σ)
    (before after : List (GoString × JSON))
    (hep : getKeycloakEndPoint S false w = (.ret endpoint none, w1))
    (hreq : S.NewRequest "POST".toList
      (endpoint ++ "/protocol/openid-connect/token".toList) = none)
    (hdo : S.Do w1.ext (tokenRequest endpoint userName password) = (.ok r, e2))
    (hread : r.ReadErr = none)
    (hparse : S.ParseJSON r.Body
      = some (.obj (before ++ ("access_token".toList, .str s) :: after)))
    (hbefore : ∀ kv ∈ before, matchesAccessToken kv.1 = false)
    (hafter : ∀ kv ∈ after, matchesAccessToken kv.1 = false)
    (hs : s ≠ []) :
    (GetToken S userName password w).1 = .ret s none ∧ s ≠ [] := by
  refine ⟨?_, hs⟩
  rw [GetToken_result S w w1 userName password endpoint r e2 hep hreq hdo hread]
  simp only [Unmarshal, hparse, decodeMembers_access_token before after s hbefore hafter]

theorem GetToken_access_token_witness :
    (GetToken (labSys labJSON) "alice".toList "s3cret".toList
      (labWorld (answerLab 200 goodTokenBody []))).1 = .ret "eyJhbGciOi".toList none ∧
    "eyJhbGciOi".toList ≠ [] :=
  GetToken_access_token (labSys labJSON) (labWorld (answerLab 200 goodTokenBody []))
    (labWorld (answerLab 200 goodTokenBody [])) "alice".toList "s3cret".toList
    "http://host:1234/auth/realms/master".toList "eyJhbGciOi".toList
    { StatusCode := 200, Body := goodTokenBody, ReadErr := none }
    (answerLab 200 goodTokenBody []) [] []
    (by rfl) (by rfl) (by rfl) (by rfl) (by rfl) (by simp) (by simp) (by decide)

/-- C8 (counterexample): the IdP answers 401 with `{"error":"invalid_grant"}`;
`GetToken` returns a nil error (and an empty token). -/
theorem GetToken_unauthorized_no_error :
    (GetToken (labSys labJSON) "alice".toList "wrong".toList
      (labWorld (answerLab 401 invalidGrantBody []))).1 = .ret [] none := by
  decide

/-- C8 (amended): the request layer does not look at the status.  Whatever
the status of the answer, `processHTTPRequest` hands back the body and the
error of reading it.  The outcome of `GetToken` on an answered token request
therefore depends on the body alone, for every status: a non-nil error with
an empty token exactly when decoding the body reports an error (so for every
body that is not valid JSON), a nil-pointer panic exactly when decoding leaves
the nil pointer without error (so for the body `null`), and otherwise a nil
error with the decoded token. -/
theorem GetToken_status_blind (S : Sys σ) :
    (∀ (method url : GoString) (headers : List (GoString × List GoString))
        (body : Option GoString) (w : World σ) (r : HTTPResponse) (e2 : σ),
      S.NewRequest method url = none →
      S.Do w.ext { Method := method, URL := url, Header := headers, Body := body }
        = (.ok r, e2) →
      (processHTTPRequest S method url headers body w).1 = .ret r.Body r.ReadErr) ∧
    (∀ (w w1 : World σ) (userName password endpoint : GoString) (r : HTTPResponse) (e2 : σ),
      getKeycloakEndPoint S false w = (.ret endpoint none, w1) →
      S.NewRequest "POST".toList (endpoint ++ "/protocol/openid-connect/token".toList) = none →
      S.Do w1.ext (tokenRequest endpoint userName password) = (.ok r, e2) →
      r.ReadErr = none →
      ((GetToken S userName password w).1 =
        match Unmarshal S r.Body (some { AccessToken := [] }) with
        | (_, some err) => .ret [] (some err)
        | (none, none) => .panic nilDereference
        | (some token, none) => .ret token.AccessToken none) ∧
      ((∃ tok err, (GetToken S userName password w).1 = .ret tok (some err)) ↔
        (Unmarshal S r.Body (some { AccessToken := [] })).2 ≠ none) ∧
      ((∃ m, (GetToken S userName password w).1 = .panic m) ↔
        Unmarshal S r.Body (some { AccessToken := [] }) = (none, none)) ∧
      (S.ParseJSON r.Body = none →
        (GetToken S userName password w).1 = .ret [] (some syntaxError)) ∧
      (S.ParseJSON r.Body = some .null →
        (GetToken S userName password w).1 = .panic nilDereference)) := by
  constructor
  · intro method url headers body w r e2 hreq hdo
    simp only [processHTTPRequest, hreq, clientDo, hdo]
  · intro w w1 userName password endpoint r e2 hep hreq hdo hread
    have hres := GetToken_result S w w1 userName password endpoint r e2 hep hreq hdo hread
    refine ⟨hres, ?_, ?_, ?_, ?_⟩
    · rw [hres]
      rcases hu : Unmarshal S r.Body (some { AccessToken := [] }) with ⟨(_ | t), (_ | e)⟩ <;>
        simp
    · rw [hres]
      rcases hu : Unmarshal S r.Body (some { AccessToken := [] }) with ⟨(_ | t), (_ | e)⟩ <;>
        simp
    · intro hparse
      rw [hres]
      simp [Unmarshal, hparse]
    · intro hparse
      rw [hres]
      simp [Unmarshal, hparse]

theorem GetToken_status_blind_witness :
    (processHTTPRequest (labSys labJSON) "POST".toList
      "http://host:1234/auth/realms/master/protocol/openid-connect/token".toList [] none
      (labWorld (answerLab 502 htmlBody []))).1 = .ret htmlBody none ∧
    (GetToken (labSys labJSON) "alice".toList "s3cret".toList
      (labWorld (answerLab 502 htmlBody []))).1 = .ret [] (some syntaxError) ∧
    (GetToken (labSys nullJSON) "alice".toList "wrong".toList
      (labWorld (answerLab 401 nullBody []))).1 = .panic nilDereference :=
  ⟨(GetToken_status_blind (labSys labJSON)).1 "POST".toList
      "http://host:1234/auth/realms/master/protocol/openid-connect/token".toList [] none
      (labWorld (answerLab 502 htmlBody []))
      { StatusCode := 502, Body := htmlBody, ReadErr := none }
      (answerLab 502 htmlBody []) (by rfl) (by rfl),
   ((GetToken_status_blind (labSys labJSON)).2 (labWorld (answerLab 502 htmlBody []))
      (labWorld (answerLab 502 htmlBody [])) "alice".toList "s3cret".toList
      "http://host:1234/auth/realms/master".toList
      { StatusCode := 502, Body := htmlBody, ReadErr := none }
      (answerLab 502 htmlBody []) (by rfl) (by rfl) (by rfl) (by rfl)).2.2.2.1 (by rfl),
   ((GetToken_status_blind (labSys nullJSON)).2 (labWorld (answerLab 401 nullBody []))
      (labWorld (answerLab 401 nullBody [])) "alice".toList "wrong".toList
      "http://host:1234/auth/realms/master".toList
      { StatusCode := 401, Body := nullBody, ReadErr := none }
      (answerLab 401 nullBody []) (by rfl) (by rfl) (by rfl) (by rfl)).2.2.2.2 (by rfl)⟩

theorem GetToken_request_witness :
    httpRequests (GetToken (labSys noJSON) "alice".toList "s3cret".toList
      (labWorld hostLab)).2.trace
      = httpRequests (labWorld hostLab).trace ++
        [tokenRequest "http://host:1234/auth/realms/master".toList "alice".toList
          "s3cret".toList] :=
  GetToken_request (labSys noJSON) (labWorld hostLab) (labWorld hostLab) "alice".toList
    "s3cret".toList "http://host:1234/auth/realms/master".toList (by rfl) (by rfl)

/-! ## Admin-token secret -/

theorem GetToken_writes (S : Sys σ) (userName password : GoString) (w : World σ) :
    writes (GetToken S userName password w).2.trace = writes w.trace := by
  have hk := getKeycloakEndPoint_writes S false w
  rcases h : getKeycloakEndPoint S false w with ⟨(⟨v, (_ | e)⟩ | m), w1⟩
  · rw [GetToken_world S w w1 userName password v h, processHTTPRequest_writes]
    rw [h] at hk; exact hk
  · rw [h] at hk; simpa [GetToken, h] using hk
  · rw [h] at hk; simpa [GetToken, h] using hk

theorem GetPxCentralAdminToken_writes (S : Sys σ) (w : World σ) :
    writes (GetPxCentralAdminToken S w).2.trace = writes w.trace := by
  have hk := GetToken_writes S PxCentralAdminUser w.PxCentralAdminPwd w
  unfold GetPxCentralAdminToken
  rcases h : GetToken S PxCentralAdminUser w.PxCentralAdminPwd w with ⟨(⟨v, (_ | e)⟩ | m), w1⟩ <;>
    (rw [h] at hk; simpa using hk)

theorem UpdatePxBackupAdminSecret_ok (S : Sys σ) (w w1 : World σ)
    (h : UpdatePxBackupAdminSecret S w = (.ret () none, w1)) :
    ∃ tok w0 secret m, GetPxCentralAdminToken S w = (.ret tok none, w0) ∧
      (S.GetSecret w0.ext AdminTokenSecretName AdminTokenSecretNamespace).1 = .ok secret ∧
      secret.Data = some m ∧
      w1.trace = w0.trace ++
        [Event.getSecret AdminTokenSecretName AdminTokenSecretNamespace,
         Event.updateSecret { secret with Data := some (setData m OrgToken tok) }] := by
  unfold UpdatePxBackupAdminSecret at h
  rcases hx : GetPxCentralAdminToken S w with ⟨(⟨tok, (_ | e)⟩ | p), w0⟩
  · rw [hx] at h
    simp only [k8sGetSecret] at h
    rcases hg : S.GetSecret w0.ext AdminTokenSecretName AdminTokenSecretNamespace
      with ⟨(e | secret), s1⟩
    · rw [hg] at h; simp at h
    · rw [hg] at h
      simp only at h
      rcases hd : secret.Data with _ | m
      · rw [hd] at h; simp at h
      · rw [hd] at h
        simp only [k8sUpdateSecret] at h
        refine ⟨tok, w0, secret, m, rfl, by rw [hg], hd, ?_⟩
        rcases hu : S.UpdateSecret s1 { secret with Data := some (setData m OrgToken tok) }
          with ⟨(e | s'), s2⟩
        · rw [hu] at h; simp at h
        · rw [hu] at h
          simp only [Prod.mk.injEq, true_and] at h
          rw [← h]
          simp
  · rw [hx] at h; simp at h
  · rw [hx] at h; simp at h

/-- C9: when `UpdatePxBackupAdminSecret` has succeeded (token exchanged,
secret read, secret written) and the following read succeeds,
`GetAdminTokenFromSecret` has first written the freshly exchanged token into
`PX_BACKUP_ORG_TOKEN` and then read the secret again; it returns the field
value read back with a nil error when that value is non-empty, and the error
`admin token is empty` with an empty token when it is empty. -/
theorem GetAdminTokenFromSecret_write_then_read (S : Sys σ) (w w1 : World σ)
    (secret : Secret) (e2 : σ)
    (hup : UpdatePxBackupAdminSecret S w = (.ret () none, w1))
    (hget : S.GetSecret w1.ext AdminTokenSecretName AdminTokenSecretNamespace
      = (.ok secret, e2)) :
    (∃ tok w0 written before, GetPxCentralAdminToken S w = (.ret tok none, w0) ∧
      written.field OrgToken = tok ∧
      (GetAdminTokenFromSecret S w).2.trace = before ++
        [Event.updateSecret written,
         Event.getSecret AdminTokenSecretName AdminTokenSecretNamespace]) ∧
    (secret.field OrgToken ≠ [] →
      (GetAdminTokenFromSecret S w).1 = .ret (secret.field OrgToken) none) ∧
    (secret.field OrgToken = [] →
      (GetAdminTokenFromSecret S w).1
        = .ret [] (some ⟨"admin token is empty".toList⟩)) := by
  obtain ⟨tok, w0, read, m, hx, -, -, htr⟩ := UpdatePxBackupAdminSecret_ok S w w1 hup
  refine ⟨⟨tok, w0, { read with Data := some (setData m OrgToken tok) },
    w0.trace ++ [Event.getSecret AdminTokenSecretName AdminTokenSecretNamespace], hx,
    by simp [Secret.field, setData], ?_⟩, ?_, ?_⟩
  · simp only [GetAdminTokenFromSecret, hup, k8sGetSecret, hget]
    split <;> simp [htr]
  · intro hne
    simp [GetAdminTokenFromSecret, hup, k8sGetSecret, hget, hne]
  · intro hempty
    simp [GetAdminTokenFromSecret, hup, k8sGetSecret, hget, hempty]

theorem GetAdminTokenFromSecret_write_then_read_witness :
    (GetAdminTokenFromSecret (labSys labJSON) (labWorld refreshLab)).1
      = .ret "eyJhbGciOi".toList none ∧
    (GetAdminTokenFromSecret (droppingSys labJSON) (labWorld freshLab)).1
      = .ret [] (some ⟨"admin token is empty".toList⟩) :=
  ⟨(GetAdminTokenFromSecret_write_then_read (labSys labJSON) (labWorld refreshLab)
      (UpdatePxBackupAdminSecret (labSys labJSON) (labWorld refreshLab)).2
      { adminSecret with Data := some (setData (setData (single "owner".toList
          "px-backup".toList) OrgToken "stale".toList) OrgToken "eyJhbGciOi".toList) }
      (refreshLab.put { adminSecret with Data := some (setData (setData (single "owner".toList
          "px-backup".toList) OrgToken "stale".toList) OrgToken "eyJhbGciOi".toList) })
      (by rfl) (by rfl)).2.1 (by decide),
   (GetAdminTokenFromSecret_write_then_read (droppingSys labJSON) (labWorld freshLab)
      (UpdatePxBackupAdminSecret (droppingSys labJSON) (labWorld freshLab)).2
      freshAdminSecret freshLab (by rfl) (by rfl)).2.2 (by decide)⟩

/-- C10: `UpdatePxBackupAdminSecret` reads the secret `px-backup-admin-secret`
in namespace `px-backup` (constants, whatever `PX_BACKUP_NAMESPACE` says) and
writes back the secret it read with only the data key `PX_BACKUP_ORG_TOKEN`
set to the exchanged token, every other key keeping its value; when the token
exchange fails, or the read fails, no secret is written. -/
theorem UpdatePxBackupAdminSecret_frame (S : Sys σ) (w : World σ) :
    (∀ tok w0 secret e1 m,
      GetPxCentralAdminToken S w = (.ret tok none, w0) →
      S.GetSecret w0.ext "px-backup-admin-secret".toList "px-backup".toList
        = (.ok secret, e1) →
      secret.Data = some m →
      (UpdatePxBackupAdminSecret S w).2.trace = w0.trace ++
        [Event.getSecret "px-backup-admin-secret".toList "px-backup".toList,
         Event.updateSecret { Name := secret.Name, Namespace := secret.Namespace,
                              Data := some (setData m OrgToken tok) }] ∧
      setData m OrgToken tok OrgToken = some tok ∧
      ∀ k, k ≠ OrgToken → setData m OrgToken tok k = m k) ∧
    (∀ v err w0, GetPxCentralAdminToken S w = (.ret v (some err), w0) →
      UpdatePxBackupAdminSecret S w = (.ret () (some err), w0) ∧
      writes (UpdatePxBackupAdminSecret S w).2.trace = writes w.trace) ∧
    (∀ tok w0 err e1,
      GetPxCentralAdminToken S w = (.ret tok none, w0) →
      S.GetSecret w0.ext "px-backup-admin-secret".toList "px-backup".toList
        = (.error err, e1) →
      (UpdatePxBackupAdminSecret S w).1 = .ret () (some err) ∧
      writes (UpdatePxBackupAdminSecret S w).2.trace = writes w.trace) := by
  have hw := GetPxCentralAdminToken_writes S w
  refine ⟨?_, ?_, ?_⟩
  · intro tok w0 secret e1 m hx hg hd
    have hg2 : S.GetSecret w0.ext AdminTokenSecretName AdminTokenSecretNamespace
        = (.ok secret, e1) := hg
    refine ⟨?_, by simp [setData], fun k hk => by simp [setData, hk]⟩
    simp only [UpdatePxBackupAdminSecret, hx, k8sGetSecret, hg2, hd, k8sUpdateSecret]
    rcases hu : S.UpdateSecret e1 { secret with Data := some (setData m OrgToken tok) }
      with ⟨(e | s'), s2⟩ <;> simp [AdminTokenSecretName, AdminTokenSecretNamespace]
  · intro v err w0 hx
    rw [hx] at hw
    simp only [UpdatePxBackupAdminSecret, hx]
    exact ⟨trivial, hw⟩
  · intro tok w0 err e1 hx hg
    have hg2 : S.GetSecret w0.ext AdminTokenSecretName AdminTokenSecretNamespace
        = (.error err, e1) := hg
    rw [hx] at hw
    simp only [UpdatePxBackupAdminSecret, hx, k8sGetSecret, hg2]
    refine ⟨trivial, ?_⟩
    simp [writes_append, writes, hw]

theorem UpdatePxBackupAdminSecret_frame_witness :
    (UpdatePxBackupAdminSecret (labSys labJSON) (labWorld freshLab)).2.trace =
      [Event.httpDo (tokenRequest "http://host:1234/auth/realms/master".toList
          PxCentralAdminUser "Password1".toList)] ++
        [Event.getSecret "px-backup-admin-secret".toList "px-backup".toList,
         Event.updateSecret { Name := AdminTokenSecretName, Namespace := AdminTokenSecretNamespace,
                              Data := some (setData (single "owner".toList "px-backup".toList)
                                OrgToken "eyJhbGciOi".toList) }] :=
  ((UpdatePxBackupAdminSecret_frame (labSys labJSON) (labWorld freshLab)).1
    "eyJhbGciOi".toList (GetPxCentralAdminToken (labSys labJSON) (labWorld freshLab)).2
    freshAdminSecret freshLab (single "owner".toList "px-backup".toList)
    (by rfl) (by rfl) (by rfl)).1

/-! ## Outgoing context -/

/-- C11: `GetCtxWithToken` is total and pure: for every token `t`, the empty
one included, the context it returns carries outgoing metadata with the
single key `authorization` and the single value `"bearer " ++ t`. -/
theorem GetCtxWithToken_metadata (t : GoString) :
    GetCtxWithToken t
      = { outgoing := some [("authorization".toList, ["bearer ".toList ++ t])] } ∧
    (GetCtxWithToken []).outgoing = some [("authorization".toList, ["bearer ".toList])] :=
  ⟨rfl, rfl⟩

/-! ## Name resolution -/

theorem scanUserID_first (before after : List KeycloakUserRepresentation)
    (u : KeycloakUserRepresentation) (userName : GoString)
    (hb : ∀ x ∈ before, x.Name ≠ userName) (hu : u.Name = userName) :
    scanUserID (before ++ u :: after) userName = u.ID := by
  induction before with
  | nil => simp [scanUserID, hu]
  | cons x rest ih =>
    have hx : x.Name ≠ userName := hb x (by simp)
    simp only [List.cons_append, scanUserID, hx, if_false]
    exact ih (fun y hy => hb y (by simp [hy]))

theorem scanUserID_none (users : List KeycloakUserRepresentation) (userName : GoString)
    (h : ∀ x ∈ users, x.Name ≠ userName) : scanUserID users userName = [] := by
  induction users with
  | nil => rfl
  | cons x rest ih =>
    have hx : x.Name ≠ userName := h x (by simp)
    simp only [scanUserID, hx, if_false]
    exact ih (fun y hy => h y (by simp [hy]))

theorem scanRoleID_first (before after : List KeycloakRoleRepresentation)
    (r : KeycloakRoleRepresentation) (role : GoString)
    (hb : ∀ x ∈ before, x.Name ≠ role) (hr : r.Name = role) :
    scanRoleID (before ++ r :: after) role = r.ID := by
  induction before with
  | nil => simp [scanRoleID, hr]
  | cons x rest ih =>
    have hx : x.Name ≠ role := hb x (by simp)
    simp only [List.cons_append, scanRoleID, hx, if_false]
    exact ih (fun y hy => hb y (by simp [hy]))

theorem scanRoleID_none (roles : List KeycloakRoleRepresentation) (role : GoString)
    (h : ∀ x ∈ roles, x.Name ≠ role) : scanRoleID roles role = [] := by
  induction roles with
  | nil => rfl
  | cons x rest ih =>
    have hx : x.Name ≠ role := h x (by simp)
    simp only [scanRoleID, hx, if_false]
    exact ih (fun y hy => h y (by simp [hy]))

theorem scanGroupID_first (before after : List KeycloakGroupRepresentation)
    (g : KeycloakGroupRepresentation) (name : GoString)
    (hb : ∀ x ∈ before, x.Name ≠ name) (hg : g.Name = name) :
    scanGroupID (before ++ g :: after) name = g.ID := by
  induction before with
  | nil => simp [scanGroupID, hg]
  | cons x rest ih =>
    have hx : x.Name ≠ name := hb x (by simp)
    simp only [List.cons_append, scanGroupID, hx, if_false]
    exact ih (fun y hy => hb y (by simp [hy]))

theorem scanGroupID_none (groups : List KeycloakGroupRepresentation) (name : GoString)
    (h : ∀ x ∈ groups, x.Name ≠ name) : scanGroupID groups name = [] := by
  induction groups with
  | nil => rfl
  | cons x rest ih =>
    have hx : x.Name ≠ name := h x (by simp)
    simp only [scanGroupID, hx, if_false]
    exact ih (fun y hy => h y (by simp [hy]))

theorem FetchIDOfUser_eq (S : Sys σ) (J : Codec) (w w1 w2 w3 : World σ) (headers : Header)
    (ep response userName : GoString) (users : List KeycloakUserRepresentation)
    (hh : GetCommonHTTPHeaders S PxCentralAdminUser w.PxCentralAdminPwd w
      = (.ret headers none, w1))
    (hep : getKeycloakEndPoint S true w1 = (.ret ep none, w2))
    (hget : processHTTPRequest S "GET".toList (ep ++ "/users".toList) headers none w2
      = (.ret response none, w3))
    (hdec : J.UnmarshalUsers response = (users, none)) :
    FetchIDOfUser S J userName w = (.ret (scanUserID users userName) none, w3) := by
  simp only [FetchIDOfUser, hh, hep, hget, hdec]

theorem GetRoleID_eq (S : Sys σ) (J : Codec) (w w1 : World σ) (role : GoString)
    (roles : List KeycloakRoleRepresentation)
    (h : GetAllRoles S J w = (.ret roles none, w1)) :
    GetRoleID S J role w = (.ret (scanRoleID roles role) none, w1) := by
  simp only [GetRoleID, h]

theorem FetchIDOfGroup_eq (S : Sys σ) (J : Codec) (w w1 : World σ) (name : GoString)
    (groups : List KeycloakGroupRepresentation)
    (h : GetAllGroups S J w = (.ret groups none, w1)) :
    FetchIDOfGroup S J name w = (.ret (scanGroupID groups name) none, w1) := by
  simp only [FetchIDOfGroup, h]

/-- C12: when the user listing is retrieved and decoded, `FetchIDOfUser(u)`
returns with a nil error the id of the first user whose username is exactly
`u` (equality of code units, so `Alice` is not `alice`), and the empty string
with a nil error when the listing holds no user of that name. -/
theorem FetchIDOfUser_exact (S : Sys σ) (J : Codec) (w w1 w2 w3 : World σ) (headers : Header)
    (ep response userName : GoString) (users : List KeycloakUserRepresentation)
    (hh : GetCommonHTTPHeaders S PxCentralAdminUser w.PxCentralAdminPwd w
      = (.ret headers none, w1))
    (hep : getKeycloakEndPoint S true w1 = (.ret ep none, w2))
    (hget : processHTTPRequest S "GET".toList (ep ++ "/users".toList) headers none w2
      = (.ret response none, w3))
    (hdec : J.UnmarshalUsers response = (users, none)) :
    (∀ before u after, users = before ++ u :: after → u.Name = userName →
      (∀ x ∈ before, x.Name ≠ userName) →
      (FetchIDOfUser S J userName w).1 = .ret u.ID none) ∧
    ((∀ x ∈ users, x.Name ≠ userName) →
      (FetchIDOfUser S J userName w).1 = .ret [] none) := by
  rw [FetchIDOfUser_eq S J w w1 w2 w3 headers ep response userName users hh hep hget hdec]
  constructor
  · intro before u after hus hu hb
    rw [hus, scanUserID_first before after u userName hb hu]
  · intro hnone
    rw [scanUserID_none users userName hnone]

/-- C13: when the role listing (the group listing) is retrieved, `GetRoleID`
(`FetchIDOfGroup`) returns with a nil error the id of the first entry in
listing order whose name equals the argument, whatever follows it, and the
empty string with a nil error when no entry has that name. -/
theorem GetRoleID_FetchIDOfGroup_first (S : Sys σ) (J : Codec) (w w1 v v1 : World σ)
    (role name : GoString) (roles : List KeycloakRoleRepresentation)
    (groups : List KeycloakGroupRepresentation)
    (hr : GetAllRoles S J w = (.ret roles none, w1))
    (hg : GetAllGroups S J v = (.ret groups none, v1)) :
    (∀ before r after, roles = before ++ r :: after → r.Name = role →
      (∀ x ∈ before, x.Name ≠ role) → (GetRoleID S J role w).1 = .ret r.ID none) ∧
    ((∀ x ∈ roles, x.Name ≠ role) → (GetRoleID S J role w).1 = .ret [] none) ∧
    (∀ before g after, groups = before ++ g :: after → g.Name = name →
      (∀ x ∈ before, x.Name ≠ name) → (FetchIDOfGroup S J name v).1 = .ret g.ID none) ∧
    ((∀ x ∈ groups, x.Name ≠ name) → (FetchIDOfGroup S J name v).1 = .ret [] none) := by
  rw [GetRoleID_eq S J w w1 role roles hr, FetchIDOfGroup_eq S J v v1 name groups hg]
  refine ⟨?_, ?_, ?_, ?_⟩
  · intro before r after hrs hn hb
    rw [hrs, scanRoleID_first before after r role hb hn]
  · intro hnone
    rw [scanRoleID_none roles role hnone]
  · intro before g after hgs hn hb
    rw [hgs, scanGroupID_first before after g name hb hn]
  · intro hnone
    rw [scanGroupID_none groups name hnone]

/-- C14 (evaluation at the failing input): when `GetAllGroups` returns the
error `e`, `FetchIDOfGroup` returns the empty id together with a nil error,
not `e`. -/
theorem FetchIDOfGroup_swallows_error (S : Sys σ) (J : Codec) (w w1 : World σ)
    (name : GoString) (listed : List KeycloakGroupRepresentation) (e : GoError)
    (h : GetAllGroups S J w = (.ret listed (some e), w1)) :
    FetchIDOfGroup S J name w = (.ret [] none, w1) := by
  simp only [FetchIDOfGroup, h]

theorem FetchIDOfUser_exact_witness :
    (FetchIDOfUser idpSys labCodec "alice".toList usersWorld).1 = .ret "u-2".toList none ∧
    (FetchIDOfUser idpSys labCodec "ALICE".toList usersWorld).1 = .ret [] none :=
  ⟨(FetchIDOfUser_exact idpSys labCodec usersWorld
      (GetCommonHTTPHeaders idpSys PxCentralAdminUser "Password1".toList usersWorld).2
      (GetCommonHTTPHeaders idpSys PxCentralAdminUser "Password1".toList usersWorld).2
      (FetchIDOfUser idpSys labCodec "alice".toList usersWorld).2
      labHeaders "http://host:1234/auth/admin/realms/master".toList usersBody "alice".toList
      labUsers (by rfl) (by rfl) (by rfl) (by rfl)).1
      [labUser "u-1" "Alice" "Alice@example.com"] (labUser "u-2" "alice" "alice@example.com") []
      (by rfl) (by rfl) (by decide),
   (FetchIDOfUser_exact idpSys labCodec usersWorld
      (GetCommonHTTPHeaders idpSys PxCentralAdminUser "Password1".toList usersWorld).2
      (GetCommonHTTPHeaders idpSys PxCentralAdminUser "Password1".toList usersWorld).2
      (FetchIDOfUser idpSys labCodec "alice".toList usersWorld).2
      labHeaders "http://host:1234/auth/admin/realms/master".toList usersBody "ALICE".toList
      labUsers (by rfl) (by rfl) (by rfl) (by rfl)).2 (by decide)⟩

theorem GetRoleID_FetchIDOfGroup_first_witness :
    (GetRoleID idpSys labCodec "role-x".toList rolesWorld).1 = .ret "r-1".toList none ∧
    (FetchIDOfGroup idpSys labCodec "g1".toList groupsWorld).1 = .ret "g-1".toList none :=
  have h := GetRoleID_FetchIDOfGroup_first idpSys labCodec rolesWorld
    (GetAllRoles idpSys labCodec rolesWorld).2 groupsWorld
    (GetAllGroups idpSys labCodec groupsWorld).2 "role-x".toList "g1".toList labRoles labGroups
    (by rfl) (by rfl)
  ⟨h.1 [labRole "r-0" "px-backup-app.user"] (labRole "r-1" "role-x") [labRole "r-2" "role-x"]
      (by rfl) (by rfl) (by decide),
   h.2.2.1 [] (labGroup "g-1" "g1") [labGroup "g-2" "g1"] (by rfl) (by rfl) (by decide)⟩

theorem FetchIDOfGroup_swallows_error_witness :
    FetchIDOfGroup idpSys labCodec "g1".toList brokenGroupsWorld
      = (.ret [] none, (GetAllGroups idpSys labCodec brokenGroupsWorld).2) ∧
    (DeleteGroup idpSys labCodec "g1".toList brokenGroupsWorld).1 = .ret () none ∧
    (httpRequests (DeleteGroup idpSys labCodec "g1".toList brokenGroupsWorld).2.trace).getLast?
      = some { Method := "DELETE".toList,
               URL := "http://host:1234/auth/admin/realms/master/groups/".toList,
               Header := labHeaders, Body := none } :=
  ⟨FetchIDOfGroup_swallows_error idpSys labCodec brokenGroupsWorld
      (GetAllGroups idpSys labCodec brokenGroupsWorld).2 "g1".toList []
      ⟨"connection reset by peer".toList⟩ (by rfl),
    by decide, by decide⟩

/-! ## Requests of the directory operations -/

/-- C15: with the admin endpoint `ep` resolved, the id `userID` returned by
`FetchIDOfUser` and the headers fetched, `DeleteUser` sends as its last
request a DELETE without body to `ep ++ "/users/" ++ userID`, and returns the
error of that request; with an empty id (no user of that name) the request
still goes out, to `ep ++ "/users/"`. -/
theorem DeleteUser_request (S : Sys σ) (J : Codec) (w w1 w2 w3 : World σ)
    (ep userID userName : GoString) (headers : Header)
    (hep : getKeycloakEndPoint S true w = (.ret ep none, w1))
    (hid : FetchIDOfUser S J userName w1 = (.ret userID none, w2))
    (hh : GetCommonHTTPHeaders S PxCentralAdminUser w2.PxCentralAdminPwd w2
      = (.ret headers none, w3))
    (hreq : S.NewRequest "DELETE".toList (ep ++ "/users/".toList ++ userID) = none) :
    (DeleteUser S J userName w).2.trace = w3.trace ++
      [Event.httpDo { Method := "DELETE".toList, URL := ep ++ "/users/".toList ++ userID,
                      Header := headers, Body := none }] ∧
    (∀ v e, (processHTTPRequest S "DELETE".toList (ep ++ "/users/".toList ++ userID)
        headers none w3).1 = .ret v e → (DeleteUser S J userName w).1 = .ret () e) ∧
    (userID = [] → (DeleteUser S J userName w).2.trace = w3.trace ++
      [Event.httpDo { Method := "DELETE".toList, URL := ep ++ "/users/".toList,
                      Header := headers, Body := none }]) := by
  have ht := processHTTPRequest_trace S "DELETE".toList (ep ++ "/users/".toList ++ userID)
    headers none w3 hreq
  have key : (DeleteUser S J userName w).2.trace = w3.trace ++
      [Event.httpDo { Method := "DELETE".toList, URL := ep ++ "/users/".toList ++ userID,
                      Header := headers, Body := none }] ∧
    (∀ v e, (processHTTPRequest S "DELETE".toList (ep ++ "/users/".toList ++ userID)
        headers none w3).1 = .ret v e → (DeleteUser S J userName w).1 = .ret () e) := by
    simp only [DeleteUser, hep, hid, hh]
    rcases h : processHTTPRequest S "DELETE".toList (ep ++ "/users/".toList ++ userID)
        headers none w3 with ⟨(⟨v, (_ | e)⟩ | m), w4⟩ <;> rw [h] at ht <;> simp_all
  refine ⟨key.1, key.2, ?_⟩
  intro hempty
  have h1 := key.1
  rw [hempty] at h1
  simpa using h1

/-- C16: with the admin endpoint `ep` resolved, the headers fetched and the
document marshalled, `AddUser` sends as its last request a POST to
`ep ++ "/users"` whose body is the text of the user document: empty id, the
given username, first name, last name and e-mail, `enabled` true, and a
`credentials` array of the single entry `password` / not temporary / the
given password. -/
theorem AddUser_request (S : Sys σ) (J : Codec) (w w1 w2 : World σ)
    (ep userName firstName lastName email password userBytes : GoString) (headers : Header)
    (hep : getKeycloakEndPoint S true w = (.ret ep none, w1))
    (hh : GetCommonHTTPHeaders S PxCentralAdminUser w1.PxCentralAdminPwd w1
      = (.ret headers none, w2))
    (hm : J.Marshal (.obj
      [("id".toList, .str []), ("username".toList, .str userName),
       ("firstName".toList, .str firstName), ("lastName".toList, .str lastName),
       ("emailVerified".toList, .bool false), ("enabled".toList, .bool true),
       ("email".toList, .str email),
       ("credentials".toList, .arr [.obj [("type".toList, .str "password".toList),
          ("temporary".toList, .bool false), ("value".toList, .str password)]])])
      = (userBytes, none))
    (hreq : S.NewRequest "POST".toList (ep ++ "/users".toList) = none) :
    (AddUser S J userName firstName lastName email password w).2.trace = w2.trace ++
      [Event.httpDo { Method := "POST".toList, URL := ep ++ "/users".toList,
                      Header := headers, Body := some userBytes }] := by
  have ht := processHTTPRequest_trace S "POST".toList (ep ++ "/users".toList)
    headers (some userBytes) w2 hreq
  simp only [AddUser, hep, hh, userJSON, credentialsJSON, List.map, hm]
  rcases h : processHTTPRequest S "POST".toList (ep ++ "/users".toList)
      headers (some userBytes) w2 with ⟨(⟨v, (_ | e)⟩ | m), w3⟩ <;> rw [h] at ht <;> simp_all

theorem AddRoleToUser_trace (S : Sys σ) (J : Codec) (w w1 w2 w3 w4 : World σ)
    (userName role description clientID roleID roleBytes ep : GoString) (headers : Header)
    (hid : FetchIDOfUser S J userName w = (.ret clientID none, w1))
    (hrole : GetRoleID S J role w1 = (.ret roleID none, w2))
    (hm : J.Marshal (bindingJSON roleID role description) = (roleBytes, none))
    (hep : getKeycloakEndPoint S true w2 = (.ret ep none, w3))
    (hh : GetCommonHTTPHeaders S PxCentralAdminUser w3.PxCentralAdminPwd w3
      = (.ret headers none, w4))
    (hreq : S.NewRequest "POST".toList
      (ep ++ "/users/".toList ++ clientID ++ "/role-mappings/realm".toList) = none) :
    (AddRoleToUser S J userName role description w).2.trace = w4.trace ++
      [Event.httpDo { Method := "POST".toList,
                      URL := ep ++ "/users/".toList ++ clientID ++ "/role-mappings/realm".toList,
                      Header := headers, Body := some roleBytes }] := by
  have ht := processHTTPRequest_trace S "POST".toList
    (ep ++ "/users/".toList ++ clientID ++ "/role-mappings/realm".toList)
    headers (some roleBytes) w4 hreq
  have hm2 := hm
  simp only [bindingJSON] at hm2
  simp only [AddRoleToUser, hid, hrole, rolesJSON, roleJSON, mapJSON, stringsJSON, List.map,
    List.nil_append, hm2, hep, hh]
  rcases h : processHTTPRequest S "POST".toList
      (ep ++ "/users/".toList ++ clientID ++ "/role-mappings/realm".toList)
      headers (some roleBytes) w4 with ⟨(⟨v, (_ | e)⟩ | m), w5⟩ <;> rw [h] at ht <;> simp_all

theorem AddRoleToGroup_trace (S : Sys σ) (J : Codec) (w w1 w2 w3 w4 : World σ)
    (groupName role description groupID roleID roleBytes ep : GoString) (headers : Header)
    (hid : FetchIDOfGroup S J groupName w = (.ret groupID none, w1))
    (hrole : GetRoleID S J role w1 = (.ret roleID none, w2))
    (hm : J.Marshal (bindingJSON roleID role description) = (roleBytes, none))
    (hep : getKeycloakEndPoint S true w2 = (.ret ep none, w3))
    (hh : GetCommonHTTPHeaders S PxCentralAdminUser w3.PxCentralAdminPwd w3
      = (.ret headers none, w4))
    (hreq : S.NewRequest "POST".toList
      (ep ++ "/groups/".toList ++ groupID ++ "/role-mappings/realm".toList) = none) :
    (AddRoleToGroup S J groupName role description w).2.trace = w4.trace ++
      [Event.httpDo { Method := "POST".toList,
                      URL := ep ++ "/groups/".toList ++ groupID ++ "/role-mappings/realm".toList,
                      Header := headers, Body := some roleBytes }] := by
  have ht := processHTTPRequest_trace S "POST".toList
    (ep ++ "/groups/".toList ++ groupID ++ "/role-mappings/realm".toList)
    headers (some roleBytes) w4 hreq
  have hm2 := hm
  simp only [bindingJSON] at hm2
  simp only [AddRoleToGroup, hid, hrole, rolesJSON, roleJSON, mapJSON, stringsJSON, List.map,
    List.nil_append, hm2, hep, hh]
  rcases h : processHTTPRequest S "POST".toList
      (ep ++ "/groups/".toList ++ groupID ++ "/role-mappings/realm".toList)
      headers (some roleBytes) w4 with ⟨(⟨v, (_ | e)⟩ | m), w5⟩ <;> rw [h] at ht <;> simp_all

theorem DeleteRoleFromUser_trace (S : Sys σ) (J : Codec) (w w1 w2 w3 w4 : World σ)
    (userName role description clientID roleID roleBytes ep : GoString) (headers : Header)
    (hid : FetchIDOfUser S J userName w = (.ret clientID none, w1))
    (hrole : GetRoleID S J role w1 = (.ret roleID none, w2))
    (hm : J.Marshal (bindingJSON roleID role description) = (roleBytes, none))
    (hep : getKeycloakEndPoint S true w2 = (.ret ep none, w3))
    (hh : GetCommonHTTPHeaders S PxCentralAdminUser w3.PxCentralAdminPwd w3
      = (.ret headers none, w4))
    (hreq : S.NewRequest "DELETE".toList
      (ep ++ "/users/".toList ++ clientID ++ "/role-mappings/realm".toList) = none) :
    (DeleteRoleFromUser S J userName role description w).2.trace = w4.trace ++
      [Event.httpDo { Method := "DELETE".toList,
                      URL := ep ++ "/users/".toList ++ clientID ++ "/role-mappings/realm".toList,
                      Header := headers, Body := some roleBytes }] := by
  have ht := processHTTPRequest_trace S "DELETE".toList
    (ep ++ "/users/".toList ++ clientID ++ "/role-mappings/realm".toList)
    headers (some roleBytes) w4 hreq
  have hm2 := hm
  simp only [bindingJSON] at hm2
  simp only [DeleteRoleFromUser, hid, hrole, rolesJSON, roleJSON, mapJSON, stringsJSON, List.map,
    List.nil_append, hm2, hep, hh]
  rcases h : processHTTPRequest S "DELETE".toList
      (ep ++ "/users/".toList ++ clientID ++ "/role-mappings/realm".toList)
      headers (some roleBytes) w4 with ⟨(⟨v, (_ | e)⟩ | m), w5⟩ <;> rw [h] at ht <;> simp_all

theorem DeleteRoleFromGroup_trace (S : Sys σ) (J : Codec) (w w1 w2 w3 w4 : World σ)
    (groupName role description groupID roleID roleBytes ep : GoString) (headers : Header)
    (hid : FetchIDOfGroup S J groupName w = (.ret groupID none, w1))
    (hrole : GetRoleID S J role w1 = (.ret roleID none, w2))
    (hm : J.Marshal (bindingJSON roleID role description) = (roleBytes, none))
    (hep : getKeycloakEndPoint S true w2 = (.ret ep none, w3))
    (hh : GetCommonHTTPHeaders S PxCentralAdminUser w3.PxCentralAdminPwd w3
      = (.ret headers none, w4))
    (hreq : S.NewRequest "DELETE".toList
      (ep ++ "/groups/".toList ++ groupID ++ "/role-mappings/realm".toList) = none) :
    (DeleteRoleFromGroup S J groupName role description w).2.trace = w4.trace ++
      [Event.httpDo { Method := "DELETE".toList,
                      URL := ep ++ "/groups/".toList ++ groupID ++ "/role-mappings/realm".toList,
                      Header := headers, Body := some roleBytes }] := by
  have ht := processHTTPRequest_trace S "DELETE".toList
    (ep ++ "/groups/".toList ++ groupID ++ "/role-mappings/realm".toList)
    headers (some roleBytes) w4 hreq
  have hm2 := hm
  simp only [bindingJSON] at hm2
  simp only [DeleteRoleFromGroup, hid, hrole, rolesJSON, roleJSON, mapJSON, stringsJSON, List.map,
    List.nil_append, hm2, hep, hh]
  rcases h : processHTTPRequest S "DELETE".toList
      (ep ++ "/groups/".toList ++ groupID ++ "/role-mappings/realm".toList)
      headers (some roleBytes) w4 with ⟨(⟨v, (_ | e)⟩ | m), w5⟩ <;> rw [h] at ht <;> simp_all

theorem DeleteUser_request_witness :
    httpRequests (DeleteUser idpSys labCodec "nobody".toList deleteUserWorld).2.trace
      = [adminTokenRequest,
         { Method := "GET".toList, URL := labAdminEndpoint ++ "/users".toList,
           Header := labHeaders, Body := none },
         adminTokenRequest,
         { Method := "DELETE".toList, URL := labAdminEndpoint ++ "/users/".toList,
           Header := labHeaders, Body := none }] ∧
    (DeleteUser idpSys labCodec "nobody".toList deleteUserWorld).1 = .ret () none ∧
    (DeleteUser idpSys labCodec "nobody".toList deleteUserWorld).2.trace
      = deleteUserWorld3.trace ++
        [Event.httpDo { Method := "DELETE".toList, URL := labAdminEndpoint ++ "/users/".toList,
                        Header := labHeaders, Body := none }] :=
  ⟨by decide, by decide,
    (DeleteUser_request idpSys labCodec deleteUserWorld deleteUserWorld deleteUserWorld2
      deleteUserWorld3 labAdminEndpoint [] "nobody".toList labHeaders
      (by rfl) (by rfl) (by rfl) (by rfl)).2.2 rfl⟩

theorem AddUser_request_witness :
    (AddUser idpSys labCodec "bob".toList "Bob".toList "Builder".toList
        "bob@example.com".toList "s3cret".toList addUserWorld).2.trace
      = addUserWorld2.trace ++
        [Event.httpDo { Method := "POST".toList, URL := labAdminEndpoint ++ "/users".toList,
                        Header := labHeaders,
                        Body := some ("\x7b\"id\":\"\",\"username\":\"bob\",".toList
                          ++ "\"firstName\":\"Bob\",\"lastName\":\"Builder\",".toList
                          ++ "\"emailVerified\":false,\"enabled\":true,".toList
                          ++ "\"email\":\"bob@example.com\",".toList
                          ++ "\"credentials\":[\x7b\"type\":\"password\",".toList
                          ++ "\"temporary\":false,\"value\":\"s3cret\"\x7d]\x7d".toList) }] :=
  AddUser_request idpSys labCodec addUserWorld addUserWorld addUserWorld2 labAdminEndpoint
    "bob".toList "Bob".toList "Builder".toList "bob@example.com".toList "s3cret".toList _
    labHeaders (by rfl) (by rfl) (by rfl) (by rfl)

/-- C17: with the principal id and the role id resolved (`FetchIDOfUser` or
`FetchIDOfGroup`, then `GetRoleID`), the document marshalled, the admin
endpoint `ep` resolved and the headers fetched, `AddRoleToUser` sends as its
last request a POST to `ep ++ "/users/" ++ id ++ "/role-mappings/realm"` and
`AddRoleToGroup` a POST to `ep ++ "/groups/" ++ id ++ "/role-mappings/realm"`;
the body is the text of `bindingJSON`: an array of exactly one role with the
resolved id, the given name and description, container `master`, composite
and clientRole false. -/
theorem AddRole_request (S : Sys σ) (J : Codec) (role description : GoString) :
    (∀ (w w1 w2 w3 w4 : World σ) (userName clientID roleID roleBytes ep : GoString)
      (headers : Header),
      FetchIDOfUser S J userName w = (.ret clientID none, w1) →
      GetRoleID S J role w1 = (.ret roleID none, w2) →
      J.Marshal (bindingJSON roleID role description) = (roleBytes, none) →
      getKeycloakEndPoint S true w2 = (.ret ep none, w3) →
      GetCommonHTTPHeaders S PxCentralAdminUser w3.PxCentralAdminPwd w3
        = (.ret headers none, w4) →
      S.NewRequest "POST".toList
        (ep ++ "/users/".toList ++ clientID ++ "/role-mappings/realm".toList) = none →
      (AddRoleToUser S J userName role description w).2.trace = w4.trace ++
        [Event.httpDo { Method := "POST".toList,
                        URL := ep ++ "/users/".toList ++ clientID
                          ++ "/role-mappings/realm".toList,
                        Header := headers, Body := some roleBytes }]) ∧
    (∀ (w w1 w2 w3 w4 : World σ) (groupName groupID roleID roleBytes ep : GoString)
      (headers : Header),
      FetchIDOfGroup S J groupName w = (.ret groupID none, w1) →
      GetRoleID S J role w1 = (.ret roleID none, w2) →
      J.Marshal (bindingJSON roleID role description) = (roleBytes, none) →
      getKeycloakEndPoint S true w2 = (.ret ep none, w3) →
      GetCommonHTTPHeaders S PxCentralAdminUser w3.PxCentralAdminPwd w3
        = (.ret headers none, w4) →
      S.NewRequest "POST".toList
        (ep ++ "/groups/".toList ++ groupID ++ "/role-mappings/realm".toList) = none →
      (AddRoleToGroup S J groupName role description w).2.trace = w4.trace ++
        [Event.httpDo { Method := "POST".toList,
                        URL := ep ++ "/groups/".toList ++ groupID
                          ++ "/role-mappings/realm".toList,
                        Header := headers, Body := some roleBytes }]) := by
  constructor
  · intro w w1 w2 w3 w4 userName clientID roleID roleBytes ep headers hid hrole hm hep hh hreq
    exact AddRoleToUser_trace S J w w1 w2 w3 w4 userName role description clientID roleID
      roleBytes ep headers hid hrole hm hep hh hreq
  · intro w w1 w2 w3 w4 groupName groupID roleID roleBytes ep headers hid hrole hm hep hh hreq
    exact AddRoleToGroup_trace S J w w1 w2 w3 w4 groupName role description groupID roleID
      roleBytes ep headers hid hrole hm hep hh hreq

theorem AddRole_request_witness :
    (AddRoleToUser idpSys labCodec "alice".toList "role-x".toList "d".toList
        bindUserWorld).2.trace = bindUserWorld4.trace ++
      [Event.httpDo { Method := "POST".toList,
                      URL := labAdminEndpoint ++ "/users/u-2/role-mappings/realm".toList,
                      Header := labHeaders,
                      Body := some (renderJSON
                        (bindingJSON "r-1".toList "role-x".toList "d".toList)) }] ∧
    (AddRoleToGroup idpSys labCodec "g1".toList "role-x".toList "d".toList
        bindGroupWorld).2.trace = bindGroupWorld4.trace ++
      [Event.httpDo { Method := "POST".toList,
                      URL := labAdminEndpoint ++ "/groups/g-1/role-mappings/realm".toList,
                      Header := labHeaders,
                      Body := some (renderJSON
                        (bindingJSON "r-1".toList "role-x".toList "d".toList)) }] :=
  ⟨(AddRole_request idpSys labCodec "role-x".toList "d".toList).1 bindUserWorld bindUserWorld1
      bindUserWorld2 bindUserWorld2 bindUserWorld4 "alice".toList "u-2".toList "r-1".toList _
      labAdminEndpoint labHeaders (by rfl) (by rfl) (by rfl) (by rfl) (by rfl) (by rfl),
   (AddRole_request idpSys labCodec "role-x".toList "d".toList).2 bindGroupWorld bindGroupWorld1
      bindGroupWorld2 bindGroupWorld2 bindGroupWorld4 "g1".toList "g-1".toList "r-1".toList _
      labAdminEndpoint labHeaders (by rfl) (by rfl) (by rfl) (by rfl) (by rfl) (by rfl)⟩

/-- C18: from the same state and with the same arguments (hence the same
listings, endpoint, headers and marshalled body), the last request of
`DeleteRoleFromUser` is the last request of `AddRoleToUser` with the method
`DELETE` in place of `POST`, URL, headers and body being the same; likewise
for `DeleteRoleFromGroup` and `AddRoleToGroup`. -/
theorem DeleteRole_mirrors_AddRole (S : Sys σ) (J : Codec) (role description : GoString) :
    (∀ (w w1 w2 w3 w4 : World σ) (userName clientID roleID roleBytes ep : GoString)
      (headers : Header),
      FetchIDOfUser S J userName w = (.ret clientID none, w1) →
      GetRoleID S J role w1 = (.ret roleID none, w2) →
      J.Marshal (bindingJSON roleID role description) = (roleBytes, none) →
      getKeycloakEndPoint S true w2 = (.ret ep none, w3) →
      GetCommonHTTPHeaders S PxCentralAdminUser w3.PxCentralAdminPwd w3
        = (.ret headers none, w4) →
      S.NewRequest "POST".toList
        (ep ++ "/users/".toList ++ clientID ++ "/role-mappings/realm".toList) = none →
      S.NewRequest "DELETE".toList
        (ep ++ "/users/".toList ++ clientID ++ "/role-mappings/realm".toList) = none →
      ∃ req : HTTPRequest,
        (AddRoleToUser S J userName role description w).2.trace
          = w4.trace ++ [Event.httpDo req] ∧
        req.Method = "POST".toList ∧ req.Body = some roleBytes ∧
        (DeleteRoleFromUser S J userName role description w).2.trace
          = w4.trace ++ [Event.httpDo { req with Method := "DELETE".toList }]) ∧
    (∀ (w w1 w2 w3 w4 : World σ) (groupName groupID roleID roleBytes ep : GoString)
      (headers : Header),
      FetchIDOfGroup S J groupName w = (.ret groupID none, w1) →
      GetRoleID S J role w1 = (.ret roleID none, w2) →
      J.Marshal (bindingJSON roleID role description) = (roleBytes, none) →
      getKeycloakEndPoint S true w2 = (.ret ep none, w3) →
      GetCommonHTTPHeaders S PxCentralAdminUser w3.PxCentralAdminPwd w3
        = (.ret headers none, w4) →
      S.NewRequest "POST".toList
        (ep ++ "/groups/".toList ++ groupID ++ "/role-mappings/realm".toList) = none →
      S.NewRequest "DELETE".toList
        (ep ++ "/groups/".toList ++ groupID ++ "/role-mappings/realm".toList) = none →
      ∃ req : HTTPRequest,
        (AddRoleToGroup S J groupName role description w).2.trace
          = w4.trace ++ [Event.httpDo req] ∧
        req.Method = "POST".toList ∧ req.Body = some roleBytes ∧
        (DeleteRoleFromGroup S J groupName role description w).2.trace
          = w4.trace ++ [Event.httpDo { req with Method := "DELETE".toList }]) := by
  constructor
  · intro w w1 w2 w3 w4 userName clientID roleID roleBytes ep headers hid hrole hm hep hh hp hd
    exact ⟨_, AddRoleToUser_trace S J w w1 w2 w3 w4 userName role description clientID roleID
      roleBytes ep headers hid hrole hm hep hh hp, rfl, rfl,
      DeleteRoleFromUser_trace S J w w1 w2 w3 w4 userName role description clientID roleID
      roleBytes ep headers hid hrole hm hep hh hd⟩
  · intro w w1 w2 w3 w4 groupName groupID roleID roleBytes ep headers hid hrole hm hep hh hp hd
    exact ⟨_, AddRoleToGroup_trace S J w w1 w2 w3 w4 groupName role description groupID roleID
      roleBytes ep headers hid hrole hm hep hh hp, rfl, rfl,
      DeleteRoleFromGroup_trace S J w w1 w2 w3 w4 groupName role description groupID roleID
      roleBytes ep headers hid hrole hm hep hh hd⟩

set_option maxRecDepth 8000 in
theorem DeleteRole_mirrors_AddRole_witness :
    (httpRequests (AddRoleToUser idpSys labCodec "alice".toList "role-x".toList "d".toList
        bindUserWorld).2.trace).getLast?
      = some { Method := "POST".toList,
               URL := labAdminEndpoint ++ "/users/u-2/role-mappings/realm".toList,
               Header := labHeaders,
               Body := some (renderJSON (bindingJSON "r-1".toList "role-x".toList "d".toList)) } ∧
    (httpRequests (DeleteRoleFromUser idpSys labCodec "alice".toList "role-x".toList "d".toList
        bindUserWorld).2.trace).getLast?
      = some { Method := "DELETE".toList,
               URL := labAdminEndpoint ++ "/users/u-2/role-mappings/realm".toList,
               Header := labHeaders,
               Body := some (renderJSON (bindingJSON "r-1".toList "role-x".toList "d".toList)) } ∧
    ∃ req : HTTPRequest,
      (AddRoleToUser idpSys labCodec "alice".toList "role-x".toList "d".toList
          bindUserWorld).2.trace = bindUserWorld4.trace ++ [Event.httpDo req] ∧
      req.Method = "POST".toList ∧
      req.Body = some (renderJSON (bindingJSON "r-1".toList "role-x".toList "d".toList)) ∧
      (DeleteRoleFromUser idpSys labCodec "alice".toList "role-x".toList "d".toList
          bindUserWorld).2.trace
        = bindUserWorld4.trace ++ [Event.httpDo { req with Method := "DELETE".toList }] :=
  ⟨by decide, by decide,
    (DeleteRole_mirrors_AddRole idpSys labCodec "role-x".toList "d".toList).1 bindUserWorld
      bindUserWorld1 bindUserWorld2 bindUserWorld2 bindUserWorld4 "alice".toList "u-2".toList
      "r-1".toList _ labAdminEndpoint labHeaders
      (by rfl) (by rfl) (by rfl) (by rfl) (by rfl) (by rfl) (by rfl)⟩

/-! ## `AddGroup` -/

theorem getKeycloakEndPoint_override_eq (S : Sys σ) (w : World σ) (admin : Bool)
    (hne : S.Getenv w.ext PxCentralUIURL ≠ []) (hsp : S.Getenv w.ext PxCentralUIURL ≠ [' ']) :
    getKeycloakEndPoint S admin w =
      (.ret (S.Getenv w.ext PxCentralUIURL ++
        (if admin then "/auth/admin/realms/master".toList else "/auth/realms/master".toList))
        none, w) := by
  have hlen : 0 < (S.Getenv w.ext PxCentralUIURL).length := List.length_pos.mpr hne
  cases admin <;> simp [getKeycloakEndPoint, hsp, hlen]

theorem GetToken_eq (S : Sys σ) (w w1 : World σ) (userName password endpoint tok : GoString)
    (r : HTTPResponse) (e2 : σ)
    (hep : getKeycloakEndPoint S false w = (.ret endpoint none, w1))
    (hreq : S.NewRequest "POST".toList
      (endpoint ++ "/protocol/openid-connect/token".toList) = none)
    (hdo : S.Do w1.ext (tokenRequest endpoint userName password) = (.ok r, e2))
    (hread : r.ReadErr = none)
    (hu : Unmarshal S r.Body (some { AccessToken := [] }) = (some { AccessToken := tok }, none)) :
    GetToken S userName password w = (.ret tok none,
      { w1 with ext := e2,
                trace := w1.trace ++ [Event.httpDo (tokenRequest endpoint userName password)] }) := by
  have hdo2 := hdo
  unfold tokenRequest at hdo2
  simp only [GetToken, hep, processHTTPRequest, hreq, clientDo, tokenForm_Encode, hdo2, hread, hu]
  rfl

theorem GetCommonHTTPHeaders_eq (S : Sys σ) (w w1 : World σ) (userName password tok : GoString)
    (h : GetToken S userName password w = (.ret tok none, w1)) :
    GetCommonHTTPHeaders S userName password w =
      (.ret [("Authorization".toList, ["Bearer ".toList ++ tok]),
             ("Content-Type".toList, ["application/json".toList])] none, w1) := by
  simp only [GetCommonHTTPHeaders, h, List.nil_append, List.cons_append]

theorem processHTTPRequest_pwd (S : Sys σ) (method url : GoString)
    (headers : List (GoString × List GoString)) (body : Option GoString) (w : World σ) :
    (processHTTPRequest S method url headers body w).2.PxCentralAdminPwd
      = w.PxCentralAdminPwd := by
  unfold processHTTPRequest
  simp only [clientDo]
  rcases hn : S.NewRequest method url with _ | e
  · rcases h : S.Do w.ext { Method := method, URL := url, Header := headers, Body := body }
      with ⟨(e | r), s⟩ <;> simp
  · simp

theorem AddGroup_trace (S : Sys σ) (J : Codec) (w w1 w2 : World σ)
    (ep group userBytes : GoString) (headers : Header)
    (hep : getKeycloakEndPoint S true w = (.ret ep none, w1))
    (hh : GetCommonHTTPHeaders S PxCentralAdminUser w1.PxCentralAdminPwd w1
      = (.ret headers none, w2))
    (hm : J.Marshal (.obj [("name".toList, .str group)]) = (userBytes, none))
    (hreq : S.NewRequest "POST".toList (ep ++ "/groups".toList) = none) :
    (AddGroup S J group w).2.trace = w2.trace ++
      [Event.httpDo { Method := "POST".toList, URL := ep ++ "/groups".toList,
                      Header := headers, Body := some userBytes }] ∧
    (AddGroup S J group w).2.PxCentralAdminPwd = w2.PxCentralAdminPwd := by
  have ht := processHTTPRequest_trace S "POST".toList (ep ++ "/groups".toList)
    headers (some userBytes) w2 hreq
  have hp := processHTTPRequest_pwd S "POST".toList (ep ++ "/groups".toList)
    headers (some userBytes) w2
  simp only [AddGroup, hep, hh, groupAddJSON, hm]
  rcases h : processHTTPRequest S "POST".toList (ep ++ "/groups".toList)
      headers (some userBytes) w2 with ⟨(⟨v, (_ | e)⟩ | m), w3⟩ <;>
    rw [h] at ht hp <;> simp_all

theorem getKeycloakEndPoint_pwd (S : Sys σ) (admin : Bool) (w : World σ) :
    (getKeycloakEndPoint S admin w).2.PxCentralAdminPwd = w.PxCentralAdminPwd := by
  unfold getKeycloakEndPoint
  simp only [k8sGetSecret]
  split
  · split <;> rfl
  · split
    · rename_i h; simp only [Prod.mk.injEq] at h; rw [← h.2]
    · rename_i h; simp only [Prod.mk.injEq] at h
      split
      · split
        · split <;> rw [← h.2]
        · rw [← h.2]
      · rw [← h.2]

theorem GetToken_requests_of_ok (S : Sys σ) (userName password tok : GoString) (w w2 : World σ)
    (h : GetToken S userName password w = (.ret tok none, w2)) :
    ∃ endpoint, httpRequests w2.trace
        = httpRequests w.trace ++ [tokenRequest endpoint userName password] ∧
      w2.PxCentralAdminPwd = w.PxCentralAdminPwd := by
  rcases hep : getKeycloakEndPoint S false w with ⟨(⟨endpoint, (_ | e)⟩ | m), w1⟩
  · have hw := GetToken_world S w w1 userName password endpoint hep
    rw [h] at hw
    simp only at hw
    have hq := getKeycloakEndPoint_httpRequests S false w
    have hpw := getKeycloakEndPoint_pwd S false w
    rw [hep] at hq hpw
    simp only at hq hpw
    rcases hreq : S.NewRequest "POST".toList
        (endpoint ++ "/protocol/openid-connect/token".toList) with _ | err
    · have ht := processHTTPRequest_trace S "POST".toList
        (endpoint ++ "/protocol/openid-connect/token".toList)
        [("Content-Type".toList, ["application/x-www-form-urlencoded".toList])]
        (some (tokenForm userName password).Encode) w1 hreq
      have hp := processHTTPRequest_pwd S "POST".toList
        (endpoint ++ "/protocol/openid-connect/token".toList)
        [("Content-Type".toList, ["application/x-www-form-urlencoded".toList])]
        (some (tokenForm userName password).Encode) w1
      rw [← hw] at ht hp
      refine ⟨endpoint, ?_, by rw [hp, hpw]⟩
      rw [ht, httpRequests_append, hq, tokenForm_Encode]
      rfl
    · simp only [GetToken, hep, processHTTPRequest, hreq] at h
      simp at h
  · simp [GetToken, hep] at h
  · simp [GetToken, hep] at h

theorem GetCommonHTTPHeaders_requests (S : Sys σ) (userName password : GoString)
    (headers : Header) (w w2 : World σ)
    (hh : GetCommonHTTPHeaders S userName password w = (.ret headers none, w2)) :
    ∃ endpoint, httpRequests w2.trace
        = httpRequests w.trace ++ [tokenRequest endpoint userName password] ∧
      w2.PxCentralAdminPwd = w.PxCentralAdminPwd := by
  rcases hT : GetToken S userName password w with ⟨(⟨tok, (_ | e)⟩ | m), w1⟩
  · have hw : w1 = w2 := by
      simp only [GetCommonHTTPHeaders, hT, Prod.mk.injEq] at hh
      exact hh.2
    subst hw
    exact GetToken_requests_of_ok S userName password tok w w1 hT
  · simp [GetCommonHTTPHeaders, hT] at hh
  · simp [GetCommonHTTPHeaders, hT] at hh

theorem token_url_ne_groups (endpoint ep : GoString) :
    endpoint ++ "/protocol/openid-connect/token".toList ≠ ep ++ "/groups".toList := by
  intro h
  have h2 := congrArg List.getLast? h
  simp at h2

theorem AddGroup_call (S : Sys σ) (J : Codec) (group userBytes ep : GoString)
    (headers : Header) (w w1 w2 : World σ)
    (hep : getKeycloakEndPoint S true w = (.ret ep none, w1))
    (hh : GetCommonHTTPHeaders S PxCentralAdminUser w1.PxCentralAdminPwd w1
      = (.ret headers none, w2))
    (hm : J.Marshal (.obj [("name".toList, .str group)]) = (userBytes, none))
    (hreq : S.NewRequest "POST".toList (ep ++ "/groups".toList) = none) :
    ∃ endpoint, httpRequests (AddGroup S J group w).2.trace = httpRequests w.trace ++
        [tokenRequest endpoint PxCentralAdminUser w.PxCentralAdminPwd,
         { Method := "POST".toList, URL := ep ++ "/groups".toList, Header := headers,
           Body := some userBytes }] ∧
      (AddGroup S J group w).2.PxCentralAdminPwd = w.PxCentralAdminPwd := by
  obtain ⟨hA, hApwd⟩ := AddGroup_trace S J w w1 w2 ep group userBytes headers hep hh hm hreq
  obtain ⟨endpoint, hq, hpw⟩ := GetCommonHTTPHeaders_requests S PxCentralAdminUser
    w1.PxCentralAdminPwd headers w1 w2 hh
  have hq1 := getKeycloakEndPoint_httpRequests S true w
  have hpw1 := getKeycloakEndPoint_pwd S true w
  rw [hep] at hq1 hpw1
  simp only at hq1 hpw1
  refine ⟨endpoint, ?_, by rw [hApwd, hpw, hpw1]⟩
  rw [hA, httpRequests_append, hq, hq1, hpw1]
  simp [httpRequests]

/-- C19: whenever a call `AddGroup(g)` resolves the admin endpoint `ep`,
obtains its headers and can build its request, the requests it sends are
exactly the token exchange of `GetCommonHTTPHeaders` followed by one POST to
`ep ++ "/groups"` whose body is the text of `{"name": g}`; exactly one of them
is addressed to `ep ++ "/groups"`, whatever the IdP answers to it.  Nothing is
deduplicated: a second call from the state the first one leaves sends both
requests again, so that the POST to `/groups` is sent twice. -/
theorem AddGroup_requests (S : Sys σ) (J : Codec) (group userBytes ep : GoString)
    (headers : Header) (w w1 w2 : World σ)
    (hep : getKeycloakEndPoint S true w = (.ret ep none, w1))
    (hh : GetCommonHTTPHeaders S PxCentralAdminUser w1.PxCentralAdminPwd w1
      = (.ret headers none, w2))
    (hm : J.Marshal (.obj [("name".toList, .str group)]) = (userBytes, none))
    (hreq : S.NewRequest "POST".toList (ep ++ "/groups".toList) = none) :
    ∃ endpoint,
      httpRequests (AddGroup S J group w).2.trace = httpRequests w.trace ++
        [tokenRequest endpoint PxCentralAdminUser w.PxCentralAdminPwd,
         { Method := "POST".toList, URL := ep ++ "/groups".toList, Header := headers,
           Body := some userBytes }] ∧
      [tokenRequest endpoint PxCentralAdminUser w.PxCentralAdminPwd,
        ({ Method := "POST".toList, URL := ep ++ "/groups".toList, Header := headers,
           Body := some userBytes } : HTTPRequest)].filter
          (fun r => decide (r.URL = ep ++ "/groups".toList))
        = [{ Method := "POST".toList, URL := ep ++ "/groups".toList, Header := headers,
             Body := some userBytes }] ∧
      ∀ (ep2 : GoString) (headers2 : Header) (v1 v2 : World σ),
        getKeycloakEndPoint S true (AddGroup S J group w).2 = (.ret ep2 none, v1) →
        GetCommonHTTPHeaders S PxCentralAdminUser v1.PxCentralAdminPwd v1
          = (.ret headers2 none, v2) →
        S.NewRequest "POST".toList (ep2 ++ "/groups".toList) = none →
        ∃ endpoint2,
          httpRequests (AddGroup S J group (AddGroup S J group w).2).2.trace
            = httpRequests w.trace ++
              [tokenRequest endpoint PxCentralAdminUser w.PxCentralAdminPwd,
               { Method := "POST".toList, URL := ep ++ "/groups".toList, Header := headers,
                 Body := some userBytes },
               tokenRequest endpoint2 PxCentralAdminUser w.PxCentralAdminPwd,
               { Method := "POST".toList, URL := ep2 ++ "/groups".toList, Header := headers2,
                 Body := some userBytes }] := by
  obtain ⟨endpoint, h1, hpwd⟩ := AddGroup_call S J group userBytes ep headers w w1 w2
    hep hh hm hreq
  refine ⟨endpoint, h1, ?_, ?_⟩
  · have hne := token_url_ne_groups endpoint ep
    have hd : decide ((tokenRequest endpoint PxCentralAdminUser w.PxCentralAdminPwd).URL
        = ep ++ "/groups".toList) = false := decide_eq_false hne
    rw [List.filter_cons_of_neg (by rw [hd]; exact Bool.false_ne_true),
      List.filter_cons_of_pos (by exact decide_eq_true rfl)]
    rfl
  · intro ep2 headers2 v1 v2 hep2 hh2 hreq2
    obtain ⟨endpoint2, h2, -⟩ := AddGroup_call S J group userBytes ep2 headers2
      (AddGroup S J group w).2 v1 v2 hep2 hh2 hm hreq2
    refine ⟨endpoint2, ?_⟩
    rw [h2, h1, hpwd]
    simp

set_option maxRecDepth 8000 in
theorem AddGroup_requests_witness :
    (∃ endpoint,
      httpRequests (AddGroup idpSys labCodec "g1".toList addGroupWorld).2.trace
        = httpRequests addGroupWorld.trace ++
          [tokenRequest endpoint PxCentralAdminUser addGroupWorld.PxCentralAdminPwd,
           { Method := "POST".toList, URL := labAdminEndpoint ++ "/groups".toList,
             Header := labHeaders, Body := some "\x7b\"name\":\"g1\"\x7d".toList }] ∧
      [tokenRequest endpoint PxCentralAdminUser addGroupWorld.PxCentralAdminPwd,
        ({ Method := "POST".toList, URL := labAdminEndpoint ++ "/groups".toList,
           Header := labHeaders,
           Body := some "\x7b\"name\":\"g1\"\x7d".toList } : HTTPRequest)].filter
          (fun r => decide (r.URL = labAdminEndpoint ++ "/groups".toList))
        = [{ Method := "POST".toList, URL := labAdminEndpoint ++ "/groups".toList,
             Header := labHeaders, Body := some "\x7b\"name\":\"g1\"\x7d".toList }]) ∧
    httpRequests (AddGroup idpSys labCodec "g1".toList
        (AddGroup idpSys labCodec "g1".toList addGroupWorld).2).2.trace
      = [adminTokenRequest, addGroupRequest, adminTokenRequest, addGroupRequest] :=
  ⟨(AddGroup_requests idpSys labCodec "g1".toList
      "\x7b\"name\":\"g1\"\x7d".toList labAdminEndpoint labHeaders addGroupWorld
      addGroupWorld
      (GetCommonHTTPHeaders idpSys PxCentralAdminUser addGroupWorld.PxCentralAdminPwd
        addGroupWorld).2 (by rfl) (by rfl) (by rfl) (by rfl)).imp
      (fun _ h => ⟨h.1, h.2.1⟩),
   by decide⟩

/-! ## Polling for user details -/

theorem scanUserDetails_first (users : List KeycloakUserRepresentation) (userID : GoString)
    (u : KeycloakUserRepresentation) (c : Captured)
    (h : firstWithID users userID = some u) :
    scanUserDetails users userID c = { userName := u.Name, email := u.Email } := by
  induction users with
  | nil => simp [firstWithID] at h
  | cons x rest ih =>
    by_cases hx : x.ID = userID
    · simp only [firstWithID, List.find?, hx, decide_True, Option.some.injEq] at h
      simp [scanUserDetails, hx, ← h]
    · have h2 : firstWithID rest userID = some u := by
        simpa [firstWithID, List.find?, hx] using h
      simp only [scanUserDetails, hx, if_false]
      exact ih h2

theorem fetchUserDetailsAttempt_eq (S : Sys σ) (J : Codec) (headers : Header)
    (userID : GoString) (cap : Captured) (a c : World σ)
    (users : List KeycloakUserRepresentation)
    (hp : pollsListing S J headers a users c) :
    fetchUserDetailsAttempt S J headers userID (cap, a) =
      if (scanUserDetails users userID cap).userName = [] ∨
          (scanUserDetails users userID cap).email = [] then
        (.done () true (some ⟨"got emptry user/email, retrying again".toList⟩),
          (scanUserDetails users userID cap, c))
      else (.done () false none, (scanUserDetails users userID cap, c)) := by
  obtain ⟨ep, b, response, hep, hget, hdec⟩ := hp
  simp only [fetchUserDetailsAttempt, hep, hget, hdec]

theorem retryLoop_retry {τ α : Type} (T : Timer τ) (t : τ → Attempt α × τ)
    (timeout timeBeforeRetry deadline fuel : Nat) (errs : List GoString) (s s1 : τ) (out : α)
    (err : GoError) (hnow : T.Now s < deadline)
    (ht : t s = (.done out true (some err), s1)) :
    retryLoop T t timeout timeBeforeRetry deadline (fuel + 1) errs s
      = retryLoop T t timeout timeBeforeRetry deadline fuel (errs ++ [err.msg])
          (T.Sleep s1 timeBeforeRetry) := by
  have hd : ¬ deadline ≤ T.Now s := Nat.not_le.mpr hnow
  simp only [retryLoop, hd, if_false, ht]

theorem retryLoop_done {τ α : Type} (T : Timer τ) (t : τ → Attempt α × τ)
    (timeout timeBeforeRetry deadline fuel : Nat) (errs : List GoString) (s s1 : τ) (out : α)
    (retry : Bool) (hnow : T.Now s < deadline)
    (ht : t s = (.done out retry none, s1)) :
    retryLoop T t timeout timeBeforeRetry deadline (fuel + 1) errs s
      = some (.ret (some out) none, s1) := by
  have hd : ¬ deadline ≤ T.Now s := Nat.not_le.mpr hnow
  simp only [retryLoop, hd, if_false, ht]

theorem FetchUserDetailsFromID_three_polls (S : Sys σ) (J : Codec) (C : Timer σ) (fuel : Nat)
    (userID : GoString) (w w0 c1 c2 c3 : World σ) (headers : Header)
    (users1 users2 users3 : List KeycloakUserRepresentation)
    (u1 u2 u3 : KeycloakUserRepresentation)
    (hfuel : 3 ≤ fuel)
    (hh : GetCommonHTTPHeaders S PxCentralAdminUser w.PxCentralAdminPwd w
      = (.ret headers none, w0))
    (hp1 : pollsListing S J headers w0 users1 c1)
    (hf1 : firstWithID users1 userID = some u1) (he1 : u1.Email = [])
    (ht2 : C.Now (afterInterval C c1).ext < C.Now w0.ext + defaultWaitTimeout)
    (hp2 : pollsListing S J headers (afterInterval C c1) users2 c2)
    (hf2 : firstWithID users2 userID = some u2) (he2 : u2.Email = [])
    (ht3 : C.Now (afterInterval C c2).ext < C.Now w0.ext + defaultWaitTimeout)
    (hp3 : pollsListing S J headers (afterInterval C c2) users3 c3)
    (hf3 : firstWithID users3 userID = some u3)
    (hn3 : u3.Name ≠ []) (he3 : u3.Email ≠ []) :
    FetchUserDetailsFromID S J C fuel userID w = some (.ret (u3.Name, u3.Email) none, c3) := by
  obtain ⟨n, rfl⟩ : ∃ n, fuel = n + 3 := ⟨fuel - 3, by omega⟩
  have a1 := fetchUserDetailsAttempt_eq S J headers userID { userName := [], email := [] }
    w0 c1 users1 hp1
  rw [scanUserDetails_first users1 userID u1 _ hf1] at a1
  simp only [he1, or_true, if_true] at a1
  have a2 := fetchUserDetailsAttempt_eq S J headers userID { userName := u1.Name, email := [] }
    (afterInterval C c1) c2 users2 hp2
  rw [scanUserDetails_first users2 userID u2 _ hf2] at a2
  simp only [he2, or_true, if_true] at a2
  have a3 := fetchUserDetailsAttempt_eq S J headers userID { userName := u2.Name, email := [] }
    (afterInterval C c2) c3 users3 hp3
  rw [scanUserDetails_first users3 userID u3 _ hf3] at a3
  simp only [hn3, he3, or_self, if_false] at a3
  have t1 : (worldTimer C).Now (({ userName := [], email := [] } : Captured), w0)
      < C.Now w0.ext + defaultWaitTimeout := by
    simp [worldTimer, defaultWaitTimeout]
  have r1 := retryLoop_retry (worldTimer C) (fetchUserDetailsAttempt S J headers userID)
    defaultWaitTimeout defaultWaitInterval (C.Now w0.ext + defaultWaitTimeout) (n + 2) []
    _ _ () _ t1 a1
  have r2 := retryLoop_retry (worldTimer C) (fetchUserDetailsAttempt S J headers userID)
    defaultWaitTimeout defaultWaitInterval (C.Now w0.ext + defaultWaitTimeout) (n + 1)
    ([] ++ ["got emptry user/email, retrying again".toList])
    ({ userName := u1.Name, email := [] }, afterInterval C c1) _ () _ ht2 a2
  have r3 := retryLoop_done (worldTimer C) (fetchUserDetailsAttempt S J headers userID)
    defaultWaitTimeout defaultWaitInterval (C.Now w0.ext + defaultWaitTimeout) n
    ([] ++ ["got emptry user/email, retrying again".toList]
      ++ ["got emptry user/email, retrying again".toList])
    ({ userName := u2.Name, email := [] }, afterInterval C c2) _ () false ht3 a3
  have hloop : DoRetryWithTimeout (worldTimer C) (fetchUserDetailsAttempt S J headers userID)
      defaultWaitTimeout defaultWaitInterval (n + 3) ({ userName := [], email := [] }, w0)
      = some (.ret (some ()) none, ({ userName := u3.Name, email := u3.Email }, c3)) := by
    unfold DoRetryWithTimeout
    show retryLoop _ _ _ _ (C.Now w0.ext + defaultWaitTimeout) (n + 2 + 1) [] _ = _
    rw [r1]
    show retryLoop _ _ _ _ _ (n + 1 + 1) _
      (({ userName := u1.Name, email := [] } : Captured), afterInterval C c1) = _
    rw [r2]
    exact r3
  simp only [FetchUserDetailsFromID, hh, hloop]

theorem afterInterval_ext (C : Timer σ) (w : World σ) :
    (afterInterval C w).ext = C.Sleep w.ext defaultWaitInterval := rfl

/-- C20 (amended): with the 5-second interval and the 30-second deadline,
when the headers are fetched, the first two polls list the user with id
`userID` with an empty e-mail and the third poll lists it with non-empty
username and e-mail, and when moreover polls and sleeps are fast enough (a
poll takes at most `δ`, a sleep lasts at most `ε` longer than asked, and
`3 * δ + 2 * ε` plus two intervals stays below the deadline),
`FetchUserDetailsFromID` returns (for every bound of at least three attempts)
a nil error and the username and e-mail of the third poll, in the state
reached right after the third poll, whose clock is still before the
deadline. -/
theorem FetchUserDetailsFromID_third_poll (S : Sys σ) (J : Codec) (C : Timer σ) (fuel : Nat)
    (userID : GoString) (w w0 c1 c2 c3 : World σ) (headers : Header)
    (users1 users2 users3 : List KeycloakUserRepresentation)
    (u1 u2 u3 : KeycloakUserRepresentation) (δ ε : Nat)
    (hfuel : 3 ≤ fuel)
    (hh : GetCommonHTTPHeaders S PxCentralAdminUser w.PxCentralAdminPwd w
      = (.ret headers none, w0))
    (hpoll : ∀ a users c, pollsListing S J headers a users c → C.Now c.ext ≤ C.Now a.ext + δ)
    (hsleep : ∀ e d, C.Now (C.Sleep e d) ≤ C.Now e + d + ε)
    (hbudget : 3 * δ + 2 * ε + 2 * defaultWaitInterval < defaultWaitTimeout)
    (hp1 : pollsListing S J headers w0 users1 c1)
    (hf1 : firstWithID users1 userID = some u1) (he1 : u1.Email = [])
    (hp2 : pollsListing S J headers (afterInterval C c1) users2 c2)
    (hf2 : firstWithID users2 userID = some u2) (he2 : u2.Email = [])
    (hp3 : pollsListing S J headers (afterInterval C c2) users3 c3)
    (hf3 : firstWithID users3 userID = some u3)
    (hn3 : u3.Name ≠ []) (he3 : u3.Email ≠ []) :
    FetchUserDetailsFromID S J C fuel userID w = some (.ret (u3.Name, u3.Email) none, c3) ∧
    C.Now c3.ext ≤ C.Now w0.ext + (3 * δ + 2 * ε + 2 * defaultWaitInterval) ∧
    C.Now c3.ext < C.Now w0.ext + defaultWaitTimeout := by
  have d1 := hpoll _ _ _ hp1
  have s1 := hsleep c1.ext defaultWaitInterval
  have d2 := hpoll _ _ _ hp2
  have s2 := hsleep c2.ext defaultWaitInterval
  have d3 := hpoll _ _ _ hp3
  rw [afterInterval_ext] at d2 d3
  have ht2 : C.Now (afterInterval C c1).ext < C.Now w0.ext + defaultWaitTimeout := by
    rw [afterInterval_ext]; omega
  have ht3 : C.Now (afterInterval C c2).ext < C.Now w0.ext + defaultWaitTimeout := by
    rw [afterInterval_ext]; omega
  refine ⟨FetchUserDetailsFromID_three_polls S J C fuel userID w w0 c1 c2 c3 headers
    users1 users2 users3 u1 u2 u3 hfuel hh hp1 hf1 he1 ht2 hp2 hf2 he2 ht3 hp3 hf3 hn3 he3,
    by omega, by omega⟩

theorem getKeycloakEndPoint_ext (S : Sys σ) (admin : Bool) (w : World σ)
    (hstore : ∀ e n ns, (S.GetSecret e n ns).2 = e) :
    (getKeycloakEndPoint S admin w).2.ext = w.ext := by
  unfold getKeycloakEndPoint
  simp only [k8sGetSecret]
  split
  · split <;> rfl
  · split
    · rename_i h; simp only [Prod.mk.injEq] at h; rw [← h.2]; exact hstore _ _ _
    · rename_i h; simp only [Prod.mk.injEq] at h
      split
      · split
        · split <;> (rw [← h.2]; exact hstore _ _ _)
        · rw [← h.2]; exact hstore _ _ _
      · rw [← h.2]; exact hstore _ _ _

theorem timedSys_request (ms : Nat) (method url : GoString) (headers : Header)
    (body : Option GoString) (w : World Idp) :
    (processHTTPRequest (timedSys ms) method url headers body w).2.ext.clock
      = w.ext.clock + ms := by
  simp only [processHTTPRequest, timedSys, clientDo]
  rcases hs : w.ext.script with _ | ⟨(e | r), rest⟩ <;> simp

theorem timedSys_poll (ms : Nat) (J : Codec) (headers : Header) (a c : World Idp)
    (users : List KeycloakUserRepresentation)
    (h : pollsListing (timedSys ms) J headers a users c) :
    idpTimer.Now c.ext ≤ idpTimer.Now a.ext + ms := by
  obtain ⟨ep, b, response, h1, h2, -⟩ := h
  have hb := getKeycloakEndPoint_ext (timedSys ms) true a (fun _ _ _ => rfl)
  rw [h1] at hb
  have hc := timedSys_request ms "GET".toList (ep ++ "/users".toList) headers none b
  rw [h2] at hc
  simp only at hb hc
  simp only [idpTimer, hc, hb]
  exact Nat.le_refl _

set_option maxRecDepth 20000 in
/-- C20 (counterexample): the IdP lists `u-7` with an empty e-mail on the
first two polls and would list it complete on the third, but every request
takes 13 seconds: after the second poll and the second sleep the deadline of
30 seconds is passed, and `FetchUserDetailsFromID` gives up with the deadline
error after two polls, the third listing never being asked for. -/
theorem FetchUserDetailsFromID_slow_polls :
    pollsListing (timedSys 13000) pollCodec labHeaders (timedWorld0 13000) incompleteListing
      (timedWorld1 13000) ∧
    pollsListing (timedSys 13000) pollCodec labHeaders
      (afterInterval idpTimer (timedWorld1 13000)) incompleteListing (timedWorld2 13000) ∧
    (afterInterval idpTimer (timedWorld2 13000)).ext.script = [ok200 (pollBody 3)] ∧
    pollCodec.UnmarshalUsers (pollBody 3) = (completeListing, none) ∧
    FetchUserDetailsFromID (timedSys 13000) pollCodec idpTimer 7 "u-7".toList pollWorld
      = some (.ret ([], []) (some ⟨("failed to fetch user name/email: [timed out performing " ++
          "task: got emptry user/email, retrying again]").toList⟩),
        afterInterval idpTimer (timedWorld2 13000)) ∧
    (httpRequests (afterInterval idpTimer (timedWorld2 13000)).trace).map (fun r => r.Method)
      = ["POST".toList, "GET".toList, "GET".toList] :=
  ⟨⟨labAdminEndpoint, timedWorld0 13000, pollBody 1, by rfl, by rfl, by rfl⟩,
   ⟨labAdminEndpoint, afterInterval idpTimer (timedWorld1 13000), pollBody 2,
     by rfl, by rfl, by rfl⟩,
   by rfl, by rfl, by rfl, by decide⟩

set_option maxRecDepth 20000 in
theorem FetchUserDetailsFromID_third_poll_witness :
    FetchUserDetailsFromID (timedSys 2000) pollCodec idpTimer 7 "u-7".toList pollWorld
      = some (.ret ("carol".toList, "carol@example.com".toList) none, timedWorld3 2000) ∧
    idpTimer.Now (timedWorld3 2000).ext
      ≤ idpTimer.Now (timedWorld0 2000).ext + (3 * 2000 + 2 * 0 + 2 * defaultWaitInterval) ∧
    idpTimer.Now (timedWorld3 2000).ext
      < idpTimer.Now (timedWorld0 2000).ext + defaultWaitTimeout :=
  FetchUserDetailsFromID_third_poll (timedSys 2000) pollCodec idpTimer 7 "u-7".toList pollWorld
    (timedWorld0 2000) (timedWorld1 2000) (timedWorld2 2000) (timedWorld3 2000) labHeaders
    incompleteListing incompleteListing completeListing
    (labUser "u-7" "carol" "") (labUser "u-7" "carol" "")
    (labUser "u-7" "carol" "carol@example.com") 2000 0
    (by decide) (by rfl)
    (fun a users c h => timedSys_poll 2000 pollCodec labHeaders a c users h)
    (fun _ _ => Nat.le_refl _) (by decide)
    ⟨labAdminEndpoint, timedWorld0 2000, pollBody 1, by rfl, by rfl, by rfl⟩
    (by rfl) (by rfl)
    ⟨labAdminEndpoint, afterInterval idpTimer (timedWorld1 2000), pollBody 2,
      by rfl, by rfl, by rfl⟩
    (by rfl) (by rfl)
    ⟨labAdminEndpoint, afterInterval idpTimer (timedWorld2 2000), pollBody 3,
      by rfl, by rfl, by rfl⟩
    (by rfl) (by decide) (by decide)

/-! ## Settings -/

/-- C24: `GetPxBackupNamespace` returns the value of `PX_BACKUP_NAMESPACE`
when it is non-empty and `px-backup` otherwise; `getOidcSecretName` returns
the value of `SECRET_NAME` when it is non-empty and `pxc-backup-secret`
otherwise; neither returns the empty string. -/
theorem settings_fall_back (S : Sys σ) (w : World σ) :
    GetPxBackupNamespace S w
      = (if S.Getenv w.ext "PX_BACKUP_NAMESPACE".toList = [] then "px-backup".toList
         else S.Getenv w.ext "PX_BACKUP_NAMESPACE".toList) ∧
    getOidcSecretName S w
      = (if S.Getenv w.ext "SECRET_NAME".toList = [] then "pxc-backup-secret".toList
         else S.Getenv w.ext "SECRET_NAME".toList) ∧
    GetPxBackupNamespace S w ≠ [] ∧ getOidcSecretName S w ≠ [] := by
  have h1 : GetPxBackupNamespace S w
      = (if S.Getenv w.ext "PX_BACKUP_NAMESPACE".toList = [] then "px-backup".toList
         else S.Getenv w.ext "PX_BACKUP_NAMESPACE".toList) := rfl
  have h2 : getOidcSecretName S w
      = (if S.Getenv w.ext "SECRET_NAME".toList = [] then "pxc-backup-secret".toList
         else S.Getenv w.ext "SECRET_NAME".toList) := rfl
  refine ⟨h1, h2, ?_, ?_⟩
  · rw [h1]
    split
    · decide
    · assumption
  · rw [h2]
    split
    · decide
    · assumption

/-! ## The administrator's password -/

theorem GetPxCentralAdminToken_eq_GetToken (S : Sys σ) (w : World σ) :
    GetPxCentralAdminToken S w = GetToken S PxCentralAdminUser w.PxCentralAdminPwd w := by
  unfold GetPxCentralAdminToken
  rcases h : GetToken S PxCentralAdminUser w.PxCentralAdminPwd w with ⟨(⟨v, (_ | e)⟩ | m), w1⟩
  · rfl
  · have hv : v = [] := by
      unfold GetToken at h
      revert h
      rcases getKeycloakEndPoint S false w with ⟨(⟨ep, (_ | e1)⟩ | m1), w0⟩
      · simp only
        rcases processHTTPRequest S "POST".toList
            (ep ++ "/protocol/openid-connect/token".toList)
            [("Content-Type".toList, ["application/x-www-form-urlencoded".toList])]
            (some (tokenForm PxCentralAdminUser w.PxCentralAdminPwd).Encode) w0
          with ⟨(⟨resp, (_ | e2)⟩ | m2), w2⟩
        · simp only
          rcases Unmarshal S resp (some { AccessToken := [] }) with ⟨(_ | t), (_ | e3)⟩ <;>
            simp <;> intro h _ <;> simp_all
        · simp; intro h _ _; exact h
        · simp
      · simp; intro h _ _; exact h
      · simp
    rw [hv]
  · rfl

/-- C26: `GetPxCentralAdminPwd` leaves the package variable
`PxCentralAdminPwd` as it was, whatever the secret holds: the `credential`
field is only returned, an empty field gives the error `px-central-admin
secret is empty`, and `GetPxCentralAdminToken` called afterwards still
exchanges the password held before the call. -/
theorem GetPxCentralAdminPwd_frame (S : Sys σ) (w : World σ) :
    (GetPxCentralAdminPwd S w).2.PxCentralAdminPwd = w.PxCentralAdminPwd ∧
    (∀ secret e1,
      S.GetSecret w.ext PxCentralAdminSecretName (GetPxBackupNamespace S w) = (.ok secret, e1) →
      (secret.field "credential".toList ≠ [] →
        (GetPxCentralAdminPwd S w).1 = .ret (secret.field "credential".toList) none) ∧
      (secret.field "credential".toList = [] →
        (GetPxCentralAdminPwd S w).1
          = .ret [] (some ⟨"px-central-admin secret is empty".toList⟩))) ∧
    GetPxCentralAdminToken S (GetPxCentralAdminPwd S w).2
      = GetToken S PxCentralAdminUser w.PxCentralAdminPwd (GetPxCentralAdminPwd S w).2 := by
  have hframe : (GetPxCentralAdminPwd S w).2.PxCentralAdminPwd = w.PxCentralAdminPwd := by
    simp only [GetPxCentralAdminPwd, k8sGetSecret]
    rcases S.GetSecret w.ext PxCentralAdminSecretName (GetPxBackupNamespace S w)
      with ⟨(e | secret), s⟩
    · rfl
    · simp only
      split <;> rfl
  refine ⟨hframe, ?_, ?_⟩
  · intro secret e1 hget
    constructor
    · intro hne
      simp only [GetPxCentralAdminPwd, k8sGetSecret, hget, hne, if_false]
    · intro hempty
      simp only [GetPxCentralAdminPwd, k8sGetSecret, hget, hempty, if_true]
  · rw [GetPxCentralAdminToken_eq_GetToken, hframe]

theorem GetPxCentralAdminPwd_frame_witness :
    (GetPxCentralAdminPwd (labSys labJSON)
        (labWorld (credentialLab "Rotated2".toList))).1 = .ret "Rotated2".toList none ∧
    (GetPxCentralAdminPwd (labSys labJSON)
        (labWorld (credentialLab "Rotated2".toList))).2.PxCentralAdminPwd
      = "Password1".toList ∧
    (httpRequests (GetPxCentralAdminToken (labSys labJSON)
        (GetPxCentralAdminPwd (labSys labJSON)
          (labWorld (credentialLab "Rotated2".toList))).2).2.trace)
      = [tokenRequest "http://host:1234/auth/realms/master".toList PxCentralAdminUser
          "Password1".toList] :=
  ⟨((GetPxCentralAdminPwd_frame (labSys labJSON)
      (labWorld (credentialLab "Rotated2".toList))).2.1
      { Name := PxCentralAdminSecretName, Namespace := "px-backup".toList,
        Data := some (single "credential".toList "Rotated2".toList) }
      (credentialLab "Rotated2".toList) (by rfl)).1 (by decide),
   by decide, by decide⟩

/-! ## Index range of the resolver -/

theorem splitGo_length_pos (sep s : GoString) (k : Nat) (acc : GoString) :
    1 ≤ (splitGo sep s k acc).length := by
  have h := splitGo_ne_nil sep s k acc
  cases hs : splitGo sep s k acc with
  | nil => exact absurd hs h
  | cons x xs => simp

theorem splitGo_length (sep : GoString) (hsep : sep ≠ []) (s acc : GoString) :
    1 < (splitGo sep s 0 acc).length ↔ sep <:+: s := by
  induction s generalizing acc with
  | nil =>
    simp only [splitGo, List.length_singleton, Nat.lt_irrefl, false_iff]
    intro h
    exact hsep (List.eq_nil_of_infix_nil h)
  | cons c cs ih =>
    by_cases hp : sep.isPrefixOf (c :: cs)
    · have hpre : sep <+: c :: cs := List.isPrefixOf_iff_prefix.mp hp
      simp only [splitGo, hp, if_true, List.length_cons]
      have := splitGo_length_pos sep cs (sep.length - 1) []
      constructor
      · intro _; exact hpre.isInfix
      · intro _; omega
    · have hpre : ¬ sep <+: c :: cs := fun h => hp (List.isPrefixOf_iff_prefix.mpr h)
      simp only [splitGo, hp, Bool.false_eq_true, if_false]
      rw [ih (c :: acc), List.infix_cons_iff]
      constructor
      · intro h; exact Or.inr h
      · intro h
        rcases h with h | h
        · exact absurd h hpre
        · exact h

theorem singleton_infix_iff (c : Char) (s : GoString) : [c] <:+: s ↔ c ∈ s := by
  constructor
  · intro h
    exact h.subset (by simp)
  · intro h
    obtain ⟨a, b, hab⟩ := List.append_of_mem h
    exact ⟨a, b, by simp [hab]⟩

theorem Split_colon_length (s : GoString) : 1 < (Split s [':']).length ↔ ':' ∈ s := by
  simp only [Split, List.cons_ne_nil, if_false]
  rw [splitGo_length [':'] (by simp) s [], singleton_infix_iff]

theorem Split_auth_length (s : GoString) :
    1 < (Split s "auth".toList).length ↔ "auth".toList <:+: s := by
  have hne : "auth".toList ≠ [] := by decide
  simp only [Split, hne, if_false]
  exact splitGo_length "auth".toList hne s []

theorem Split_no_colon (s : GoString) (h : ':' ∉ s) : Split s [':'] = [s] := by
  have key : ∀ acc : GoString, splitGo [':'] s 0 acc = [acc.reverse ++ s] := by
    induction s with
    | nil => intro acc; simp [splitGo]
    | cons c cs ih =>
      intro acc
      have hc : ':' ≠ c := fun e => h (by rw [e]; exact List.mem_cons_self _ _)
      have hcs : ':' ∉ cs := fun e => h (List.mem_cons_of_mem _ e)
      have hp : ¬ ([':'].isPrefixOf (c :: cs) = true) := by simp [List.isPrefixOf, hc]
      simp only [splitGo, hp, Bool.false_eq_true, if_false]
      simpa using ih hcs (c :: acc)
  simp [Split, key]

/-- C27: in discovery mode (no override, secret read), an issuer with at
least one `:` makes `getKeycloakEndPoint(false)` return a URL, and
`getKeycloakEndPoint(true)` then returns a URL exactly when that rewritten URL
contains `auth`, panicking on the index otherwise; an issuer without `:`
(the empty string included) makes both variants panic on the index. -/
theorem getKeycloakEndPoint_index_range (S : Sys σ) (w : World σ) (secret : Secret) (e1 : σ)
    (hunset : S.Getenv w.ext PxCentralUIURL = [])
    (hget : S.GetSecret w.ext (getOidcSecretName S w) (GetPxBackupNamespace S w)
      = (.ok secret, e1)) :
    (':' ∈ secret.field Issuer →
      ∃ url, (getKeycloakEndPoint S false w).1 = .ret url none ∧
        ("auth".toList <:+: url →
          ∃ adminURL, (getKeycloakEndPoint S true w).1 = .ret adminURL none) ∧
        (¬ "auth".toList <:+: url →
          (getKeycloakEndPoint S true w).1 = .panic indexOutOfRange)) ∧
    (':' ∉ secret.field Issuer →
      ∀ admin, (getKeycloakEndPoint S admin w).1 = .panic indexOutOfRange) := by
  constructor
  · intro hc
    have h1 : 1 < (Split (secret.field Issuer) [':']).length := (Split_colon_length _).mpr hc
    refine ⟨Join ((Split (secret.field Issuer) [':']).set 1
      ((Split (secret.field Issuer) [':'])[1] ++ ['.'] ++ GetPxBackupNamespace S w
        ++ ".svc.cluster.local".toList)) [':'], ?_, ?_, ?_⟩
    · simp only [getKeycloakEndPoint, hunset, k8sGetSecret, hget]
      simp [h1]
    · intro hauth
      have h2 := (Split_auth_length _).mpr hauth
      simp only [getKeycloakEndPoint, hunset, k8sGetSecret, hget]
      simp at h2
      simp [h1, h2]
    · intro hauth
      have h2 : ¬ 1 < (Split _ "auth".toList).length := fun h => hauth ((Split_auth_length _).mp h)
      simp only [getKeycloakEndPoint, hunset, k8sGetSecret, hget]
      simp at h2
      simp [h1]
      split
      · omega
      · rfl
  · intro hc admin
    have h1 : ¬ 1 < (Split (secret.field Issuer) [':']).length :=
      fun h => hc ((Split_colon_length _).mp h)
    simp only [getKeycloakEndPoint, hunset, k8sGetSecret, hget]
    simp [h1]

theorem getKeycloakEndPoint_index_range_witness :
    (getKeycloakEndPoint (labSys noJSON) false (labWorld noAuthLab)).1
      = .ret "http://keycloak.px-backup.svc.cluster.local:8080/realms/master".toList none ∧
    (getKeycloakEndPoint (labSys noJSON) true (labWorld noAuthLab)).1
      = .panic indexOutOfRange ∧
    ∃ url, (getKeycloakEndPoint (labSys noJSON) false (labWorld noAuthLab)).1 = .ret url none ∧
      ("auth".toList <:+: url →
        ∃ adminURL, (getKeycloakEndPoint (labSys noJSON) true (labWorld noAuthLab)).1
          = .ret adminURL none) ∧
      (¬ "auth".toList <:+: url →
        (getKeycloakEndPoint (labSys noJSON) true (labWorld noAuthLab)).1
          = .panic indexOutOfRange) :=
  ⟨by decide, by decide,
    (getKeycloakEndPoint_index_range (labSys noJSON) (labWorld noAuthLab)
      (oidcSecret "px-backup".toList
        (some (single Issuer "http://keycloak:8080/realms/master".toList)))
      noAuthLab (by decide) (by rfl)).1 (by decide)⟩

/-- C28: in discovery mode, for an issuer `a ++ ":" ++ b` with no other `:`
(a URL without a port), `getKeycloakEndPoint(false)` returns
`issuer ++ "." ++ ns ++ ".svc.cluster.local"`: the suffix follows the whole
URL, path included. -/
theorem getKeycloakEndPoint_no_port (S : Sys σ) (w : World σ) (secret : Secret) (e1 : σ)
    (a b : GoString)
    (hunset : S.Getenv w.ext PxCentralUIURL = [])
    (hget : S.GetSecret w.ext (getOidcSecretName S w) (GetPxBackupNamespace S w)
      = (.ok secret, e1))
    (hiss : secret.field Issuer = a ++ [':'] ++ b)
    (ha : ':' ∉ a) (hb : ':' ∉ b) :
    (getKeycloakEndPoint S false w).1 =
      .ret (secret.field Issuer ++ ['.'] ++ GetPxBackupNamespace S w
        ++ ".svc.cluster.local".toList) none := by
  have hsplit : Split (secret.field Issuer) [':'] = [a, b] := by
    rw [hiss]
    have : a ++ [':'] ++ b = a ++ ':' :: b := by simp
    rw [this, Split_colon _ _ ha, Split_no_colon _ hb]
  simp only [getKeycloakEndPoint, hunset, k8sGetSecret, hget, hsplit]
  simp [Join, hiss]

theorem getKeycloakEndPoint_no_port_witness :
    (getKeycloakEndPoint (labSys noJSON) false (labWorld noPortLab)).1 =
      .ret "http://keycloak/auth/realms/master.px-backup.svc.cluster.local".toList none :=
  getKeycloakEndPoint_no_port (labSys noJSON) (labWorld noPortLab)
    (oidcSecret "px-backup".toList
      (some (single Issuer "http://keycloak/auth/realms/master".toList)))
    noPortLab "http".toList "//keycloak/auth/realms/master".toList
    (by decide) (by rfl) (by decide) (by decide) (by decide)

/-- C29: with the override equal to the single space, `getKeycloakEndPoint`
goes through discovery: it reads the discovery secret and returns what it
returns in a state that differs only in having the override unset.  Every
other non-empty override, two spaces for one, takes the override branch:
the result is the override followed by the fixed path and no secret is
read. -/
theorem getKeycloakEndPoint_single_space (S : Sys σ) (w v : World σ) (admin : Bool)
    (hspace : S.Getenv w.ext PxCentralUIURL = [' '])
    (hunset : S.Getenv v.ext PxCentralUIURL = [])
    (henv : ∀ k, k ≠ PxCentralUIURL → S.Getenv w.ext k = S.Getenv v.ext k)
    (hsec : ∀ name ns, (S.GetSecret w.ext name ns).1 = (S.GetSecret v.ext name ns).1) :
    (getKeycloakEndPoint S admin w).1 = (getKeycloakEndPoint S admin v).1 ∧
    (getKeycloakEndPoint S admin w).2.trace = w.trace ++
      [Event.getSecret (getOidcSecretName S w) (GetPxBackupNamespace S w)] ∧
    (∀ (u : World σ), S.Getenv u.ext PxCentralUIURL ≠ [] →
      S.Getenv u.ext PxCentralUIURL ≠ [' '] →
      getKeycloakEndPoint S admin u =
        (.ret (S.Getenv u.ext PxCentralUIURL ++
          (if admin then "/auth/admin/realms/master".toList
           else "/auth/realms/master".toList)) none, u)) := by
  have hns : GetPxBackupNamespace S w = GetPxBackupNamespace S v := by
    simp only [GetPxBackupNamespace, henv pxBackupNamespace (by decide)]
  have hname : getOidcSecretName S w = getOidcSecretName S v := by
    simp only [getOidcSecretName, henv oidcSecretName (by decide)]
  have hs := hsec (getOidcSecretName S v) (GetPxBackupNamespace S v)
  refine ⟨?_, ?_, fun u h1 h2 => getKeycloakEndPoint_override_eq S u admin h1 h2⟩
  · simp only [getKeycloakEndPoint, hspace, hunset, k8sGetSecret, hns, hname]
    rcases hw : S.GetSecret w.ext (getOidcSecretName S v) (GetPxBackupNamespace S v)
      with ⟨rw_, sw⟩
    rcases hv : S.GetSecret v.ext (getOidcSecretName S v) (GetPxBackupNamespace S v)
      with ⟨rv, sv⟩
    rw [hw, hv] at hs
    simp only at hs
    subst hs
    rcases rw_ with e | secret
    · simp
    · simp only [ne_eq, not_true_eq_false, false_and, if_false, List.length_nil,
        gt_iff_lt, Nat.lt_irrefl, and_false]
      split
      · split <;> (try split) <;> rfl
      · rfl
  · simp only [getKeycloakEndPoint, hspace, k8sGetSecret]
    rcases hw : S.GetSecret w.ext (getOidcSecretName S w) (GetPxBackupNamespace S w)
      with ⟨(e | secret), sw⟩
    · simp
    · simp only [ne_eq, not_true_eq_false, false_and, if_false]
      split
      · split <;> (try split) <;> rfl
      · rfl

theorem getKeycloakEndPoint_single_space_witness :
    (getKeycloakEndPoint (labSys noJSON) false (labWorld spaceOverrideLab)).1
      = .ret "http://pxcentral-keycloak-http.px-backup.svc.cluster.local:80/auth/realms/master".toList
          none ∧
    (getKeycloakEndPoint (labSys noJSON) false (labWorld twoSpacesLab)).1
      = .ret "  /auth/realms/master".toList none ∧
    (getKeycloakEndPoint (labSys noJSON) false (labWorld spaceOverrideLab)).1
      = (getKeycloakEndPoint (labSys noJSON) false (labWorld shippedLab)).1 :=
  ⟨by decide, by decide,
    (getKeycloakEndPoint_single_space (labSys noJSON) (labWorld spaceOverrideLab)
      (labWorld shippedLab) false (by decide) (by decide)
      (by
        intro k hk
        have hb : (k == PxCentralUIURL) = false := by simpa using hk
        simp [labSys, labWorld, spaceOverrideLab, List.lookup, hb])
      (by
        intro name ns
        simp only [labSys, labWorld, spaceOverrideLab]
        cases List.find? (fun t => t.Name == name && t.Namespace == ns) shippedLab.secrets <;>
          rfl)).1⟩

/-! ## Outcome of a polling attempt -/

theorem scanUserDetails_none (users : List KeycloakUserRepresentation) (userID : GoString)
    (c : Captured) (h : firstWithID users userID = none) :
    scanUserDetails users userID c = c := by
  induction users with
  | nil => rfl
  | cons x rest ih =>
    by_cases hx : x.ID = userID
    · simp [firstWithID, List.find?, hx] at h
    · have h2 : firstWithID rest userID = none := by
        simpa [firstWithID, List.find?, hx] using h
      simp only [scanUserDetails, hx, if_false]
      exact ih h2

/-- C22 (counterexample): on the first attempt, a listing that holds the
user with an empty e-mail and a listing that does not hold the user give the
same attempt result: no output, retry, and the same error. -/
theorem fetchUserDetailsAttempt_found_empty_vs_missing :
    (fetchUserDetailsAttempt idpSys attemptCodec labHeaders "u-7".toList
      ({ userName := [], email := [] }, foundEmptyWorld)).1
      = .done () true (some ⟨"got emptry user/email, retrying again".toList⟩) ∧
    (fetchUserDetailsAttempt idpSys attemptCodec labHeaders "u-7".toList
      ({ userName := [], email := [] }, notFoundWorld)).1
      = .done () true (some ⟨"got emptry user/email, retrying again".toList⟩) := by
  constructor <;> rfl

/-- C22 (amended): within one polling attempt, started as every attempt is
with the username or the e-mail still empty, a listing in which the user is
found with an empty username or e-mail and a listing without that user give
the same attempt result (retry) and the same error; they differ only in the
captured variables, which take the found user's values in the first case and
stay as they were in the second. -/
theorem fetchUserDetailsAttempt_same_outcome (S : Sys σ) (J : Codec) (headers : Header)
    (userID : GoString) (cap : Captured) (a c a' c' : World σ)
    (users users' : List KeycloakUserRepresentation) (u : KeycloakUserRepresentation)
    (hcap : cap.incomplete)
    (hp : pollsListing S J headers a users c)
    (hf : firstWithID users userID = some u) (hu : u.Name = [] ∨ u.Email = [])
    (hp' : pollsListing S J headers a' users' c')
    (hnf : firstWithID users' userID = none) :
    fetchUserDetailsAttempt S J headers userID (cap, a)
      = (.done () true (some emptyDetails), ({ userName := u.Name, email := u.Email }, c)) ∧
    fetchUserDetailsAttempt S J headers userID (cap, a')
      = (.done () true (some emptyDetails), (cap, c')) := by
  constructor
  · rw [fetchUserDetailsAttempt_eq S J headers userID cap a c users hp,
      scanUserDetails_first users userID u cap hf]
    simp only [hu, if_true]
    rfl
  · rw [fetchUserDetailsAttempt_eq S J headers userID cap a' c' users' hp',
      scanUserDetails_none users' userID cap hnf]
    have hc : cap.userName = [] ∨ cap.email = [] := hcap
    simp only [hc, if_true]
    rfl

theorem fetchUserDetailsAttempt_same_outcome_witness :
    fetchUserDetailsAttempt idpSys attemptCodec labHeaders "u-7".toList
        ({ userName := [], email := [] }, foundEmptyWorld)
      = (.done () true (some emptyDetails),
          ({ userName := "carol".toList, email := [] },
           (fetchUserDetailsAttempt idpSys attemptCodec labHeaders "u-7".toList
              ({ userName := [], email := [] }, foundEmptyWorld)).2.2)) ∧
    fetchUserDetailsAttempt idpSys attemptCodec labHeaders "u-7".toList
        ({ userName := [], email := [] }, notFoundWorld)
      = (.done () true (some emptyDetails),
          ({ userName := [], email := [] },
           (fetchUserDetailsAttempt idpSys attemptCodec labHeaders "u-7".toList
              ({ userName := [], email := [] }, notFoundWorld)).2.2)) :=
  fetchUserDetailsAttempt_same_outcome idpSys attemptCodec labHeaders "u-7".toList
    { userName := [], email := [] } foundEmptyWorld _ notFoundWorld _
    incompleteListing [labUser "u-1" "alice" "alice@example.com"] (labUser "u-7" "carol" "")
    (Or.inl rfl)
    ⟨labAdminEndpoint, foundEmptyWorld, pollBody 1, by rfl, by rfl, by rfl⟩
    (by rfl) (Or.inr rfl)
    ⟨labAdminEndpoint, notFoundWorld, pollBody 0, by rfl, by rfl, by rfl⟩
    (by rfl)

/-! ## What a successful poll returns -/

theorem fetchUserDetailsAttempt_done_nil (S : Sys σ) (J : Codec) (headers : Header)
    (userID : GoString) (cap cap' : Captured) (a c : World σ) (out : Unit) (r : Bool)
    (h : fetchUserDetailsAttempt S J headers userID (cap, a) = (.done out r none, (cap', c))) :
    ∃ users, pollsListing S J headers a users c ∧ cap' = scanUserDetails users userID cap ∧
      cap'.userName ≠ [] ∧ cap'.email ≠ [] := by
  unfold fetchUserDetailsAttempt at h
  simp only at h
  rcases hep : getKeycloakEndPoint S true a with ⟨(⟨ep, (_ | e1)⟩ | m1), b⟩
  · rw [hep] at h
    simp only at h
    rcases hget : processHTTPRequest S "GET".toList (ep ++ "/users".toList) headers none b
      with ⟨(⟨response, (_ | e2)⟩ | m2), c0⟩
    · rw [hget] at h
      simp only at h
      rcases hdec : J.UnmarshalUsers response with ⟨users, (_ | e3)⟩
      · rw [hdec] at h
        simp only at h
        by_cases hc : (scanUserDetails users userID cap).userName = [] ∨
            (scanUserDetails users userID cap).email = []
        · simp [hc] at h
        · simp only [hc, if_false, Prod.mk.injEq] at h
          obtain ⟨-, hcap, hw⟩ := h
          subst hw
          refine ⟨users, ⟨ep, b, response, hep, hget, hdec⟩, hcap.symm, ?_, ?_⟩
          · rw [← hcap]; exact fun hn => hc (Or.inl hn)
          · rw [← hcap]; exact fun hn => hc (Or.inr hn)
      · rw [hdec] at h; simp at h
    · rw [hget] at h; simp at h
    · rw [hget] at h; simp at h
  · rw [hep] at h; simp at h
  · rw [hep] at h; simp at h

theorem fetchUserDetailsAttempt_error_incomplete (S : Sys σ) (J : Codec) (headers : Header)
    (userID : GoString) (cap cap' : Captured) (a c : World σ) (out : Unit) (r : Bool)
    (e : GoError) (hcap : cap.incomplete)
    (h : fetchUserDetailsAttempt S J headers userID (cap, a)
      = (.done out r (some e), (cap', c))) : cap'.incomplete := by
  unfold fetchUserDetailsAttempt at h
  simp only at h
  rcases hep : getKeycloakEndPoint S true a with ⟨(⟨ep, (_ | e1)⟩ | m1), b⟩
  · rw [hep] at h
    simp only at h
    rcases hget : processHTTPRequest S "GET".toList (ep ++ "/users".toList) headers none b
      with ⟨(⟨response, (_ | e2)⟩ | m2), c0⟩
    · rw [hget] at h
      simp only at h
      rcases hdec : J.UnmarshalUsers response with ⟨users, (_ | e3)⟩
      · rw [hdec] at h
        simp only at h
        by_cases hc : (scanUserDetails users userID cap).userName = [] ∨
            (scanUserDetails users userID cap).email = []
        · simp only [hc, if_true, Prod.mk.injEq] at h
          obtain ⟨-, hcap', -⟩ := h
          rw [← hcap']
          exact hc
        · simp [hc] at h
      · rw [hdec] at h
        simp only [Prod.mk.injEq] at h
        rw [← h.2.1]; exact hcap
    · rw [hget] at h
      simp only [Prod.mk.injEq] at h
      rw [← h.2.1]; exact hcap
    · rw [hget] at h; simp at h
  · rw [hep] at h
    simp only [Prod.mk.injEq] at h
    rw [← h.2.1]; exact hcap
  · rw [hep] at h; simp at h

theorem scanUserDetails_complete (users : List KeycloakUserRepresentation) (userID : GoString)
    (cap : Captured) (hcap : cap.incomplete)
    (hn : (scanUserDetails users userID cap).userName ≠ [])
    (he : (scanUserDetails users userID cap).email ≠ []) :
    ∃ u, firstWithID users userID = some u ∧
      scanUserDetails users userID cap = { userName := u.Name, email := u.Email } := by
  rcases hf : firstWithID users userID with _ | u
  · rw [scanUserDetails_none users userID cap hf] at hn he
    rcases hcap with h | h
    · exact absurd h hn
    · exact absurd h he
  · exact ⟨u, rfl, scanUserDetails_first users userID u cap hf⟩

theorem retryLoop_success (S : Sys σ) (J : Codec) (C : Timer σ) (headers : Header)
    (userID : GoString) (deadline : Nat) (fuel : Nat) :
    ∀ (errs : List GoString) (cap cap' : Captured) (a c : World σ) (v : Option Unit),
      cap.incomplete →
      retryLoop (worldTimer C) (fetchUserDetailsAttempt S J headers userID)
        defaultWaitTimeout defaultWaitInterval deadline fuel errs (cap, a)
        = some (.ret v none, (cap', c)) →
      ∃ a0 users u, pollsListing S J headers a0 users c ∧
        firstWithID users userID = some u ∧
        cap' = { userName := u.Name, email := u.Email } ∧ u.Name ≠ [] ∧ u.Email ≠ [] := by
  induction fuel with
  | zero => intro errs cap cap' a c v _ h; simp [retryLoop] at h
  | succ n ih =>
    intro errs cap cap' a c v hcap h
    simp only [retryLoop] at h
    by_cases hd : deadline ≤ (worldTimer C).Now (cap, a)
    · simp [hd] at h
    · simp only [hd, if_false] at h
      rcases hat : fetchUserDetailsAttempt S J headers userID (cap, a)
        with ⟨(⟨out, r, (_ | e)⟩ | m), ⟨cap1, c1⟩⟩
      · rw [hat] at h
        simp only [Option.some.injEq, Prod.mk.injEq] at h
        obtain ⟨-, hc1, hw1⟩ := h
        subst hc1 hw1
        obtain ⟨users, hp, hscan, hn, he⟩ :=
          fetchUserDetailsAttempt_done_nil S J headers userID cap cap1 a c1 out r hat
        rw [hscan] at hn he
        obtain ⟨u, hf, hsc⟩ := scanUserDetails_complete users userID cap hcap hn he
        rw [hsc] at hn he hscan
        exact ⟨a, users, u, hp, hf, hscan, hn, he⟩
      · rw [hat] at h
        have hinc := fetchUserDetailsAttempt_error_incomplete S J headers userID cap cap1 a c1
          out r e hcap hat
        cases r with
        | false => simp at h
        | true =>
          simp only at h
          exact ih _ cap1 cap' _ c v hinc h
      · rw [hat] at h; simp at h

/-- C25: whenever `FetchUserDetailsFromID` returns a nil error, the username
and the e-mail it returns are both non-empty and are those of the first user
with id `userID` in the listing of the poll that ended the retry (the poll
whose final state is the state returned); values captured by earlier polls are
not returned on their own nor mixed in. -/
theorem FetchUserDetailsFromID_success (S : Sys σ) (J : Codec) (C : Timer σ) (fuel : Nat)
    (userID userName email : GoString) (w w' : World σ)
    (h : FetchUserDetailsFromID S J C fuel userID w = some (.ret (userName, email) none, w')) :
    userName ≠ [] ∧ email ≠ [] ∧
    ∃ headers w0 a users u,
      GetCommonHTTPHeaders S PxCentralAdminUser w.PxCentralAdminPwd w
        = (.ret headers none, w0) ∧
      pollsListing S J headers a users w' ∧ firstWithID users userID = some u ∧
      userName = u.Name ∧ email = u.Email := by
  unfold FetchUserDetailsFromID at h
  rcases hh : GetCommonHTTPHeaders S PxCentralAdminUser w.PxCentralAdminPwd w
    with ⟨(⟨headers, (_ | e1)⟩ | m1), w0⟩
  · rw [hh] at h
    simp only at h
    rcases hloop : DoRetryWithTimeout (worldTimer C)
        (fetchUserDetailsAttempt S J headers userID) defaultWaitTimeout defaultWaitInterval
        fuel (({ userName := [], email := [] } : Captured), w0)
      with _ | ⟨(⟨v, (_ | e2)⟩ | m2), ⟨cap', c⟩⟩
    · rw [hloop] at h; simp at h
    · rw [hloop] at h
      simp only [Option.some.injEq, Prod.mk.injEq, Result.ret.injEq, and_true] at h
      obtain ⟨⟨hn, he⟩, hw⟩ := h
      subst hw
      obtain ⟨a0, users, u, hp, hf, hcap, hun, hue⟩ :=
        retryLoop_success S J C headers userID _ fuel [] _ cap' w0 c v (Or.inl rfl) hloop
      rw [hcap] at hn he
      simp only at hn he
      refine ⟨?_, ?_, headers, w0, a0, users, u, rfl, hp, hf, hn.symm, he.symm⟩
      · rw [← hn]; exact hun
      · rw [← he]; exact hue
    · rw [hloop] at h; simp at h
    · rw [hloop] at h; simp at h
  · rw [hh] at h; simp at h
  · rw [hh] at h; simp at h

set_option maxRecDepth 8000 in
theorem FetchUserDetailsFromID_success_witness :
    "carol".toList ≠ [] ∧ "carol@example.com".toList ≠ [] ∧
    ∃ headers w0 a users u,
      GetCommonHTTPHeaders idpSys PxCentralAdminUser pollWorld.PxCentralAdminPwd pollWorld
        = (.ret headers none, w0) ∧
      pollsListing idpSys pollCodec headers a users pollWorld3 ∧
      firstWithID users "u-7".toList = some u ∧
      "carol".toList = u.Name ∧ "carol@example.com".toList = u.Email :=
  FetchUserDetailsFromID_success idpSys pollCodec idpTimer 7 "u-7".toList "carol".toList
    "carol@example.com".toList pollWorld pollWorld3 (by rfl)

/-! ## A user that never becomes complete -/

theorem fetchUserDetailsAttempt_incomplete (S : Sys σ) (J : Codec) (C : Timer σ)
    (headers : Header) (userID : GoString)
    (hpoll : ∀ a, ∃ users c u, pollsListing S J headers a users c ∧
      firstWithID users userID = some u ∧ (u.Name = [] ∨ u.Email = []) ∧
      C.Now a.ext ≤ C.Now c.ext)
    (s : Captured × World σ) :
    ∃ s1, fetchUserDetailsAttempt S J headers userID s
        = (.done () true (some emptyDetails), s1) ∧
      C.Now s.2.ext ≤ C.Now s1.2.ext := by
  obtain ⟨cap, a⟩ := s
  obtain ⟨users, c, u, hp, hf, hu, hmono⟩ := hpoll a
  have hat := fetchUserDetailsAttempt_eq S J headers userID cap a c users hp
  rw [scanUserDetails_first users userID u cap hf] at hat
  simp only [hu, if_true] at hat
  exact ⟨_, hat, hmono⟩

theorem pollRounds_clock (S : Sys σ) (J : Codec) (C : Timer σ) (headers : Header)
    (userID : GoString)
    (hpoll : ∀ a, ∃ users c u, pollsListing S J headers a users c ∧
      firstWithID users userID = some u ∧ (u.Name = [] ∨ u.Email = []) ∧
      C.Now a.ext ≤ C.Now c.ext)
    (hsleep : ∀ e d, C.Now e + d ≤ C.Now (C.Sleep e d)) (k : Nat) :
    ∀ s : Captured × World σ, C.Now s.2.ext + defaultWaitInterval * k
      ≤ C.Now (pollRounds S J C headers userID k s).2.ext := by
  induction k with
  | zero => intro s; simp [pollRounds]
  | succ k ih =>
    intro s
    obtain ⟨s1, hat, hmono⟩ := fetchUserDetailsAttempt_incomplete S J C headers userID hpoll s
    have hs := hsleep s1.2.ext defaultWaitInterval
    have h := ih ((worldTimer C).Sleep s1 defaultWaitInterval)
    simp only [pollRounds, hat]
    simp only [worldTimer] at h ⊢
    have : defaultWaitInterval * (k + 1) = defaultWaitInterval + defaultWaitInterval * k := by
      rw [Nat.mul_succ, Nat.add_comm]
    omega

theorem retryLoop_rounds (S : Sys σ) (J : Codec) (C : Timer σ) (headers : Header)
    (userID : GoString) (deadline : Nat)
    (hpoll : ∀ a, ∃ users c u, pollsListing S J headers a users c ∧
      firstWithID users userID = some u ∧ (u.Name = [] ∨ u.Email = []) ∧
      C.Now a.ext ≤ C.Now c.ext)
    (k : Nat) :
    ∀ (fuel : Nat) (errs : List GoString) (s : Captured × World σ),
      (∀ j, j < k → C.Now (pollRounds S J C headers userID j s).2.ext < deadline) →
      deadline ≤ C.Now (pollRounds S J C headers userID k s).2.ext →
      k < fuel →
      retryLoop (worldTimer C) (fetchUserDetailsAttempt S J headers userID)
        defaultWaitTimeout defaultWaitInterval deadline fuel errs s
        = some (.ret none (some (C.ErrTimedOut defaultWaitTimeout
            (errs ++ List.replicate k emptyDetails.msg))), pollRounds S J C headers userID k s) := by
  induction k with
  | zero =>
    intro fuel errs s _ hd hk
    obtain ⟨n, rfl⟩ : ∃ n, fuel = n + 1 := ⟨fuel - 1, by omega⟩
    have hd2 : deadline ≤ (worldTimer C).Now s := hd
    simp only [retryLoop, hd2, if_true, pollRounds, List.replicate, List.append_nil]
    rfl
  | succ k ih =>
    intro fuel errs s hlt hd hk
    obtain ⟨n, rfl⟩ : ∃ n, fuel = n + 1 := ⟨fuel - 1, by omega⟩
    obtain ⟨s1, hat, -⟩ := fetchUserDetailsAttempt_incomplete S J C headers userID hpoll s
    have h0 : (worldTimer C).Now s < deadline := hlt 0 (by omega)
    rw [retryLoop_retry (worldTimer C) (fetchUserDetailsAttempt S J headers userID)
      defaultWaitTimeout defaultWaitInterval deadline n errs s s1 () emptyDetails h0 hat]
    have hstep : ∀ j, pollRounds S J C headers userID (j + 1) s
        = pollRounds S J C headers userID j ((worldTimer C).Sleep s1 defaultWaitInterval) := by
      intro j
      simp only [pollRounds, hat]
    rw [ih n (errs ++ [emptyDetails.msg]) ((worldTimer C).Sleep s1 defaultWaitInterval)
      (fun j hj => by rw [← hstep j]; exact hlt (j + 1) (by omega))
      (by rw [← hstep k]; exact hd) (by omega)]
    rw [hstep k, List.append_assoc]
    rfl

/-- C21: when on every poll the listing holds the user with an empty username
or an empty e-mail (polls not moving the clock backwards, a sleep lasting at
least its duration, the deadline error showing the last cause it is given),
`FetchUserDetailsFromID` never returns a pair.  It polls and sleeps `n` times,
`1 ≤ n ≤ 6`, each poll starting before the deadline of 30 seconds; when the
deadline is reached it returns (for every bound of more than `n` attempts, so
for every bound of at least seven) the empty username and e-mail with the
error `failed to fetch user name/email: [..]` around the deadline error of the
`n` causes observed, which shows the last cause `got emptry user/email,
retrying again`; the state returned is the one after the `n` rounds, its clock
at or past the deadline. -/
theorem FetchUserDetailsFromID_never_complete (S : Sys σ) (J : Codec) (C : Timer σ)
    (userID : GoString) (w w0 : World σ) (headers : Header)
    (hh : GetCommonHTTPHeaders S PxCentralAdminUser w.PxCentralAdminPwd w
      = (.ret headers none, w0))
    (hpoll : ∀ a, ∃ users c u, pollsListing S J headers a users c ∧
      firstWithID users userID = some u ∧ (u.Name = [] ∨ u.Email = []) ∧
      C.Now a.ext ≤ C.Now c.ext)
    (hsleep : ∀ e d, C.Now e + d ≤ C.Now (C.Sleep e d))
    (hwrap : ∀ t errs cause, errs.getLast? = some cause →
      ∃ pre post, (C.ErrTimedOut t errs).msg = pre ++ cause ++ post) :
    ∃ n, 1 ≤ n ∧ n ≤ 6 ∧
      (∀ k, k < n → C.Now (pollRounds S J C headers userID k
          ({ userName := [], email := [] }, w0)).2.ext < C.Now w0.ext + defaultWaitTimeout) ∧
      C.Now w0.ext + defaultWaitTimeout ≤ C.Now (pollRounds S J C headers userID n
          ({ userName := [], email := [] }, w0)).2.ext ∧
      (∀ fuel, n < fuel → FetchUserDetailsFromID S J C fuel userID w
        = some (.ret ([], []) (some ⟨"failed to fetch user name/email: [".toList
            ++ (C.ErrTimedOut defaultWaitTimeout
                (List.replicate n "got emptry user/email, retrying again".toList)).msg
            ++ "]".toList⟩),
          (pollRounds S J C headers userID n ({ userName := [], email := [] }, w0)).2)) ∧
      ∃ pre post, (C.ErrTimedOut defaultWaitTimeout
          (List.replicate n "got emptry user/email, retrying again".toList)).msg
        = pre ++ "got emptry user/email, retrying again".toList ++ post := by
  have h6 := pollRounds_clock S J C headers userID hpoll hsleep 6
    ({ userName := [], email := [] }, w0)
  have hex : ∃ k, C.Now w0.ext + defaultWaitTimeout ≤ C.Now (pollRounds S J C headers userID k
      ({ userName := [], email := [] }, w0)).2.ext :=
    ⟨6, by simp only [defaultWaitTimeout, defaultWaitInterval] at h6 ⊢; omega⟩
  have hn1 : 1 ≤ Nat.find hex := by
    rcases Nat.eq_zero_or_pos (Nat.find hex) with h0 | hpos
    · have hspec := Nat.find_spec hex
      rw [h0] at hspec
      simp [pollRounds, defaultWaitTimeout] at hspec
    · exact hpos
  have hn6 : Nat.find hex ≤ 6 :=
    Nat.find_min' hex (by simp only [defaultWaitTimeout, defaultWaitInterval] at h6 ⊢; omega)
  have hbefore : ∀ k, k < Nat.find hex → C.Now (pollRounds S J C headers userID k
      ({ userName := [], email := [] }, w0)).2.ext < C.Now w0.ext + defaultWaitTimeout :=
    fun k hk => Nat.not_le.mp (Nat.find_min hex hk)
  refine ⟨Nat.find hex, hn1, hn6, hbefore, Nat.find_spec hex, ?_, ?_⟩
  · intro fuel hfuel
    have hloop := retryLoop_rounds S J C headers userID (C.Now w0.ext + defaultWaitTimeout)
      hpoll (Nat.find hex) fuel [] ({ userName := [], email := [] }, w0) hbefore
      (Nat.find_spec hex) hfuel
    have hdo : DoRetryWithTimeout (worldTimer C) (fetchUserDetailsAttempt S J headers userID)
        defaultWaitTimeout defaultWaitInterval fuel
        (({ userName := [], email := [] } : Captured), w0)
        = some (.ret none (some (C.ErrTimedOut defaultWaitTimeout
            ([] ++ List.replicate (Nat.find hex) emptyDetails.msg))),
          pollRounds S J C headers userID (Nat.find hex)
            ({ userName := [], email := [] }, w0)) := hloop
    simp only [FetchUserDetailsFromID, hh, hdo, List.nil_append]
    rfl
  · apply hwrap
    obtain ⟨m, hm⟩ : ∃ m, Nat.find hex = m + 1 := ⟨Nat.find hex - 1, by omega⟩
    rw [hm, List.replicate_succ']
    simp

theorem tickingSys_polls (a : World Nat) :
    ∃ users c u, pollsListing tickingSys pollCodec labHeaders a users c ∧
      firstWithID users "u-7".toList = some u ∧ (u.Name = [] ∨ u.Email = []) ∧
      tickingTimer.Now a.ext ≤ tickingTimer.Now c.ext := by
  have hep : getKeycloakEndPoint tickingSys true a = (.ret labAdminEndpoint none, a) := by
    have hg : tickingSys.Getenv a.ext PxCentralUIURL = "http://host:1234".toList := rfl
    have h := getKeycloakEndPoint_override_eq tickingSys a true (by rw [hg]; decide)
      (by rw [hg]; decide)
    rw [h]
    rfl
  refine ⟨incompleteListing,
    (processHTTPRequest tickingSys "GET".toList (labAdminEndpoint ++ "/users".toList)
      labHeaders none a).2, labUser "u-7" "carol" "", ⟨labAdminEndpoint, a, pollBody 1, hep, rfl, rfl⟩,
    rfl, Or.inr rfl, Nat.le_refl _⟩

set_option maxRecDepth 20000 in
theorem FetchUserDetailsFromID_never_complete_witness :
    (∃ n, 1 ≤ n ∧ n ≤ 6 ∧
      (∀ k, k < n → tickingTimer.Now (pollRounds tickingSys pollCodec tickingTimer labHeaders
          "u-7".toList k ({ userName := [], email := [] }, tickingWorld0)).2.ext
        < tickingTimer.Now tickingWorld0.ext + defaultWaitTimeout) ∧
      tickingTimer.Now tickingWorld0.ext + defaultWaitTimeout
        ≤ tickingTimer.Now (pollRounds tickingSys pollCodec tickingTimer labHeaders
          "u-7".toList n ({ userName := [], email := [] }, tickingWorld0)).2.ext ∧
      (∀ fuel, n < fuel → FetchUserDetailsFromID tickingSys pollCodec tickingTimer fuel
          "u-7".toList tickingWorld
        = some (.ret ([], []) (some ⟨"failed to fetch user name/email: [".toList
            ++ (tickingTimer.ErrTimedOut defaultWaitTimeout
                (List.replicate n "got emptry user/email, retrying again".toList)).msg
            ++ "]".toList⟩),
          (pollRounds tickingSys pollCodec tickingTimer labHeaders "u-7".toList n
            ({ userName := [], email := [] }, tickingWorld0)).2)) ∧
      ∃ pre post, (tickingTimer.ErrTimedOut defaultWaitTimeout
          (List.replicate n "got emptry user/email, retrying again".toList)).msg
        = pre ++ "got emptry user/email, retrying again".toList ++ post) ∧
    (FetchUserDetailsFromID tickingSys pollCodec tickingTimer 7 "u-7".toList tickingWorld).map
        (fun r => (r.1, r.2.ext, (httpRequests r.2.trace).length))
      = some (.ret ([], []) (some ⟨("failed to fetch user name/email: [timed out performing " ++
          "task: got emptry user/email, retrying again]").toList⟩), 30000, 7) :=
  ⟨FetchUserDetailsFromID_never_complete tickingSys pollCodec tickingTimer "u-7".toList
    tickingWorld tickingWorld0 labHeaders (by rfl) tickingSys_polls
    (fun _ _ => Nat.le_refl _)
    (fun _ errs cause h => ⟨"timed out performing task: ".toList, [], by
      simp only [tickingTimer, h, Option.getD_some, List.append_nil]⟩),
   by rfl⟩

/-! ## Role binding round trip -/

theorem realmSys_endpoint (J : Codec) (w : World Realm) :
    getKeycloakEndPoint (realmSys J) true w = (.ret labAdminEndpoint none, w) ∧
    getKeycloakEndPoint (realmSys J) false w
      = (.ret "http://host:1234/auth/realms/master".toList none, w) := by
  have hg : (realmSys J).Getenv w.ext PxCentralUIURL = "http://host:1234".toList := rfl
  have h1 := getKeycloakEndPoint_override_eq (realmSys J) w true (by rw [hg]; decide)
    (by rw [hg]; decide)
  have h2 := getKeycloakEndPoint_override_eq (realmSys J) w false (by rw [hg]; decide)
    (by rw [hg]; decide)
  rw [hg] at h1 h2
  exact ⟨h1, h2⟩

theorem World.after_after (w : World σ) (e1 e2 : σ) (t1 t2 : List Event) :
    (w.after e1 t1).after e2 t2 = w.after e2 (t1 ++ t2) := by
  simp [World.after]

theorem realmSys_headers_of (J : Codec) (password : GoString) (w : World Realm) :
    GetCommonHTTPHeaders (realmSys J) PxCentralAdminUser password w
      = (.ret labHeaders none, w.after w.ext [sentToken password]) := by
  have hT := GetToken_eq (realmSys J) w w PxCentralAdminUser password
    "http://host:1234/auth/realms/master".toList "eyJhbGciOi".toList
    { StatusCode := 200, Body := goodTokenBody, ReadErr := none } w.ext
    (realmSys_endpoint J w).2 rfl rfl rfl (by rfl)
  exact GetCommonHTTPHeaders_eq (realmSys J) w _ PxCentralAdminUser password
    "eyJhbGciOi".toList hT

theorem realmSys_headers (J : Codec) (w : World Realm) :
    GetCommonHTTPHeaders (realmSys J) PxCentralAdminUser w.PxCentralAdminPwd w
      = (.ret labHeaders none, w.after w.ext [sentToken w.PxCentralAdminPwd]) :=
  realmSys_headers_of J w.PxCentralAdminPwd w

theorem realmSys_get_users (J : Codec) (headers : Header) (w : World Realm) :
    processHTTPRequest (realmSys J) "GET".toList (labAdminEndpoint ++ "/users".toList)
        headers none w
      = (.ret (J.Marshal (usersJSON w.ext.users)).1 none,
         w.after w.ext
           [sent "GET".toList (labAdminEndpoint ++ "/users".toList) headers none]) := by
  rfl

theorem realmSys_get_roles (J : Codec) (headers : Header) (w : World Realm) :
    processHTTPRequest (realmSys J) "GET".toList (labAdminEndpoint ++ "/roles".toList)
        headers none w
      = (.ret (J.Marshal (rolesJSON w.ext.roles)).1 none,
         w.after w.ext
           [sent "GET".toList (labAdminEndpoint ++ "/roles".toList) headers none]) := by
  rfl

theorem realmSys_FetchIDOfUser (J : Codec) (userName : GoString) (w : World Realm)
    (hU : J.UnmarshalUsers (J.Marshal (usersJSON w.ext.users)).1 = (w.ext.users, none)) :
    FetchIDOfUser (realmSys J) J userName w
      = (.ret (scanUserID w.ext.users userName) none,
         w.after w.ext [sentToken w.PxCentralAdminPwd,
           sent "GET".toList (labAdminEndpoint ++ "/users".toList) labHeaders none]) := by
  have h := FetchIDOfUser_eq (realmSys J) J w _ _ _ labHeaders labAdminEndpoint _ userName
    w.ext.users (realmSys_headers J w) (realmSys_endpoint J _).1
    (realmSys_get_users J labHeaders _) hU
  rw [h, World.after_after]
  rfl

theorem realmSys_GetRoleID (J : Codec) (role : GoString) (w : World Realm)
    (hR : J.UnmarshalRoles (J.Marshal (rolesJSON w.ext.roles)).1 = (w.ext.roles, none)) :
    GetRoleID (realmSys J) J role w
      = (.ret (scanRoleID w.ext.roles role) none,
         w.after w.ext [sentToken w.PxCentralAdminPwd,
           sent "GET".toList (labAdminEndpoint ++ "/roles".toList) labHeaders none]) := by
  have hA : GetAllRoles (realmSys J) J w = (.ret w.ext.roles none,
      (w.after w.ext [sentToken w.PxCentralAdminPwd]).after w.ext
        [sent "GET".toList (labAdminEndpoint ++ "/roles".toList) labHeaders none]) := by
    simp only [GetAllRoles, realmSys_headers J w, (realmSys_endpoint J _).1,
      realmSys_get_roles J labHeaders _]
    rw [show (w.after w.ext [sentToken w.PxCentralAdminPwd]).ext = w.ext from rfl, hR]
  rw [GetRoleID_eq (realmSys J) J w _ role w.ext.roles hA, World.after_after]
  rfl

theorem find_userID (users : List KeycloakUserRepresentation) (userID : GoString)
    (q : KeycloakUserRepresentation → Bool) (hq : ∀ u, q u = true ↔ u.ID = userID)
    (h : ∃ u ∈ users, u.ID = userID) :
    ∃ u, users.find? q = some u ∧ u.ID = userID := by
  rcases hf : users.find? q with _ | u
  · obtain ⟨u, hu, hid⟩ := h
    have := List.find?_eq_none.mp hf u hu
    exact absurd ((hq u).mpr hid) this
  · exact ⟨u, rfl, (hq u).mp (List.find?_some hf)⟩

theorem roleMappings_ne_composite (a b : GoString) :
    roleMappings a ≠ labAdminEndpoint ++ "/users/".toList ++ b
      ++ "/role-mappings/realm/composite".toList := by
  intro h
  have h2 := congrArg List.reverse h
  simp [roleMappings] at h2

theorem realmAnswer_bind (J : Codec) (s : Realm) (userID : GoString) (headers : Header)
    (body : Option GoString) (h : ∃ u ∈ s.users, u.ID = userID) :
    realmAnswer J s
        { Method := "POST".toList, URL := roleMappings userID, Header := headers, Body := body }
      = (noContent, s.bind userID (namedRoles J body)) := by
  have c1 : roleMappings userID
      ≠ "http://host:1234/auth/realms/master/protocol/openid-connect/token".toList := by
    intro h
    simp [roleMappings, labAdminEndpoint] at h
  have c2 : "POST".toList ≠ "GET".toList := by decide
  have h4 : s.users.find? (fun u => decide (roleMappings userID = labAdminEndpoint
      ++ "/users/".toList ++ u.ID ++ "/role-mappings/realm/composite".toList)) = none :=
    List.find?_eq_none.mpr (fun u _ => by simpa using roleMappings_ne_composite userID u.ID)
  obtain ⟨u, h5, hu⟩ := find_userID s.users userID
    (fun u => decide (roleMappings userID = labAdminEndpoint ++ "/users/".toList ++ u.ID
      ++ "/role-mappings/realm".toList))
    (fun u => by simp only [decide_eq_true_eq, roleMappings]; constructor
                 · intro e; exact (List.append_cancel_left (List.append_cancel_right e)).symm
                 · intro e; rw [e]) h
  simp only [realmAnswer, c1, c2, and_false, false_and, if_false, h4, h5, if_true, hu]

theorem realmAnswer_unbind (J : Codec) (s : Realm) (userID : GoString) (headers : Header)
    (body : Option GoString) (h : ∃ u ∈ s.users, u.ID = userID) :
    realmAnswer J s
        { Method := "DELETE".toList, URL := roleMappings userID, Header := headers, Body := body }
      = (noContent, s.unbind userID (namedRoles J body)) := by
  have c1 : "DELETE".toList ≠ "POST".toList := by decide
  have c2 : "DELETE".toList ≠ "GET".toList := by decide
  have h4 : s.users.find? (fun u => decide (roleMappings userID = labAdminEndpoint
      ++ "/users/".toList ++ u.ID ++ "/role-mappings/realm/composite".toList)) = none :=
    List.find?_eq_none.mpr (fun u _ => by simpa using roleMappings_ne_composite userID u.ID)
  obtain ⟨u, h5, hu⟩ := find_userID s.users userID
    (fun u => decide (roleMappings userID = labAdminEndpoint ++ "/users/".toList ++ u.ID
      ++ "/role-mappings/realm".toList))
    (fun u => by simp only [decide_eq_true_eq, roleMappings]; constructor
                 · intro e; exact (List.append_cancel_left (List.append_cancel_right e)).symm
                 · intro e; rw [e]) h
  simp only [realmAnswer, c1, c2, and_false, false_and, if_false, h4, h5, if_true, hu]

theorem realmAnswer_composite (J : Codec) (s : Realm) (userID : GoString) (headers : Header)
    (body : Option GoString) (h : ∃ u ∈ s.users, u.ID = userID) :
    realmAnswer J s
        { Method := "GET".toList, URL := labAdminEndpoint ++ "/users/".toList ++ userID
            ++ "/role-mappings/realm/composite".toList, Header := headers, Body := body }
      = (ok200 (J.Marshal (rolesJSON (s.rolesOf userID))).1, s) := by
  have c1 : "GET".toList ≠ "POST".toList := by decide
  have c2 : labAdminEndpoint ++ "/users/".toList ++ userID
      ++ "/role-mappings/realm/composite".toList ≠ labAdminEndpoint ++ "/users".toList := by
    intro h
    simp [labAdminEndpoint] at h
  have c3 : labAdminEndpoint ++ "/users/".toList ++ userID
      ++ "/role-mappings/realm/composite".toList ≠ labAdminEndpoint ++ "/roles".toList := by
    intro h
    simp [labAdminEndpoint] at h
  obtain ⟨u, h4, hu⟩ := find_userID s.users userID
    (fun u => decide (labAdminEndpoint ++ "/users/".toList ++ userID
      ++ "/role-mappings/realm/composite".toList = labAdminEndpoint ++ "/users/".toList ++ u.ID
      ++ "/role-mappings/realm/composite".toList))
    (fun u => by simp only [decide_eq_true_eq]; constructor
                 · intro e; exact (List.append_cancel_left (List.append_cancel_right e)).symm
                 · intro e; rw [e]) h
  simp only [realmAnswer, c1, c2, c3, and_false, false_and, if_false, h4, if_true, hu]

theorem realmSys_send (J : Codec) (method url : GoString) (headers : Header)
    (body : Option GoString) (w : World Realm) (r : HTTPResponse) (e : Realm)
    (h : realmAnswer J w.ext { Method := method, URL := url, Header := headers, Body := body }
      = (.ok r, e)) :
    processHTTPRequest (realmSys J) method url headers body w
      = (.ret r.Body r.ReadErr, w.after e [sent method url headers body]) := by
  have h2 : (realmSys J).Do w.ext { Method := method, URL := url, Header := headers, Body := body }
      = (.ok r, e) := h
  have h3 : (realmSys J).NewRequest method url = none := rfl
  simp only [processHTTPRequest, h3, clientDo, h2]
  rfl

theorem World.after_ext (w : World σ) (e : σ) (t : List Event) : (w.after e t).ext = e := rfl

theorem World.after_pwd (w : World σ) (e : σ) (t : List Event) :
    (w.after e t).PxCentralAdminPwd = w.PxCentralAdminPwd := rfl

set_option maxRecDepth 8000 in
theorem realmSys_AddRoleToUser (J : Codec) (userName role description roleBytes : GoString)
    (w : World Realm)
    (hm : J.Marshal (bindingJSON (scanRoleID w.ext.roles role) role description)
      = (roleBytes, none))
    (hU : J.UnmarshalUsers (J.Marshal (usersJSON w.ext.users)).1 = (w.ext.users, none))
    (hR : J.UnmarshalRoles (J.Marshal (rolesJSON w.ext.roles)).1 = (w.ext.roles, none))
    (hu : ∃ u ∈ w.ext.users, u.ID = scanUserID w.ext.users userName) :
    AddRoleToUser (realmSys J) J userName role description w
      = (.ret () none,
         w.after (w.ext.bind (scanUserID w.ext.users userName) (namedRoles J (some roleBytes)))
           [sentToken w.PxCentralAdminPwd,
            sent "GET".toList (labAdminEndpoint ++ "/users".toList) labHeaders none,
            sentToken w.PxCentralAdminPwd,
            sent "GET".toList (labAdminEndpoint ++ "/roles".toList) labHeaders none,
            sentToken w.PxCentralAdminPwd,
            sent "POST".toList (roleMappings (scanUserID w.ext.users userName)) labHeaders
              (some roleBytes)]) := by
  have h1 := realmSys_FetchIDOfUser J userName w hU
  have h2 := realmSys_GetRoleID J role (w.after w.ext [sentToken w.PxCentralAdminPwd,
    sent "GET".toList (labAdminEndpoint ++ "/users".toList) labHeaders none]) hR
  simp only [bindingJSON] at hm
  simp only [World.after_ext, World.after_pwd, World.after_after] at h2
  have h5 := realmSys_send J "POST".toList (roleMappings (scanUserID w.ext.users userName))
    labHeaders (some roleBytes)
    (w.after w.ext ([sentToken w.PxCentralAdminPwd,
      sent "GET".toList (labAdminEndpoint ++ "/users".toList) labHeaders none] ++
      [sentToken w.PxCentralAdminPwd,
       sent "GET".toList (labAdminEndpoint ++ "/roles".toList) labHeaders none] ++
      [sentToken w.PxCentralAdminPwd])) _ _
    (realmAnswer_bind J w.ext _ labHeaders _ hu)
  simp only [roleMappings, World.after_after, World.after_ext] at h5
  simp only [AddRoleToUser, h1, h2, rolesJSON, roleJSON, mapJSON, stringsJSON, List.map,
    List.nil_append, hm, (realmSys_endpoint J _).1, realmSys_headers_of, World.after_ext,
    World.after_pwd, World.after_after, h5]
  rfl

set_option maxRecDepth 8000 in
theorem realmSys_DeleteRoleFromUser (J : Codec)
    (userName role description roleBytes : GoString) (w : World Realm)
    (hm : J.Marshal (bindingJSON (scanRoleID w.ext.roles role) role description)
      = (roleBytes, none))
    (hU : J.UnmarshalUsers (J.Marshal (usersJSON w.ext.users)).1 = (w.ext.users, none))
    (hR : J.UnmarshalRoles (J.Marshal (rolesJSON w.ext.roles)).1 = (w.ext.roles, none))
    (hu : ∃ u ∈ w.ext.users, u.ID = scanUserID w.ext.users userName) :
    DeleteRoleFromUser (realmSys J) J userName role description w
      = (.ret () none,
         w.after (w.ext.unbind (scanUserID w.ext.users userName)
             (namedRoles J (some roleBytes)))
           [sentToken w.PxCentralAdminPwd,
            sent "GET".toList (labAdminEndpoint ++ "/users".toList) labHeaders none,
            sentToken w.PxCentralAdminPwd,
            sent "GET".toList (labAdminEndpoint ++ "/roles".toList) labHeaders none,
            sentToken w.PxCentralAdminPwd,
            sent "DELETE".toList (roleMappings (scanUserID w.ext.users userName)) labHeaders
              (some roleBytes)]) := by
  have h1 := realmSys_FetchIDOfUser J userName w hU
  have h2 := realmSys_GetRoleID J role (w.after w.ext [sentToken w.PxCentralAdminPwd,
    sent "GET".toList (labAdminEndpoint ++ "/users".toList) labHeaders none]) hR
  simp only [bindingJSON] at hm
  simp only [World.after_ext, World.after_pwd, World.after_after] at h2
  have h5 := realmSys_send J "DELETE".toList (roleMappings (scanUserID w.ext.users userName))
    labHeaders (some roleBytes)
    (w.after w.ext ([sentToken w.PxCentralAdminPwd,
      sent "GET".toList (labAdminEndpoint ++ "/users".toList) labHeaders none] ++
      [sentToken w.PxCentralAdminPwd,
       sent "GET".toList (labAdminEndpoint ++ "/roles".toList) labHeaders none] ++
      [sentToken w.PxCentralAdminPwd])) _ _
    (realmAnswer_unbind J w.ext _ labHeaders _ hu)
  simp only [roleMappings, World.after_after, World.after_ext] at h5
  simp only [DeleteRoleFromUser, h1, h2, rolesJSON, roleJSON, mapJSON, stringsJSON, List.map,
    List.nil_append, hm, (realmSys_endpoint J _).1, realmSys_headers_of, World.after_ext,
    World.after_pwd, World.after_after, h5]
  rfl

set_option maxRecDepth 8000 in
theorem realmSys_GetRolesForUser (J : Codec) (userName : GoString) (w : World Realm)
    (hU : J.UnmarshalUsers (J.Marshal (usersJSON w.ext.users)).1 = (w.ext.users, none))
    (hC : J.UnmarshalRoles (J.Marshal
        (rolesJSON (w.ext.rolesOf (scanUserID w.ext.users userName)))).1
      = (w.ext.rolesOf (scanUserID w.ext.users userName), none))
    (hu : ∃ u ∈ w.ext.users, u.ID = scanUserID w.ext.users userName) :
    GetRolesForUser (realmSys J) J userName w
      = (.ret (w.ext.rolesOf (scanUserID w.ext.users userName)) none,
         w.after w.ext
           [sentToken w.PxCentralAdminPwd, sentToken w.PxCentralAdminPwd,
            sent "GET".toList (labAdminEndpoint ++ "/users".toList) labHeaders none,
            sent "GET".toList (roleMappings (scanUserID w.ext.users userName)
              ++ "/composite".toList) labHeaders none]) := by
  have h1 := realmSys_FetchIDOfUser J userName (w.after w.ext [sentToken w.PxCentralAdminPwd]) hU
  simp only [World.after_ext, World.after_pwd, World.after_after] at h1
  have h5 := realmSys_send J "GET".toList (labAdminEndpoint ++ "/users/".toList
      ++ scanUserID w.ext.users userName ++ "/role-mappings/realm/composite".toList)
    labHeaders none
    (w.after w.ext ([sentToken w.PxCentralAdminPwd] ++ [sentToken w.PxCentralAdminPwd,
      sent "GET".toList (labAdminEndpoint ++ "/users".toList) labHeaders none])) _ _
    (realmAnswer_composite J w.ext _ labHeaders none hu)
  simp only [World.after_after, World.after_ext] at h5
  have hC2 : J.UnmarshalRoles
      ({ StatusCode := 200, Body := (J.Marshal
          (rolesJSON (w.ext.rolesOf (scanUserID w.ext.users userName)))).1,
         ReadErr := none } : HTTPResponse).Body
      = (w.ext.rolesOf (scanUserID w.ext.users userName), none) := hC
  simp only [GetRolesForUser, realmSys_headers_of, (realmSys_endpoint J _).1, h1, h5, hC2,
    World.after_ext, World.after_pwd, World.after_after]
  have hurl : roleMappings (scanUserID w.ext.users userName) ++ "/composite".toList
      = labAdminEndpoint ++ "/users/".toList ++ scanUserID w.ext.users userName
        ++ "/role-mappings/realm/composite".toList := by
    simp [roleMappings]
  rw [hurl]
  rfl

theorem scanUserID_mem (users : List KeycloakUserRepresentation) (userName : GoString)
    (h : ∃ u ∈ users, u.Name = userName) :
    ∃ u ∈ users, u.ID = scanUserID users userName := by
  induction users with
  | nil => obtain ⟨u, hu, -⟩ := h; simp at hu
  | cons x rest ih =>
    by_cases hx : x.Name = userName
    · exact ⟨x, by simp, by simp [scanUserID, hx]⟩
    · obtain ⟨u, hu, hn⟩ := h
      have hrest : ∃ u ∈ rest, u.Name = userName := by
        rcases List.mem_cons.mp hu with e | e
        · exact absurd (e ▸ hn) hx
        · exact ⟨u, e, hn⟩
      obtain ⟨v, hv, hid⟩ := ih hrest
      exact ⟨v, List.mem_cons_of_mem _ hv, by simp [scanUserID, hx, hid]⟩

theorem lastRequest_sent (t pre : List Event) (method url : GoString) (headers : Header)
    (body : Option GoString) :
    lastRequest (t ++ (pre ++ [sent method url headers body])) = some (method, url, body) := by
  rw [← List.append_assoc]
  simp [lastRequest, httpRequests_append, httpRequests, sent, requestLine]

theorem realmSys_add_step (J : Codec) (userName role description roleBytes : GoString)
    (w : World Realm)
    (hm : J.Marshal (bindingJSON (scanRoleID w.ext.roles role) role description)
      = (roleBytes, none))
    (hU : J.UnmarshalUsers (J.Marshal (usersJSON w.ext.users)).1 = (w.ext.users, none))
    (hR : J.UnmarshalRoles (J.Marshal (rolesJSON w.ext.roles)).1 = (w.ext.roles, none))
    (hu : ∃ u ∈ w.ext.users, u.ID = scanUserID w.ext.users userName) :
    ∃ w1, AddRoleToUser (realmSys J) J userName role description w = (.ret () none, w1) ∧
      w1.ext = w.ext.bind (scanUserID w.ext.users userName) (namedRoles J (some roleBytes)) ∧
      lastRequest w1.trace = some ("POST".toList,
        roleMappings (scanUserID w.ext.users userName), some roleBytes) :=
  ⟨_, realmSys_AddRoleToUser J userName role description roleBytes w hm hU hR hu, rfl,
    lastRequest_sent _ [_, _, _, _, _] _ _ _ _⟩

theorem realmSys_delete_step (J : Codec) (userName role description roleBytes : GoString)
    (w : World Realm)
    (hm : J.Marshal (bindingJSON (scanRoleID w.ext.roles role) role description)
      = (roleBytes, none))
    (hU : J.UnmarshalUsers (J.Marshal (usersJSON w.ext.users)).1 = (w.ext.users, none))
    (hR : J.UnmarshalRoles (J.Marshal (rolesJSON w.ext.roles)).1 = (w.ext.roles, none))
    (hu : ∃ u ∈ w.ext.users, u.ID = scanUserID w.ext.users userName) :
    ∃ w1, DeleteRoleFromUser (realmSys J) J userName role description w = (.ret () none, w1) ∧
      w1.ext = w.ext.unbind (scanUserID w.ext.users userName) (namedRoles J (some roleBytes)) ∧
      lastRequest w1.trace = some ("DELETE".toList,
        roleMappings (scanUserID w.ext.users userName), some roleBytes) :=
  ⟨_, realmSys_DeleteRoleFromUser J userName role description roleBytes w hm hU hR hu, rfl,
    lastRequest_sent _ [_, _, _, _, _] _ _ _ _⟩

theorem realmSys_list_step (J : Codec) (userName : GoString) (w : World Realm)
    (hU : J.UnmarshalUsers (J.Marshal (usersJSON w.ext.users)).1 = (w.ext.users, none))
    (hC : J.UnmarshalRoles (J.Marshal
        (rolesJSON (w.ext.rolesOf (scanUserID w.ext.users userName)))).1
      = (w.ext.rolesOf (scanUserID w.ext.users userName), none))
    (hu : ∃ u ∈ w.ext.users, u.ID = scanUserID w.ext.users userName) :
    ∃ w1, GetRolesForUser (realmSys J) J userName w
        = (.ret (w.ext.rolesOf (scanUserID w.ext.users userName)) none, w1) ∧
      w1.ext = w.ext ∧
      lastRequest w1.trace = some ("GET".toList,
        roleMappings (scanUserID w.ext.users userName) ++ "/composite".toList, none) :=
  ⟨_, realmSys_GetRolesForUser J userName w hU hC hu, rfl,
    lastRequest_sent _ [_, _, _] _ _ _ _⟩

set_option maxRecDepth 8000 in
/-- C23: against the model IdP that stores bindings, in every realm in which a
user named `userName` and a role named `role` exist, that name naming one
role id, and with a codec that reads back the listings of the realm as they
were written: `AddRoleToUser(userName, role, description)` succeeds, and the
roles that `GetRolesForUser(userName)` then returns contain a role named
`role`; the following `DeleteRoleFromUser(userName, role, description)`
succeeds, and the roles that `GetRolesForUser(userName)` then returns contain
no role of that name.  The add and the delete are sent to
`/users/ID/role-mappings/realm` of the user id that `FetchIDOfUser` resolves,
with the resolved role id in the body, the only binding added and removed;
both listings are read from `/users/ID/role-mappings/realm/composite` of the
same user id. -/
theorem role_binding_round_trip (J : Codec) (userName role description : GoString)
    (w : World Realm)
    (huser : ∃ u ∈ w.ext.users, u.Name = userName)
    (hrole : ∃ r ∈ w.ext.roles, r.Name = role)
    (hname : ∀ r ∈ w.ext.roles, r.Name = role → r.ID = scanRoleID w.ext.roles role)
    (hM : ∀ d, (J.Marshal d).2 = none)
    (hU : J.UnmarshalUsers (J.Marshal (usersJSON w.ext.users)).1 = (w.ext.users, none))
    (hR : ∀ p, J.UnmarshalRoles (J.Marshal (rolesJSON (w.ext.roles.filter p))).1
      = (w.ext.roles.filter p, none))
    (hK : namedRoles J (some (J.Marshal
        (bindingJSON (scanRoleID w.ext.roles role) role description)).1)
      = [scanRoleID w.ext.roles role]) :
    ∃ (w1 w2 w3 w4 : World Realm) (roles1 roles2 : List KeycloakRoleRepresentation),
      AddRoleToUser (realmSys J) J userName role description w = (.ret () none, w1) ∧
      GetRolesForUser (realmSys J) J userName w1 = (.ret roles1 none, w2) ∧
      (∃ r ∈ roles1, r.Name = role) ∧
      DeleteRoleFromUser (realmSys J) J userName role description w2 = (.ret () none, w3) ∧
      GetRolesForUser (realmSys J) J userName w3 = (.ret roles2 none, w4) ∧
      (∀ r ∈ roles2, r.Name ≠ role) ∧
      lastRequest w1.trace = some ("POST".toList,
        roleMappings (scanUserID w.ext.users userName),
        some (J.Marshal (bindingJSON (scanRoleID w.ext.roles role) role description)).1) ∧
      lastRequest w2.trace = some ("GET".toList,
        roleMappings (scanUserID w.ext.users userName) ++ "/composite".toList, none) ∧
      lastRequest w3.trace = some ("DELETE".toList,
        roleMappings (scanUserID w.ext.users userName),
        some (J.Marshal (bindingJSON (scanRoleID w.ext.roles role) role description)).1) ∧
      lastRequest w4.trace = some ("GET".toList,
        roleMappings (scanUserID w.ext.users userName) ++ "/composite".toList, none) ∧
      w1.ext.bindings = w.ext.bindings
        ++ [(scanUserID w.ext.users userName, scanRoleID w.ext.roles role)] ∧
      w3.ext.bindings = w1.ext.bindings.filter
        (fun b => decide (b ≠ (scanUserID w.ext.users userName,
          scanRoleID w.ext.roles role))) := by
  have hu := scanUserID_mem w.ext.users userName huser
  have hm : J.Marshal (bindingJSON (scanRoleID w.ext.roles role) role description)
      = ((J.Marshal (bindingJSON (scanRoleID w.ext.roles role) role description)).1, none) :=
    Prod.ext rfl (hM _)
  have hRall : J.UnmarshalRoles (J.Marshal (rolesJSON w.ext.roles)).1 = (w.ext.roles, none) := by
    have h := hR (fun _ => true)
    simpa using h
  obtain ⟨w1, hA, e1, q1⟩ := realmSys_add_step J userName role description _ w hm hU hRall hu
  rw [hK] at e1
  have u1 : w1.ext.users = w.ext.users := by rw [e1]; rfl
  have r1 : w1.ext.roles = w.ext.roles := by rw [e1]; rfl
  obtain ⟨w2, hL1, e2, q2⟩ := realmSys_list_step J userName w1
    (by rw [u1]; exact hU) (by rw [u1]; simp only [Realm.rolesOf, r1]; exact hR _)
    (by rw [u1]; exact hu)
  have u2 : w2.ext.users = w.ext.users := by rw [e2, u1]
  have r2 : w2.ext.roles = w.ext.roles := by rw [e2, r1]
  obtain ⟨w3, hD, e3, q3⟩ := realmSys_delete_step J userName role description _ w2
    (by rw [r2]; exact hm) (by rw [u2]; exact hU) (by rw [r2]; exact hRall)
    (by rw [u2]; exact hu)
  rw [u2, hK] at e3
  have u3 : w3.ext.users = w.ext.users := by rw [e3]; exact u2
  have r3 : w3.ext.roles = w.ext.roles := by rw [e3]; exact r2
  obtain ⟨w4, hL2, -, q4⟩ := realmSys_list_step J userName w3
    (by rw [u3]; exact hU) (by rw [u3]; simp only [Realm.rolesOf, r3]; exact hR _)
    (by rw [u3]; exact hu)
  rw [u1] at hL1 q2
  rw [u2] at q3
  rw [u3] at hL2 q4
  have b1 : w1.ext.bindings = w.ext.bindings
      ++ [(scanUserID w.ext.users userName, scanRoleID w.ext.roles role)] := by
    rw [e1]; simp [Realm.bind]
  have b3 : w3.ext.bindings = w1.ext.bindings.filter
      (fun b => decide (b ≠ (scanUserID w.ext.users userName,
        scanRoleID w.ext.roles role))) := by
    rw [e3, e2]
    simp only [Realm.unbind]
    apply List.filter_congr
    intro b _
    rcases b with ⟨x, y⟩
    simp
  refine ⟨w1, w2, w3, w4, _, _, hA, hL1, ?_, hD, hL2, ?_, q1, q2, q3, q4, b1, b3⟩
  · obtain ⟨r, hr, hn⟩ := hrole
    refine ⟨r, ?_, hn⟩
    have hid := hname r hr hn
    simp only [Realm.rolesOf, List.mem_filter, decide_eq_true_eq, r1, b1]
    exact ⟨hr, by simp [hid]⟩
  · intro r hr hn
    simp only [Realm.rolesOf, List.mem_filter, decide_eq_true_eq, r3, b3] at hr
    have hid := hname r hr.1 hn
    have h2 := hr.2.2
    simp [hid] at h2

set_option maxRecDepth 100000 in
theorem labRealmCodec_reads (p : KeycloakRoleRepresentation → Bool) :
    labRealmCodec.UnmarshalRoles (labRealmCodec.Marshal
        (rolesJSON (realmWorld.ext.roles.filter p))).1
      = (realmWorld.ext.roles.filter p, none) := by
  have hroles : realmWorld.ext.roles
      = [labRole "r-0" "px-backup-app.user", labRole "r-1" "role-x"] := rfl
  rw [hroles]
  rcases h0 : p (labRole "r-0" "px-backup-app.user") <;>
    rcases h1 : p (labRole "r-1" "role-x") <;>
    simp only [List.filter, h0, h1] <;> rfl

set_option maxRecDepth 100000 in
theorem role_binding_round_trip_witness :
    (∃ (w1 w2 w3 w4 : World Realm) (roles1 roles2 : List KeycloakRoleRepresentation),
      AddRoleToUser (realmSys labRealmCodec) labRealmCodec "bob".toList "role-x".toList
        "d".toList realmWorld = (.ret () none, w1) ∧
      GetRolesForUser (realmSys labRealmCodec) labRealmCodec "bob".toList w1
        = (.ret roles1 none, w2) ∧
      (∃ r ∈ roles1, r.Name = "role-x".toList) ∧
      DeleteRoleFromUser (realmSys labRealmCodec) labRealmCodec "bob".toList "role-x".toList
        "d".toList w2 = (.ret () none, w3) ∧
      GetRolesForUser (realmSys labRealmCodec) labRealmCodec "bob".toList w3
        = (.ret roles2 none, w4) ∧
      (∀ r ∈ roles2, r.Name ≠ "role-x".toList) ∧
      lastRequest w1.trace = some ("POST".toList, roleMappings "u-2".toList,
        some (renderJSON (bindingJSON "r-1".toList "role-x".toList "d".toList))) ∧
      lastRequest w2.trace = some ("GET".toList,
        roleMappings "u-2".toList ++ "/composite".toList, none) ∧
      lastRequest w3.trace = some ("DELETE".toList, roleMappings "u-2".toList,
        some (renderJSON (bindingJSON "r-1".toList "role-x".toList "d".toList))) ∧
      lastRequest w4.trace = some ("GET".toList,
        roleMappings "u-2".toList ++ "/composite".toList, none) ∧
      w1.ext.bindings = labRealm.bindings ++ [("u-2".toList, "r-1".toList)] ∧
      w3.ext.bindings = w1.ext.bindings.filter
        (fun b => decide (b ≠ ("u-2".toList, "r-1".toList)))) ∧
    (GetRolesForUser (realmSys labRealmCodec) labRealmCodec "bob".toList boundWorld).1
      = .ret [labRole "r-0" "px-backup-app.user", labRole "r-1" "role-x"] none ∧
    (GetRolesForUser (realmSys labRealmCodec) labRealmCodec "bob".toList unboundWorld).1
      = .ret [labRole "r-0" "px-backup-app.user"] none ∧
    unboundWorld.ext.bindings = labRealm.bindings :=
  ⟨role_binding_round_trip labRealmCodec "bob".toList "role-x".toList "d".toList realmWorld
      ⟨labUser "u-2" "bob" "bob@example.com", by decide, by rfl⟩
      ⟨labRole "r-1" "role-x", by decide, by rfl⟩
      (by decide) (fun _ => rfl) (by rfl) labRealmCodec_reads (by decide),
    by decide, by decide, by decide⟩

end backup -- package drivers/backup, resumed below

/-! ## `TargetCluster.CreateNamespace` -/

namespace targetcluster
open backup

theorem createNamespaceTask_done (K : K8sCore κ) (nsName : GoString) (s : κ) :
    ∃ ns s1, createNamespaceTask K nsName s = (.done ns false none, s1) := by
  rcases hc : K.CreateNamespace s { Name := nsName, Labels := pdsLabel } with ⟨⟨ns, err⟩, s1⟩
  by_cases hx : K.IsAlreadyExists err = true
  · rcases hg : K.GetNamespace s1 nsName with ⟨⟨ns2, _ | err2⟩, s2⟩
    · exact ⟨ns2, s2, by simp only [createNamespaceTask, hc, hx, if_true, hg]⟩
    · exact ⟨ns2, s2, by simp only [createNamespaceTask, hc, hx, if_true, hg]⟩
  · exact ⟨ns, s1, by simp only [createNamespaceTask, hc, hx, Bool.false_eq_true, if_false]⟩

theorem CreateNamespace_of_task (K : K8sCore κ) (T : Timer κ) (fuel : Nat) (nsName : GoString)
    (s s1 : κ) (ns : Option Namespace)
    (ht : createNamespaceTask K nsName s = (.done ns false none, s1)) :
    CreateNamespace K T (fuel + 1) nsName s = some (.ret ns none, s1) := by
  have hnow : T.Now s < T.Now s + k8sObjectCreateTimeout := by
    simp [k8sObjectCreateTimeout]
  have h := retryLoop_done T (createNamespaceTask K nsName) k8sObjectCreateTimeout
    DefaultRetryInterval (T.Now s + k8sObjectCreateTimeout) fuel [] s s1 ns false hnow ht
  simp only [CreateNamespace, DoRetryWithTimeout, h]

/-- C30: the retried task of `CreateNamespace` returns `(ns, false, nil)` on
every path, so `CreateNamespace` (given at least one attempt) returns the
task's namespace with a nil error after a single attempt: a creation error
other than already-exists gives the namespace of the failed creation, and a
failed `GetNamespace` after an already-exists error gives the namespace of the
failed lookup, each with a nil error, whatever the error was. -/
theorem CreateNamespace_swallows_errors (K : K8sCore κ) (T : Timer κ) (fuel : Nat)
    (nsName : GoString) (s : κ) (hfuel : 0 < fuel) :
    (∀ s0, ∃ ns s1, createNamespaceTask K nsName s0 = (.done ns false none, s1)) ∧
    (∃ ns s1, createNamespaceTask K nsName s = (.done ns false none, s1) ∧
      CreateNamespace K T fuel nsName s = some (.ret ns none, s1)) ∧
    (∀ ns err s1, K.CreateNamespace s { Name := nsName, Labels := pdsLabel }
        = ((ns, some err), s1) →
      K.IsAlreadyExists (some err) = false →
      CreateNamespace K T fuel nsName s = some (.ret ns none, s1)) ∧
    (∀ ns err s1 ns2 err2 s2, K.CreateNamespace s { Name := nsName, Labels := pdsLabel }
        = ((ns, err), s1) →
      K.IsAlreadyExists err = true →
      K.GetNamespace s1 nsName = ((ns2, some err2), s2) →
      CreateNamespace K T fuel nsName s = some (.ret ns2 none, s2)) := by
  obtain ⟨n, rfl⟩ : ∃ n, fuel = n + 1 := ⟨fuel - 1, by omega⟩
  refine ⟨createNamespaceTask_done K nsName, ?_, ?_, ?_⟩
  · obtain ⟨ns, s1, ht⟩ := createNamespaceTask_done K nsName s
    exact ⟨ns, s1, ht, CreateNamespace_of_task K T n nsName s s1 ns ht⟩
  · intro ns err s1 hc hx
    have ht : createNamespaceTask K nsName s = (.done ns false none, s1) := by
      simp only [createNamespaceTask, hc, hx, Bool.false_eq_true, if_false]
    exact CreateNamespace_of_task K T n nsName s s1 ns ht
  · intro ns err s1 ns2 err2 s2 hc hx hg
    have ht : createNamespaceTask K nsName s = (.done ns2 false none, s2) := by
      simp only [createNamespaceTask, hc, hx, if_true, hg]
    exact CreateNamespace_of_task K T n nsName s s2 ns2 ht

theorem CreateNamespace_swallows_errors_witness :
    0 < 1 ∧
    CreateNamespace labCore labClock 1 "locked".toList 0 = some (.ret none none, 0) ∧
    CreateNamespace labCore labClock 1 "gone".toList 0 = some (.ret none none, 0) :=
  ⟨by decide,
   (CreateNamespace_swallows_errors labCore labClock 1 "locked".toList 0 (by decide)).2.2.1
     none forbidden 0 (by rfl) (by decide),
   (CreateNamespace_swallows_errors labCore labClock 1 "gone".toList 0 (by decide)).2.2.2
     none (some alreadyExists) 0 none notFound 0 (by rfl) (by decide) (by rfl)⟩

end targetcluster

